import Mathlib

/-!
# Multiplex reactor: state loader, listen-port allocation, providers

A shallow embedding of `multiplex/setup.go` and `multiplex/reactor.go`.
Go maps are total functions into `Option`, `(value, error)` results are
`Except String value`, byte slices are lists of bytes, and effects on the
per-scope databases are made explicit by threading the database multiplex
and a log of the database operations through the loader.
-/

namespace Multiplex

/-! ## Data model -/

/-- A Go byte slice. A nil slice and an empty slice are both the empty list;
the source only observes `len` and `bytes.Equal` of the slices it handles. -/
abbrev Bytes := List (Fin 256)

/-- The fields of `types.GenesisDoc` that the multiplex code touches. -/
structure GenesisDoc where
  ChainID : String
  InitialHeight : Int
  Validators : List String
  deriving DecidableEq

/-- The fields of `sm.State` that the multiplex code touches. -/
structure State where
  ChainID : String
  LastBlockHeight : Int
  Validators : List String
  deriving DecidableEq

/-- A scoped database (`ScopedDB`, wrapping a `dbm.DB`): the stored values per key,
and the error (if any) that the backend raises on `Get` and on `SetSync`. The field
`state` is the state machine that the state store keeps in the database under its own
keys, in decoded form (`none` when the store has persisted no state). -/
structure ScopedDB where
  data : String → Option Bytes
  getErr : String → Option String
  setErr : String → Bytes → Option String
  state : Option State := none

/-- The `Get` method of the database: the stored value, nil when the key is absent. -/
def ScopedDB.Get (db : ScopedDB) (key : String) : Except String Bytes :=
  match db.getErr key with
  | some e => .error e
  | none => .ok ((db.data key).getD [])

/-- The `SetSync` method of the database: the database afterwards and the error. -/
def ScopedDB.SetSync (db : ScopedDB) (key : String) (value : Bytes) : ScopedDB × Option String :=
  match db.setErr key value with
  | some e => (db, some e)
  | none => ({ db with data := fun k => if k = key then some value else db.data k }, none)

/-- The type `MultiplexDB`, a Go `map[string]*ScopedDB`. -/
abbrev MultiplexDB := String → Option ScopedDB

/-- The type `ScopedState`: a state machine tagged with its scope hash. -/
structure ScopedState where
  ScopeHash : String
  State : State
  deriving DecidableEq

/-- The type `MultiplexState`, a Go `map[string]*ScopedState`. -/
abbrev MultiplexState := String → Option ScopedState

/-- The interface `node.IChecksummedGenesisDoc` as the loader uses it. -/
structure IChecksummedGenesisDoc where
  GenesisDocByScope : String → Except String GenesisDoc
  GetChecksum : Bytes

/-- The fields of `cfg.Config` that the multiplex code reads. -/
structure Config where
  Replication : String
  UserScopes : List (String × List String)
  ListenPort : Int
  StorageExperimentalKeyLayout : String
  P2PListenAddress : String
  RPCListenAddress : String
  GRPCListenAddress : String
  GRPCPrivilegedListenAddress : String
  StorageDiscardABCIResponses : Bool := false
  StorageCompact : Bool := false
  StorageCompactionInterval : Int := 1000
  RootDir : String := ""
  ProxyApp : String := ""
  ABCI : String := ""
  PrivValidatorListenAddr : String := ""
  PrivValidatorKey : String := "config/priv_validator_key.json"
  PrivValidatorState : String := "data/priv_validator_state.json"
  BlockSyncVersion : String := "v0"

/-- The collaborators of the loader that live outside `multiplex/setup.go`:
`NewUserConfig(replication, userScopes).GetScopeHashes()`, the genesis doc's
`ValidateAndComplete` (returning the completed doc), and the state store's
`LoadFromDBOrGenesisDoc` over a database with a given key layout (returning the
database afterwards and the loaded state or the error). -/
structure Env where
  GetScopeHashes : String → List (String × List String) → List String
  ValidateAndComplete : GenesisDoc → Except String GenesisDoc
  LoadFromDBOrGenesisDoc : ScopedDB → String → GenesisDoc → ScopedDB × Except String State

/-- One operation performed on a scope's state database by the loader. -/
inductive DBOp where
  | get (scope key : String) (value : Bytes)
  | getFailed (scope key : String) (e : String)
  | setSync (scope key : String) (value : Bytes)
  | setSyncFailed (scope key : String) (value : Bytes) (e : String)
  | load (scope : String)
  deriving DecidableEq

def genesisDocKey : String := "mxGenesisDoc"

def genesisDocHashKey : String := "mxGenesisDocHash"

/-- Modelled from the spec: `GetScopedDB` is not part of the given sources; the spec
describes `MultiplexDB` as a mapping from scope hash to scoped database and the
providers as lookups by scope hash, so it is the map lookup, failing on a missing key. -/
def GetScopedDB (multiplex : MultiplexDB) (userScopeHash : String) : Except String ScopedDB :=
  match multiplex userScopeHash with
  | some db => .ok db
  | none => .error ("could not find DB for scope hash " ++ userScopeHash)

/-- Assignment `multiplex[userScopeHash] = db` on a Go map. -/
def setDB (multiplex : MultiplexDB) (userScopeHash : String) (db : ScopedDB) : MultiplexDB :=
  fun k => if k = userScopeHash then some db else multiplex k

/-- Assignment `multiplexState[userScopeHash] = s` on a Go map. -/
def setState (m : MultiplexState) (userScopeHash : String) (s : ScopedState) : MultiplexState :=
  fun k => if k = userScopeHash then some s else m k

/-! ## `encoding/hex` -/

/-- Go's `fromHexChar`: the value of a hexadecimal digit. -/
def fromHexChar (c : Char) : Option Nat :=
  if '0' ≤ c ∧ c ≤ '9' then some (c.toNat - '0'.toNat)
  else if 'a' ≤ c ∧ c ≤ 'f' then some (c.toNat - 'a'.toNat + 10)
  else if 'A' ≤ c ∧ c ≤ 'F' then some (c.toNat - 'A'.toNat + 10)
  else none

/-- Decoding of a list of hexadecimal digits, two digits per byte. -/
def hexDecodeChars : List Char → Option Bytes
  | [] => some []
  | [_] => none
  | a :: b :: rest =>
    match fromHexChar a, fromHexChar b, hexDecodeChars rest with
    | some hi, some lo, some tl => some (Fin.ofNat (hi * 16 + lo) :: tl)
    | _, _, _ => none

/-- Go's `hex.DecodeString`: fails on an odd length or on a character that is not a
hexadecimal digit. -/
def hexDecodeString (s : String) : Except String Bytes :=
  match hexDecodeChars s.toList with
  | some b => .ok b
  | none => .error "encoding/hex: invalid input"

/-! ## `LoadMultiplexStateFromDBOrGenesisDocProviderWithConfig` -/

/-- The variables the per-scope loop of the loader updates: the state databases,
the log of database operations, the state multiplex and the collected hashes. -/
structure LoadLoop where
  dbs : MultiplexDB
  trace : List DBOp
  multiplexState : MultiplexState
  genDocSetHashes : List Bytes

/-- The check of the optional `--genesis_hash` value passed by the operator. -/
def checkOperatorGenesisHash (ics : IChecksummedGenesisDoc) (operatorGenesisHashHex : String) :
    Option String :=
  if operatorGenesisHashHex ≠ "" then
    match hexDecodeString operatorGenesisHashHex with
    | .error _ => some "genesis hash provided by operator cannot be decoded"
    | .ok decodedOperatorGenesisHash =>
      if ics.GetChecksum ≠ decodedOperatorGenesisHash then
        some "genesis doc set hash in db does not match passed --genesis_hash value"
      else none
  else none

/-- The tail of one loop iteration: build the state store over the scope's database,
load the state and record it in the state multiplex. -/
def loadScopeState (env : Env) (config : Config) (st : LoadLoop) (userScopeHash : String)
    (csGenDoc : GenesisDoc) (stateDB : ScopedDB) (hash : Bytes) : LoadLoop × Option String :=
  let dbKeyLayoutVersion := config.StorageExperimentalKeyLayout
  match env.LoadFromDBOrGenesisDoc stateDB dbKeyLayoutVersion csGenDoc with
  | (db2, .error e) =>
    ({ st with dbs := setDB st.dbs userScopeHash db2,
               trace := st.trace ++ [DBOp.load userScopeHash],
               genDocSetHashes := st.genDocSetHashes ++ [hash] }, some e)
  | (db2, .ok userState) =>
    ({ dbs := setDB st.dbs userScopeHash db2,
       trace := st.trace ++ [DBOp.load userScopeHash],
       multiplexState := setState st.multiplexState userScopeHash
         { ScopeHash := userScopeHash, State := userState },
       genDocSetHashes := st.genDocSetHashes ++ [hash] }, none)

/-- One iteration of the per-scope loop; the second component is the error that
makes the loader return, if any. -/
def loadScope (env : Env) (ics : IChecksummedGenesisDoc) (operatorGenesisHashHex : String)
    (config : Config) (st : LoadLoop) (userScopeHash : String) : LoadLoop × Option String :=
  match ics.GenesisDocByScope userScopeHash with
  | .error e =>
    (st, some ("error retrieving genesis doc for scope hash " ++ userScopeHash ++ ": " ++ e))
  | .ok csGenDoc0 =>
  match env.ValidateAndComplete csGenDoc0 with
  | .error e =>
    (st, some ("error in genesis doc for scope hash " ++ userScopeHash ++ ": " ++ e))
  | .ok csGenDoc =>
  match GetScopedDB st.dbs userScopeHash with
  | .error e =>
    (st, some ("error retrieving DB for scope hash " ++ userScopeHash ++ ": " ++ e))
  | .ok stateDB =>
  match stateDB.Get genesisDocHashKey with
  | .error e =>
    ({ st with trace := st.trace ++ [DBOp.getFailed userScopeHash genesisDocHashKey e] },
      some ("error retrieving genesis doc set hash: " ++ e))
  | .ok genDocSetHashFromDB =>
  let st1 : LoadLoop :=
    { st with trace := st.trace ++ [DBOp.get userScopeHash genesisDocHashKey genDocSetHashFromDB] }
  match checkOperatorGenesisHash ics operatorGenesisHashHex with
  | some e => (st1, some e)
  | none =>
  if genDocSetHashFromDB.length = 0 then
    match stateDB.SetSync genesisDocHashKey ics.GetChecksum with
    | (db1, some e) =>
      ({ st1 with
          dbs := setDB st1.dbs userScopeHash db1,
          trace := st1.trace ++
            [DBOp.setSyncFailed userScopeHash genesisDocHashKey ics.GetChecksum e] },
        some ("failed to save genesis doc hash to db: " ++ e))
    | (db1, none) =>
      loadScopeState env config
        { st1 with
            dbs := setDB st1.dbs userScopeHash db1,
            trace := st1.trace ++ [DBOp.setSync userScopeHash genesisDocHashKey ics.GetChecksum] }
        userScopeHash csGenDoc db1 ics.GetChecksum
  else if genDocSetHashFromDB ≠ ics.GetChecksum then
    (st1, some "genesis doc hash in db does not match loaded genesis doc")
  else
    loadScopeState env config st1 userScopeHash csGenDoc stateDB genDocSetHashFromDB

/-- The loop `for _, userScopeHash := range replicatedChains`, stopping at the first error. -/
def loadScopes (env : Env) (ics : IChecksummedGenesisDoc) (operatorGenesisHashHex : String)
    (config : Config) : List String → LoadLoop → LoadLoop × Option String
  | [], st => (st, none)
  | userScopeHash :: rest, st =>
    match loadScope env ics operatorGenesisHashHex config st userScopeHash with
    | (st1, some e) => (st1, some e)
    | (st1, none) => loadScopes env ics operatorGenesisHashHex config rest st1

/-- What a call of the loader returns (`multiplexState`, `icsGenDoc`, `err`) and what it
leaves behind: the state databases and the log of database operations. -/
structure LoadResult where
  multiplexState : MultiplexState
  icsGenDoc : Option IChecksummedGenesisDoc
  err : Option String
  dbs : MultiplexDB
  trace : List DBOp

/-- The empty map `MultiplexState{}`. -/
def emptyMultiplexState : MultiplexState := fun _ => none

/-- The function `LoadMultiplexStateFromDBOrGenesisDocProviderWithConfig`. The genesis
provider is called once, so it is given by its result. The configuration is dereferenced
before the loop, so the later test `config != nil` always holds and the key layout is
always read from it. -/
def LoadMultiplexStateFromDBOrGenesisDocProviderWithConfig (env : Env)
    (stateMultiplexDB : MultiplexDB) (genesisDocProvider : Except String IChecksummedGenesisDoc)
    (operatorGenesisHashHex : String) (config : Config) : LoadResult :=
  match genesisDocProvider with
  | .error e =>
    { multiplexState := emptyMultiplexState, icsGenDoc := none, err := some e,
      dbs := stateMultiplexDB, trace := [] }
  | .ok icsGenDoc =>
    let replicatedChains := env.GetScopeHashes config.Replication config.UserScopes
    let numReplicatedChains := replicatedChains.length
    match loadScopes env icsGenDoc operatorGenesisHashHex config replicatedChains
        { dbs := stateMultiplexDB, trace := [], multiplexState := emptyMultiplexState,
          genDocSetHashes := [] } with
    | (st, some e) =>
      { multiplexState := emptyMultiplexState, icsGenDoc := none, err := some e,
        dbs := st.dbs, trace := st.trace }
    | (st, none) =>
      let numGenDocSetHashes := st.genDocSetHashes.length
      if numGenDocSetHashes ≠ numReplicatedChains then
        { multiplexState := emptyMultiplexState, icsGenDoc := none,
          err := some ("missing genesis docs in set, got " ++ toString numGenDocSetHashes ++
            " docs, expected " ++ toString numReplicatedChains),
          dbs := st.dbs, trace := st.trace }
      else
        { multiplexState := st.multiplexState, icsGenDoc := some icsGenDoc, err := none,
          dbs := st.dbs, trace := st.trace }

/-! ## Predicates used in the statements about the loader -/

/-- What a loop iteration that raises no error has done. -/
def StepOk (env : Env) (ics : IChecksummedGenesisDoc) (op : String) (config : Config)
    (st st1 : LoadLoop) (h : String) : Prop :=
  ∃ d0 doc db dprev s,
    ics.GenesisDocByScope h = .ok d0 ∧ env.ValidateAndComplete d0 = .ok doc ∧
    st.dbs h = some db ∧ checkOperatorGenesisHash ics op = none ∧
    db.getErr genesisDocHashKey = none ∧
    dprev.Get genesisDocHashKey = .ok ics.GetChecksum ∧
    (dprev = db ∨ ((db.data genesisDocHashKey).getD [] = [] ∧
      db.SetSync genesisDocHashKey ics.GetChecksum = (dprev, none))) ∧
    (env.LoadFromDBOrGenesisDoc dprev config.StorageExperimentalKeyLayout doc).2 = .ok s ∧
    st1.dbs = setDB st.dbs h
      (env.LoadFromDBOrGenesisDoc dprev config.StorageExperimentalKeyLayout doc).1 ∧
    st1.multiplexState = setState st.multiplexState h { ScopeHash := h, State := s } ∧
    st1.genDocSetHashes.length = st.genDocSetHashes.length + 1

/-- What the loop has established for a scope it went through without error. -/
def ScopeLoaded (env : Env) (ics : IChecksummedGenesisDoc) (op : String) (config : Config)
    (st : LoadLoop) (h : String) : Prop :=
  ∃ d0 doc dprev s,
    ics.GenesisDocByScope h = .ok d0 ∧ env.ValidateAndComplete d0 = .ok doc ∧
    checkOperatorGenesisHash ics op = none ∧
    dprev.Get genesisDocHashKey = .ok ics.GetChecksum ∧
    (env.LoadFromDBOrGenesisDoc dprev config.StorageExperimentalKeyLayout doc).2 = .ok s ∧
    st.dbs h = some
      (env.LoadFromDBOrGenesisDoc dprev config.StorageExperimentalKeyLayout doc).1 ∧
    st.multiplexState h = some { ScopeHash := h, State := s }

/-- The initial loop variables of the loader. -/
def initLoop (stateMultiplexDB : MultiplexDB) : LoadLoop :=
  { dbs := stateMultiplexDB, trace := [], multiplexState := emptyMultiplexState,
    genDocSetHashes := [] }

/-! ### The log of database operations -/

/-- The scope whose database an operation addresses. -/
def DBOp.scope : DBOp → String
  | .get s _ _ => s
  | .getFailed s _ _ => s
  | .setSync s _ _ => s
  | .setSyncFailed s _ _ _ => s
  | .load s => s

/-- Whether an operation is a `SetSync` call (successful or not). -/
def DBOp.isWrite : DBOp → Bool
  | .setSync _ _ _ => true
  | .setSyncFailed _ _ _ _ => true
  | _ => false

/-- On a log listed newest first: every `SetSync` call stores `cs` under the genesis-hash
key and comes directly after a `Get` of that key on the same scope that returned an
empty value. -/
def writesFollowEmptyReadRev (cs : Bytes) : List DBOp → Prop
  | [] => True
  | op :: older =>
    (match op with
      | .setSync s k v =>
        k = genesisDocHashKey ∧ v = cs ∧ older.head? = some (.get s genesisDocHashKey [])
      | .setSyncFailed s k v _ =>
        k = genesisDocHashKey ∧ v = cs ∧ older.head? = some (.get s genesisDocHashKey [])
      | _ => True) ∧ writesFollowEmptyReadRev cs older

/-- On a log in order of execution: every `SetSync` call stores `cs` under the genesis-hash
key and comes directly after a `Get` of that key on the same scope that returned an
empty value. -/
def writesFollowEmptyRead (cs : Bytes) (trace : List DBOp) : Prop :=
  writesFollowEmptyReadRev cs trace.reverse

/-- No `SetSync` call on the database of scope `h` occurs in the log. -/
def noWriteOn (h : String) (trace : List DBOp) : Prop :=
  ∀ o, o ∈ trace → o.isWrite = true → o.scope ≠ h

/-- The genesis-hash slot of scope `h` is taken: its database, if there is one, does not
answer a `Get` of the genesis-hash key with an empty value. -/
def SlotTaken (h : String) (dbs : MultiplexDB) : Prop :=
  ∀ db, dbs h = some db → db.Get genesisDocHashKey ≠ .ok []

/-- The state store leaves the answer to `Get` of the genesis-hash key as it found it. -/
def StoreKeepsGenesisHash (env : Env) : Prop :=
  ∀ db layout doc,
    (env.LoadFromDBOrGenesisDoc db layout doc).1.Get genesisDocHashKey =
      db.Get genesisDocHashKey

/-! ### Loading again from databases the loader has been through -/

/-- Loading from a database that the store has already loaded from changes nothing and
gives the same state. -/
def StoreReloadStable (env : Env) : Prop :=
  ∀ db layout doc s, (env.LoadFromDBOrGenesisDoc db layout doc).2 = .ok s →
    env.LoadFromDBOrGenesisDoc (env.LoadFromDBOrGenesisDoc db layout doc).1 layout doc =
      ((env.LoadFromDBOrGenesisDoc db layout doc).1, .ok s)

/-- Scope `h` is settled in `dbs`: its genesis doc is there and valid, its database holds
the checksum and a state that the store loads without changing the database, and `ms`
records that state. -/
def ScopeSettled (env : Env) (ics : IChecksummedGenesisDoc) (op : String) (config : Config)
    (dbs : MultiplexDB) (ms : MultiplexState) (h : String) : Prop :=
  ∃ d0 doc d s,
    ics.GenesisDocByScope h = .ok d0 ∧ env.ValidateAndComplete d0 = .ok doc ∧
    checkOperatorGenesisHash ics op = none ∧
    dbs h = some d ∧ d.Get genesisDocHashKey = .ok ics.GetChecksum ∧
    env.LoadFromDBOrGenesisDoc d config.StorageExperimentalKeyLayout doc = (d, .ok s) ∧
    ms h = some { ScopeHash := h, State := s }

/-! ## Listen addresses: `strconv.Itoa` and the port-rewriting regular expression -/

/-- Go's `strconv.Itoa`: the decimal rendering of an integer. -/
def Itoa (n : Int) : String :=
  if n < 0 then "-" ++ Nat.repr n.natAbs else Nat.repr n.toNat

/-- Whether a character is matched by `\d` (an ASCII decimal digit). -/
def isDigit (c : Char) : Bool := decide ('0' ≤ c ∧ c ≤ '9')

/-- The leftmost-first match of `(.*)(\:\d+)(.*)` inside one line (a stretch of input
without a newline, which `.` does not match): the greedy first group runs up to the last
`:` that is followed by a digit, the second group is that `:` with all the digits that
follow, the third group is the rest of the line. The result holds group 1, the digits of
group 2 and group 3. -/
def matchLine : List Char → Option (List Char × List Char × List Char)
  | [] => none
  | c :: rest =>
    match matchLine rest with
    | some (g1, ds, g3) => some (c :: g1, ds, g3)
    | none =>
      if c = ':' ∧ (rest.head?.map isDigit).getD false = true then
        some ([], rest.takeWhile isDigit, rest.dropWhile isDigit)
      else none

/-- The replacement of the match in one line by the expansion of `$1` ++ newPort ++ `$3`;
a line without a match is copied. -/
def replaceLine (newPort : List Char) (line : List Char) : List Char :=
  match matchLine line with
  | some (g1, _, g3) => g1 ++ newPort ++ g3
  | none => line

/-- All matches replaced: the input is processed line by line, `line` being the part of
the current line already read. -/
def replaceAllAux (newPort : List Char) : List Char → List Char → List Char
  | line, [] => replaceLine newPort line
  | line, c :: cs =>
    if c = '\n' then replaceLine newPort line ++ '\n' :: replaceAllAux newPort [] cs
    else replaceAllAux newPort (line ++ [c]) cs

/-- The call `re.ReplaceAllString(src, "$1" + newPort + "$3")` for the regular expression
`(.*)(\:\d+)(.*)` compiled in `updateNodeConfig`, where `newPort` is a `:` followed by the
rendering of a port number (so that the template refers to groups 1 and 3 only). -/
def ReplaceAllString (src : String) (newPort : String) : String :=
  String.mk (replaceAllAux newPort.data [] src.data)

/-- Whether a `:` immediately followed by a decimal digit occurs in the text. -/
def hasColonDigit : List Char → Bool
  | [] => false
  | c :: rest => (decide (c = ':') && (rest.head?.map isDigit).getD false) || hasColonDigit rest

/-- A base listen address made of a host part `H`, a colon, and a non-empty string of
decimal digits, where no `:` followed by a digit occurs in `H` before a line break (as is
the case when `H` contains no line break at all). -/
def IsHostPort (addr H : String) : Prop :=
  ∃ D : String, addr = H ++ ":" ++ D ∧ D.data ≠ [] ∧ (∀ c, c ∈ D.data → isDigit c = true) ∧
    ∀ A B, H.data = A ++ '\n' :: B → hasColonDigit A = false

/-! ## The reactor -/

/-- Modelled from the spec: `cfg.PluralReplicationMode()` is not part of the given sources;
the spec names the two replication modes `singular` and `plural`. -/
def PluralReplicationMode : String := "plural"

/-- Modelled from the spec: `cfg.SingularReplicationMode()`, the other replication mode. -/
def SingularReplicationMode : String := "singular"

/-- The type `ScopedUserConfig` as far as the reactor reads it: the base of the listen
ports. The reactor adds it to a slice index, so it is a Go `int`. -/
structure ScopedUserConfig where
  ListenPort : Int

/-- The method `GetListenPort` of the user configuration. -/
def ScopedUserConfig.GetListenPort (c : ScopedUserConfig) : Int := c.ListenPort

/-- The options of a state store (`sm.StoreOptions`) that the reactor sets. -/
structure StoreOptions where
  DiscardABCIResponses : Bool
  Compact : Bool
  CompactionInterval : Int
  DBKeyLayout : String
  deriving DecidableEq

/-- The type `ScopedStateStore`: a state store over the database of one scope. -/
structure ScopedStateStore where
  DB : ScopedDB
  options : StoreOptions

/-- An option passed to the block store constructor. -/
inductive BlockStoreOption where
  | WithMetrics
  | WithCompaction (compact : Bool) (interval : Int)
  | WithDBKeyLayout (layout : String)
  deriving DecidableEq

/-- The type `ScopedBlockStore`: a block store over the database of one scope. -/
structure ScopedBlockStore where
  DB : ScopedDB
  options : List BlockStoreOption

/-- The type `MultiplexStateStore`, a Go map from scope hash to state store. -/
abbrev MultiplexStateStore := String → Option ScopedStateStore

/-- The type `MultiplexBlockStore`, a Go map from scope hash to block store. -/
abbrev MultiplexBlockStore := String → Option ScopedBlockStore

/-- The type `MultiplexServiceAddress`, a Go `map[string]map[string]string`. -/
abbrev MultiplexServiceAddress := String → Option (String → Option String)

/-- The type `MultiplexNodeConfig`, a Go map from scope hash to node configuration. -/
abbrev MultiplexNodeConfig := String → Option Config

/-- Modelled from the spec: `GetScopedState` is not part of the given sources; like the
other providers' helpers it is the lookup by scope hash, failing on a missing key. -/
def GetScopedState (multiplex : MultiplexState) (userScopeHash : String) :
    Except String ScopedState :=
  match multiplex userScopeHash with
  | some s => .ok s
  | none => .error ("could not find state for scope hash " ++ userScopeHash)

/-- Modelled from the spec: `GetScopedStateStore`, the lookup by scope hash. -/
def GetScopedStateStore (multiplex : MultiplexStateStore) (userScopeHash : String) :
    Except String ScopedStateStore :=
  match multiplex userScopeHash with
  | some s => .ok s
  | none => .error ("could not find state store for scope hash " ++ userScopeHash)

/-- Modelled from the spec: `GetScopedBlockStore`, the lookup by scope hash. -/
def GetScopedBlockStore (multiplex : MultiplexBlockStore) (userScopeHash : String) :
    Except String ScopedBlockStore :=
  match multiplex userScopeHash with
  | some s => .ok s
  | none => .error ("could not find block store for scope hash " ++ userScopeHash)

/-- Modelled from the spec: `NewMultiplexStateStore` is not part of the given sources; the
spec has `NewStateStore(db, options)` wrap a database into a store, one per scope. -/
def NewMultiplexStateStore (multiplex : MultiplexDB) (options : StoreOptions) :
    MultiplexStateStore :=
  fun h => (multiplex h).map (fun db => { DB := db, options := options })

/-- Modelled from the spec: `NewMultiplexBlockStore`, wrapping each database of the
multiplex into a block store with the given options. -/
def NewMultiplexBlockStore (multiplex : MultiplexDB) (options : List BlockStoreOption) :
    MultiplexBlockStore :=
  fun h => (multiplex h).map (fun db => { DB := db, options := options })

/-- The collaborators of the reactor outside the given sources, on top of those of the
loader: `MultiplexFSProvider` (its error, if any) and `MultiplexDBProvider` (the multiplex
and the error it returns for a database context id and a configuration). -/
structure ReactorEnv extends Env where
  MultiplexFSProvider : Config → Option String
  MultiplexDBProvider : String → Config → MultiplexDB × Option String
  DefaultScopeHashProvider : Config → Except String (String → Option String) :=
    fun _ => .ok (fun _ => none)

/-- A node service (`cmtlibs.Service`), known by an identifier. -/
structure Service where
  id : String
  deriving DecidableEq

/-- A signer (`types.PrivValidator`), known by an identifier. -/
structure PrivValidator where
  id : String
  deriving DecidableEq

/-- A peer filter (`p2p.PeerFilterFunc`), known by an identifier. -/
structure PeerFilterFunc where
  id : String
  deriving DecidableEq

/-- The type `MultiplexService`, a Go `map[string]map[string]cmtlibs.Service`. -/
abbrev MultiplexService := String → Option (String → Option Service)

/-- The type `MultiplexPrivValidator`, a Go map from scope hash to signer. -/
abbrev MultiplexPrivValidator := String → Option PrivValidator

/-- The type `MultiplexPeerFilterFunc`, a Go map from scope hash to peer filters. -/
abbrev MultiplexPeerFilterFunc := String → Option (List PeerFilterFunc)

/-- The fields of `Reactor` that the modelled methods read and write. A map or a provider
that may be nil (`ListenAddresses`, the sync-status maps, the providers) is an `Option`
with `none` for nil; the registries that every reactor allocates at construction are
plain maps. A provider returns `Except.error` where the Go closure panics. -/
structure Reactor where
  ListenAddresses : Option MultiplexServiceAddress := none
  nodeConfig : Config
  userConfig : ScopedUserConfig
  replChains : List String
  replConfig : MultiplexNodeConfig := fun _ => none
  dbBackendProvider : String → Config → Except String ScopedDB
  icsGenesisProvider : IChecksummedGenesisDoc
  databasesProvider : Option (String → String → Except String ScopedDB) := none
  multiplexProvider : Option (String → Except String MultiplexDB) := none
  statesProvider : Option (String → Except String ScopedState) := none
  stateStoreProvider : Option (String → Except String ScopedStateStore) := none
  blockStoreProvider : Option (String → Except String ScopedBlockStore) := none
  mxPrivVals : MultiplexPrivValidator := fun _ => none
  peerFilter : MultiplexPeerFilterFunc := fun _ => none
  serviceRegistry : MultiplexService := fun _ => none
  scopeRegistry : String → Option String := fun _ => none
  networksSyncStates : Option (String → Option Bool) := none
  networksSyncBlocks : Option (String → Option Bool) := none

/-- The four database multiplexes and the error returned by `initDBs`. -/
structure InitDBs where
  bsMultiplexDB : MultiplexDB
  stateMultiplexDB : MultiplexDB
  indexerMultiplexDB : MultiplexDB
  evidenceMultiplexDB : MultiplexDB
  err : Option String

/-- The nil map. -/
def nilMultiplexDB : MultiplexDB := fun _ => none

/-- The function `initMultiplexDBs`: the errors of `MultiplexDBProvider` are dropped. -/
def initMultiplexDBs (env : ReactorEnv) (config : Config) : InitDBs :=
  { bsMultiplexDB := (env.MultiplexDBProvider "blockstore" config).1,
    stateMultiplexDB := (env.MultiplexDBProvider "state" config).1,
    indexerMultiplexDB := (env.MultiplexDBProvider "tx_index" config).1,
    evidenceMultiplexDB := (env.MultiplexDBProvider "evidence" config).1,
    err := none }

/-- The function `initDBs`. -/
def initDBs (env : ReactorEnv) (config : Config)
    (dbProvider : String → Config → Except String ScopedDB) : InitDBs :=
  if config.Replication = PluralReplicationMode then
    initMultiplexDBs env config
  else
    match dbProvider "blockstore" config with
    | .error e =>
      { bsMultiplexDB := nilMultiplexDB, stateMultiplexDB := nilMultiplexDB,
        indexerMultiplexDB := nilMultiplexDB, evidenceMultiplexDB := nilMultiplexDB,
        err := some e }
    | .ok bsDB =>
      match dbProvider "state" config with
      | .error e =>
        { bsMultiplexDB := nilMultiplexDB, stateMultiplexDB := nilMultiplexDB,
          indexerMultiplexDB := nilMultiplexDB, evidenceMultiplexDB := nilMultiplexDB,
          err := some e }
      | .ok stateDB =>
        { bsMultiplexDB := fun k => if k = "" then some bsDB else none,
          stateMultiplexDB := fun k => if k = "" then some stateDB else none,
          indexerMultiplexDB := nilMultiplexDB, evidenceMultiplexDB := nilMultiplexDB,
          err := none }

/-- The function `initDataDir`. -/
def initDataDir (env : ReactorEnv) (config : Config) : Option String :=
  match env.MultiplexFSProvider config with
  | some e => some ("could not create multiplex fs structure: " ++ e)
  | none => none

/-- The closure installed by `SetStatesProviders`. -/
def Reactor.SetStatesProviders (r : Reactor) (multiplexState : MultiplexState) : Reactor :=
  { r with statesProvider := some (fun scopeHash => GetScopedState multiplexState scopeHash) }

/-- The closures installed by `SetStoresProviders`. -/
def Reactor.SetStoresProviders (r : Reactor) (multiplexStateStore : MultiplexStateStore)
    (multiplexBlockStore : MultiplexBlockStore) : Reactor :=
  { r with
    stateStoreProvider :=
      some (fun scopeHash => GetScopedStateStore multiplexStateStore scopeHash),
    blockStoreProvider :=
      some (fun scopeHash => GetScopedBlockStore multiplexBlockStore scopeHash) }

/-- The map `multiplexByTable` built in `SetDatabasesProviders`. -/
def multiplexByTable (bsMultiplexDB stateMultiplexDB indexerMultiplexDB
    evidenceMultiplexDB : MultiplexDB) (tableName : String) : Option MultiplexDB :=
  if tableName = "blockstore" then some bsMultiplexDB
  else if tableName = "state" then some stateMultiplexDB
  else if tableName = "indexer" then some indexerMultiplexDB
  else if tableName = "evidence" then some evidenceMultiplexDB
  else none

/-- The closures installed by `SetDatabasesProviders`. -/
def Reactor.SetDatabasesProviders (r : Reactor) (bsMultiplexDB stateMultiplexDB
    indexerMultiplexDB evidenceMultiplexDB : MultiplexDB) : Reactor :=
  { r with
    databasesProvider := some (fun tableName scopeHash =>
      match multiplexByTable bsMultiplexDB stateMultiplexDB indexerMultiplexDB
          evidenceMultiplexDB tableName with
      | none => .error ("could not find databases with table name " ++ tableName)
      | some multiplex => GetScopedDB multiplex scopeHash),
    multiplexProvider := some (fun tableName =>
      match multiplexByTable bsMultiplexDB stateMultiplexDB indexerMultiplexDB
          evidenceMultiplexDB tableName with
      | none => .error ("could not find databases with table name " ++ tableName)
      | some multiplex => .ok multiplex) }

/-- The method `loadMultiplexState`: the reactor afterwards and the returned error. The
loader is called with the reactor standing for the genesis provider and an empty operator
hash; the reactor hands out the genesis set it validated at construction. The databases
are shared by reference, so the multiplex handed to the providers is the one the loader
has written to. The metrics handed to the stores play no part in what is modelled and are
left out (the block store still gets its `WithMetrics` option). -/
def Reactor.loadMultiplexState (env : ReactorEnv) (r : Reactor) : Reactor × Option String :=
  let dbs := initDBs env r.nodeConfig r.dbBackendProvider
  match dbs.err with
  | some e => (r, some e)
  | none =>
    let res := LoadMultiplexStateFromDBOrGenesisDocProviderWithConfig env.toEnv
      dbs.stateMultiplexDB (.ok r.icsGenesisProvider) "" r.nodeConfig
    match res.err with
    | some e => (r, some e)
    | none =>
      let multiplexStateStore := NewMultiplexStateStore res.dbs
        { DiscardABCIResponses := r.nodeConfig.StorageDiscardABCIResponses,
          Compact := r.nodeConfig.StorageCompact,
          CompactionInterval := r.nodeConfig.StorageCompactionInterval,
          DBKeyLayout := r.nodeConfig.StorageExperimentalKeyLayout }
      let multiplexBlockStore := NewMultiplexBlockStore dbs.bsMultiplexDB
        [ BlockStoreOption.WithMetrics,
          BlockStoreOption.WithCompaction r.nodeConfig.StorageCompact
            r.nodeConfig.StorageCompactionInterval,
          BlockStoreOption.WithDBKeyLayout r.nodeConfig.StorageExperimentalKeyLayout,
          BlockStoreOption.WithDBKeyLayout r.nodeConfig.StorageExperimentalKeyLayout ]
      (((r.SetDatabasesProviders dbs.bsMultiplexDB res.dbs dbs.indexerMultiplexDB
          dbs.evidenceMultiplexDB).SetStatesProviders res.multiplexState).SetStoresProviders
          multiplexStateStore multiplexBlockStore, none)

/-- A call of a provider held in a reactor field: calling a nil closure panics. -/
def callProvider {α : Type} (p : Option (String → Except String α)) (scopeHash : String) :
    Except String α :=
  match p with
  | none => .error "invalid memory address or nil pointer dereference"
  | some f => f scopeHash

/-- A call of `r.databasesProvider(tableName, scopeHash)`. -/
def Reactor.callDatabasesProvider (r : Reactor) (tableName scopeHash : String) :
    Except String ScopedDB :=
  match r.databasesProvider with
  | none => .error "invalid memory address or nil pointer dereference"
  | some f => f tableName scopeHash

/-- The value of a 64-bit Go `int` that holds the integer `x`: `x` brought into the range
from `-2^63` to `2^63 - 1`. -/
def wrapInt64 (x : Int) : Int := (x + 2 ^ 63) % 2 ^ 64 - 2 ^ 63

/-- The port computed for the P2P endpoint of the scope at index `i`. The code adds Go
`int`s (64 bits); the sum is taken in the integers here, which is the sum of the code
whenever the base is a Go `int` and `startPort + 3000 + i` stays below `2^63`. The
statements on recorded ports are made for bases and indices in that range. -/
def newP2PPort (startPort : Int) (i : Nat) : Int := startPort + i

/-- The port computed for the RPC endpoint of the scope at index `i`, taken in the
integers like `newP2PPort`. -/
def newRPCPort (startPort : Int) (i : Nat) : Int := startPort + 1000 + i

/-- The port computed for the gRPC endpoint of the scope at index `i`, taken in the
integers like `newP2PPort`. -/
def newGRPCPort (startPort : Int) (i : Nat) : Int := startPort + 2000 + i

/-- The port computed for the privileged gRPC endpoint of the scope at index `i`, taken in the
integers like `newP2PPort`. -/
def newGRPCPrivPort (startPort : Int) (i : Nat) : Int := startPort + 3000 + i

/-- The map literal stored in `ListenAddresses[scopeHash]` by `updateNodeConfig`. -/
def listenAddressesFor (nodeConfig : Config) (startPort : Int) (i : Nat) :
    String → Option String :=
  fun k =>
    if k = "P2P" then
      some (ReplaceAllString nodeConfig.P2PListenAddress (":" ++ Itoa (newP2PPort startPort i)))
    else if k = "RPC" then
      some (ReplaceAllString nodeConfig.RPCListenAddress (":" ++ Itoa (newRPCPort startPort i)))
    else if k = "GRPC" then
      some (ReplaceAllString nodeConfig.GRPCListenAddress
        (":" ++ Itoa (newGRPCPort startPort i)))
    else if k = "GRPCPriv" then
      some (ReplaceAllString nodeConfig.GRPCPrivilegedListenAddress
        (":" ++ Itoa (newGRPCPrivPort startPort i)))
    else none

/-- A read `m[k]` of a Go `map[string]string`: the empty string for a missing key. -/
def mapGet (m : String → Option String) (k : String) : String := (m k).getD ""

/-- Modelled from the spec: `Config.SetListenAddresses` is not part of the given sources;
it substitutes the four listen addresses of a configuration. -/
def Config.SetListenAddresses (c : Config) (p2p rpc grpc grpcPriv : String) : Config :=
  { c with P2PListenAddress := p2p, RPCListenAddress := rpc, GRPCListenAddress := grpc,
           GRPCPrivilegedListenAddress := grpcPriv }

/-- Modelled from the spec: `cmtcfg.NewConfigCopy` is not part of the given sources; the
spec calls it a deep copy of the base node config, so the copy is the same value and shares
nothing with the original. -/
def NewConfigCopy (c : Config) : Config := c

/-- The method `updateNodeConfig`; `Except.error` is the panic of an assignment to an entry
of the nil map `ListenAddresses`, and the second component is the returned error. -/
def Reactor.updateNodeConfig (r : Reactor) (scopeHash : String) (i : Nat) :
    Except String (Reactor × Option String) :=
  let startPort := r.userConfig.GetListenPort
  match r.ListenAddresses with
  | none => .error "assignment to entry in nil map"
  | some listenAddresses =>
    let entry := listenAddressesFor r.nodeConfig startPort i
    let newNodeConfig := (NewConfigCopy r.nodeConfig).SetListenAddresses (mapGet entry "P2P")
      (mapGet entry "RPC") (mapGet entry "GRPC") (mapGet entry "GRPCPriv")
    .ok ({ r with
            ListenAddresses := some (fun k => if k = scopeHash then some entry
              else listenAddresses k),
            replConfig := fun k => if k = scopeHash then some newNodeConfig
              else r.replConfig k }, none)

/-- What `OnStart` returns and leaves behind: the reactor, the returned error and the
scopes for which a goroutine starting the node listeners has been launched. -/
structure OnStartResult where
  reactor : Reactor
  err : Option String
  launched : List String

/-- The loop of `OnStart` over `replChains` from index `i` on: the node configuration of
each scope is updated and the goroutine that starts its listeners is launched. -/
def Reactor.startReplicatedChains : Reactor → Nat → List String → List String →
    Except String (Reactor × List String)
  | r, _, [], launched => .ok (r, launched)
  | r, i, userScopeHash :: rest, launched =>
    match r.updateNodeConfig userScopeHash i with
    | .error e => .error e
    | .ok (r1, _) => Reactor.startReplicatedChains r1 (i + 1) rest (launched ++ [userScopeHash])

/-- The method `OnStart`; `Except.error` is a panic. The scope id and the logger built at
the head of each loop iteration are not stored anywhere and are left out; the goroutines
are recorded by the scope hashes they are launched for. -/
def Reactor.OnStart (env : ReactorEnv) (r : Reactor) : Except String OnStartResult :=
  match initDataDir env r.nodeConfig with
  | some e => .ok { reactor := r, err := some e, launched := [] }
  | none =>
    match r.loadMultiplexState env with
    | (r1, some e) => .ok { reactor := r1, err := some e, launched := [] }
    | (r1, none) =>
      let r2 : Reactor := { r1 with ListenAddresses := some (fun _ => none) }
      match r2.startReplicatedChains 0 r2.replChains [] with
      | .error e => .error e
      | .ok (r3, launched) => .ok { reactor := r3, err := none, launched := launched }

/-! ## The state store, as the spec describes it -/

/-- Modelled from the spec: `sm.MakeGenesisState` is not part of the given sources; the
state initialised from a genesis doc has the doc's chain id and validators and no block
yet. -/
def MakeGenesisState (genDoc : GenesisDoc) : State :=
  { ChainID := genDoc.ChainID, LastBlockHeight := 0, Validators := genDoc.Validators }

/-- Modelled from the spec: the state store's `LoadFromDBOrGenesisDoc` is not part of the
given sources; the spec has it return the prior state if one exists in the database, and
else initialise the state from the genesis doc and persist it. -/
def LoadFromDBOrGenesisDoc (db : ScopedDB) (_dbKeyLayout : String) (genesisDoc : GenesisDoc) :
    ScopedDB × Except String State :=
  match db.state with
  | some s => (db, .ok s)
  | none =>
    ({ db with state := some (MakeGenesisState genesisDoc) }, .ok (MakeGenesisState genesisDoc))

/-- A fresh database: nothing stored, no state persisted, and a backend that raises no
error. -/
def IsFreshDB (db : ScopedDB) : Prop :=
  (∀ k, db.data k = none) ∧ db.state = none ∧ (∀ k, db.getErr k = none) ∧
    ∀ k v, db.setErr k v = none

/-- The genesis-hash slot of a database can be used by the loader for the checksum `cs`:
the backend raises no error on it and it is empty or holds `cs`. -/
def SlotUsable (cs : Bytes) (db : ScopedDB) : Prop :=
  db.getErr genesisDocHashKey = none ∧ db.setErr genesisDocHashKey cs = none ∧
    ((db.data genesisDocHashKey).getD [] = [] ∨ (db.data genesisDocHashKey).getD [] = cs)

/-- Scope `h` can be loaded from `dbs`: its genesis doc is there and valid, and its
database has a usable slot and holds no state or the state of the genesis doc. -/
def ScopeLoadable (env : Env) (ics : IChecksummedGenesisDoc) (dbs : MultiplexDB)
    (h : String) : Prop :=
  ∃ d0 doc db,
    ics.GenesisDocByScope h = .ok d0 ∧ env.ValidateAndComplete d0 = .ok doc ∧
    dbs h = some db ∧ SlotUsable ics.GetChecksum db ∧
    (db.state = none ∨ db.state = some (MakeGenesisState doc))

/-! ## Registries and sync-status flags of the reactor -/

/-- The function `NewReactor`; `Except.error` is the panic on a failing scope registry or
genesis provider. The user configuration is built by `NewUserConfig` from the replication
mode, the user scopes and the listen port of the node configuration. The sync-status maps
are not assigned and keep the zero value of a map, nil. -/
def NewReactor (env : ReactorEnv) (config : Config)
    (dbBackendProvider : String → Config → Except String ScopedDB)
    (genesisDocProvider : Except String IChecksummedGenesisDoc) : Except String Reactor :=
  match env.DefaultScopeHashProvider config with
  | .error e => .error e
  | .ok scopeRegistry =>
    let mxUserConfig : ScopedUserConfig := { ListenPort := config.ListenPort }
    match genesisDocProvider with
    | .error e => .error e
    | .ok icsGenDoc =>
      .ok { nodeConfig := config,
            userConfig := mxUserConfig,
            replChains := env.GetScopeHashes config.Replication config.UserScopes,
            replConfig := fun _ => none,
            mxPrivVals := fun _ => none,
            peerFilter := fun _ => none,
            dbBackendProvider := dbBackendProvider,
            serviceRegistry := fun _ => none,
            scopeRegistry := scopeRegistry,
            icsGenesisProvider := icsGenDoc }

/-- The closure `serviceProvider` installed by `NewReactor`, which reads the service
registry of the reactor at the time of the call. -/
def Reactor.serviceProvider (r : Reactor) (scopeHash serviceName : String) :
    Except String Service :=
  match r.serviceRegistry scopeHash with
  | none => .error ("could not load services for scope hash " ++ scopeHash)
  | some services =>
    match services serviceName with
    | none => .error ("could not find a service with name: " ++ serviceName)
    | some service => .ok service

/-- The method `RegisterService`. -/
def Reactor.RegisterService (r : Reactor) (scopeHash serviceName : String) (service : Service) :
    Reactor :=
  let services : String → Option Service :=
    match r.serviceRegistry scopeHash with
    | none => fun _ => none
    | some m => m
  { r with serviceRegistry := fun k =>
      if k = scopeHash then
        some (fun n => if n = serviceName then some service else services n)
      else r.serviceRegistry k }

/-- The method `RegisterPrivVal`. -/
def Reactor.RegisterPrivVal (r : Reactor) (scopeHash : String) (privVal : PrivValidator) :
    Reactor :=
  { r with mxPrivVals := fun k => if k = scopeHash then some privVal else r.mxPrivVals k }

/-- The method `GetReplPrivValidator`; `none` is the nil interface value. -/
def Reactor.GetReplPrivValidator (r : Reactor) (userScopeHash : String) : Option PrivValidator :=
  r.mxPrivVals userScopeHash

/-- The method `SetPeerFilters`. -/
def Reactor.SetPeerFilters (r : Reactor) (scopeHash : String)
    (peerFilters : List PeerFilterFunc) : Reactor :=
  { r with peerFilter := fun k => if k = scopeHash then some peerFilters else r.peerFilter k }

/-- The method `GetReplPeerFilters`; a missing entry reads as the nil slice. -/
def Reactor.GetReplPeerFilters (r : Reactor) (userScopeHash : String) : List PeerFilterFunc :=
  (r.peerFilter userScopeHash).getD []

/-- The method `SetStateSync`; `Except.error` is the panic of an assignment to an entry of
a nil map. -/
def Reactor.SetStateSync (r : Reactor) (scopeHash : String) (stateSync : Bool) :
    Except String Reactor :=
  match r.networksSyncStates with
  | none => .error "assignment to entry in nil map"
  | some m =>
    .ok { r with networksSyncStates := some (fun k => if k = scopeHash then some stateSync
      else m k) }

/-- The method `SetBlockSync`; `Except.error` is the panic of an assignment to an entry of
a nil map. -/
def Reactor.SetBlockSync (r : Reactor) (scopeHash : String) (blockSync : Bool) :
    Except String Reactor :=
  match r.networksSyncBlocks with
  | none => .error "assignment to entry in nil map"
  | some m =>
    .ok { r with networksSyncBlocks := some (fun k => if k = scopeHash then some blockSync
      else m k) }

/-- The method `GetStateSync`: `ok && val` of the map read; a nil map reads as empty. -/
def Reactor.GetStateSync (r : Reactor) (userScopeHash : String) : Bool :=
  match r.networksSyncStates with
  | none => false
  | some m => (m userScopeHash).getD false

/-- The method `GetBlockSync`: `ok && val` of the map read; a nil map reads as empty. -/
def Reactor.GetBlockSync (r : Reactor) (userScopeHash : String) : Bool :=
  match r.networksSyncBlocks with
  | none => false
  | some m => (m userScopeHash).getD false

/-- A call of `r.multiplexProvider(tableName)`. -/
def Reactor.callMultiplexProvider (r : Reactor) (tableName : String) : Except String MultiplexDB :=
  match r.multiplexProvider with
  | none => .error "invalid memory address or nil pointer dereference"
  | some f => f tableName

/-- A sequence of `RegisterService` calls, in order. -/
def Reactor.registerAll (r : Reactor) : List (String × String × Service) → Reactor
  | [] => r
  | (scopeHash, serviceName, service) :: rest =>
    (r.RegisterService scopeHash serviceName service).registerAll rest

/-! ## Concrete inputs -/

/-- A database with no entries and no faults. -/
def emptyDB : ScopedDB :=
  { data := fun _ => none, getErr := fun _ => none, setErr := fun _ _ => none }

/-- A database whose genesis-hash slot already holds `v`. -/
def seededDB (v : Bytes) : ScopedDB :=
  { data := fun k => if k = genesisDocHashKey then some v else none,
    getErr := fun _ => none, setErr := fun _ _ => none }

/-- A simple environment: scope hashes are `address:scope` in configuration order, a
genesis doc is valid when its chain id and validators are non-empty, and the store
initialises the state from the genesis doc without touching the database. -/
def sampleEnv : Env :=
  { GetScopeHashes := fun _ us => us.flatMap (fun p => p.2.map (fun sc => p.1 ++ ":" ++ sc)),
    ValidateAndComplete := fun d =>
      if d.ChainID = "" then .error "genesis doc must include non-empty chain_id"
      else if d.Validators = [] then .error "genesis doc must include validators"
      else .ok d,
    LoadFromDBOrGenesisDoc := fun db _ d =>
      (db, .ok { ChainID := d.ChainID, LastBlockHeight := 0, Validators := d.Validators }) }

/-- A genesis set with docs for the three scopes `addr:a`, `addr:b` and `addr:c`. -/
def sampleGenesis : IChecksummedGenesisDoc :=
  { GenesisDocByScope := fun h =>
      if h = "addr:a" ∨ h = "addr:b" ∨ h = "addr:c" then
        .ok { ChainID := "chain-" ++ h, InitialHeight := 1, Validators := ["val"] }
      else .error "not found",
    GetChecksum := [1, 2, 3] }

/-- A plural configuration with the three scopes `a`, `b` and `c` of user `addr`. -/
def sampleConfig : Config :=
  { Replication := "plural", UserScopes := [("addr", ["a", "b", "c"])], ListenPort := 30001,
    StorageExperimentalKeyLayout := "v1",
    P2PListenAddress := "tcp://0.0.0.0:26656", RPCListenAddress := "tcp://127.0.0.1:26657",
    GRPCListenAddress := "tcp://127.0.0.1:26670",
    GRPCPrivilegedListenAddress := "tcp://127.0.0.1:26671" }

/-- A configuration without any user scope. -/
def noScopeConfig : Config := { sampleConfig with UserScopes := [] }

/-- Fresh state databases for the three sample scopes. -/
def sampleDBs : MultiplexDB :=
  fun h => if h = "addr:a" ∨ h = "addr:b" ∨ h = "addr:c" then some emptyDB else none

/-- State databases where the slot of `addr:b` holds a foreign hash. -/
def seededDBs : MultiplexDB :=
  fun h => if h = "addr:a" then some emptyDB
    else if h = "addr:b" then some (seededDB [222, 173, 190, 239])
    else if h = "addr:c" then some emptyDB else none

/-- A reactor environment over `sampleEnv` in which the directories can be created and
every database family opens one fresh database per configured scope. -/
def sampleReactorEnv : ReactorEnv :=
  { toEnv := sampleEnv,
    MultiplexFSProvider := fun _ => none,
    MultiplexDBProvider := fun _ c =>
      (fun h => if h ∈ sampleEnv.GetScopeHashes c.Replication c.UserScopes then some emptyDB
        else none, none) }

/-- A reactor for `sampleConfig` with the default listen-port base 30001. -/
def sampleReactor : Reactor :=
  { nodeConfig := sampleConfig,
    userConfig := { ListenPort := 30001 },
    replChains := sampleEnv.GetScopeHashes sampleConfig.Replication sampleConfig.UserScopes,
    dbBackendProvider := fun _ _ => .ok emptyDB,
    icsGenesisProvider := sampleGenesis }

/-- The address recorded in `ListenAddresses[scopeHash][endpoint]` once `OnStart` is over. -/
def recordedAddress (res : Except String OnStartResult) (scopeHash endpoint : String) :
    Option String :=
  match res with
  | .error _ => none
  | .ok r => ((r.reactor.ListenAddresses.bind (fun m => m scopeHash)).bind
      (fun entry => entry endpoint))

/-- The address stored in `ListenAddresses[scopeHash][endpoint]` by `updateNodeConfig`. -/
def storedAddress (res : Except String (Reactor × Option String)) (scopeHash endpoint : String) :
    Option String :=
  match res with
  | .error _ => none
  | .ok r => ((r.1.ListenAddresses.bind (fun m => m scopeHash)).bind
      (fun entry => entry endpoint))

/-- The four ports computed for the scope at index `i`. -/
def scopePorts (startPort : Int) (i : Nat) : List Int :=
  [newP2PPort startPort i, newRPCPort startPort i, newGRPCPort startPort i,
    newGRPCPrivPort startPort i]

/-- A reactor whose base P2P listen address spans two lines, each ending in a port. -/
def twoLineAddressReactor : Reactor :=
  { sampleReactor with
    ListenAddresses := some (fun _ => none),
    nodeConfig := { sampleConfig with
      P2PListenAddress := "tcp://0.0.0.0:26656\ntcp://0.0.0.0:26656" } }

/-- What `OnStart` gives on the sample reactor. -/
def sampleStarted : OnStartResult :=
  match sampleReactor.OnStart sampleReactorEnv with
  | .ok res => res
  | .error e => { reactor := sampleReactor, err := some e, launched := [] }

/-- Whether a call returned a value (`true`) or panicked or failed (`false`). -/
def succeeded {α : Type} (x : Except String α) : Bool :=
  match x with
  | .ok _ => true
  | .error _ => false

/-- An environment for singular replication mode, where the multiplexes are keyed under
the empty string: the only scope hash is the empty key. -/
def singularEnv : ReactorEnv :=
  { sampleReactorEnv with GetScopeHashes := fun _ _ => [""] }

/-- A configuration in singular replication mode. -/
def singularConfig : Config := { sampleConfig with Replication := "singular", UserScopes := [] }

/-- A genesis set that has one and the same doc for every key. -/
def singularGenesis : IChecksummedGenesisDoc :=
  { GenesisDocByScope := fun _ =>
      .ok { ChainID := "chain", InitialHeight := 1, Validators := ["val"] },
    GetChecksum := [1, 2, 3] }

/-- A reactor in singular replication mode. -/
def singularReactor : Reactor :=
  { nodeConfig := singularConfig,
    userConfig := { ListenPort := 30001 },
    replChains := singularEnv.GetScopeHashes singularConfig.Replication
      singularConfig.UserScopes,
    dbBackendProvider := fun _ _ => .ok emptyDB,
    icsGenesisProvider := singularGenesis }

/-- The sample environment except that opening the block store databases fails:
`MultiplexDBProvider` returns a nil multiplex and an error for `blockstore`. -/
def failingBlockstoreEnv : ReactorEnv :=
  { sampleReactorEnv with
    MultiplexDBProvider := fun id c =>
      if id = "blockstore" then (nilMultiplexDB, some "cannot open blockstore database")
      else sampleReactorEnv.MultiplexDBProvider id c }

/-- The sample environment with the state store of the spec. -/
def specEnv : Env := { sampleEnv with LoadFromDBOrGenesisDoc := LoadFromDBOrGenesisDoc }

/-- A genesis set that lacks the doc of `addr:c` and has a doc without chain id for
`addr:b`. -/
def partialGenesis : IChecksummedGenesisDoc :=
  { GenesisDocByScope := fun h =>
      if h = "addr:a" then
        .ok { ChainID := "chain-addr:a", InitialHeight := 1, Validators := ["val"] }
      else if h = "addr:b" then
        .ok { ChainID := "", InitialHeight := 1, Validators := ["val"] }
      else .error "not found",
    GetChecksum := [1, 2, 3] }

/-- The loop variables after the first sample scope has been loaded from `seededDBs`. -/
def seededAfterFirst : LoadLoop :=
  (loadScopes sampleEnv sampleGenesis "" sampleConfig ["addr:a"] (initLoop seededDBs)).1

/-- The loop variables after the second sample scope has failed on `seededDBs`. -/
def seededAfterSecond : LoadLoop :=
  (loadScope sampleEnv sampleGenesis "" sampleConfig seededAfterFirst "addr:b").1

/-- The error that `OnStart` returns, a panic counting as an error. -/
def startError (res : Except String OnStartResult) : Option String :=
  match res with
  | .error e => some e
  | .ok r => r.err

/-- The entry of the service registry for a scope hash and a service name. -/
def lookupService (registry : MultiplexService) (scopeHash serviceName : String) :
    Option Service :=
  (registry scopeHash).bind (fun services => services serviceName)

/-- A reactor built by `NewReactor` in the sample environment. -/
def sampleNewReactor : Except String Reactor :=
  NewReactor sampleReactorEnv sampleConfig (fun _ _ => .ok emptyDB) (.ok sampleGenesis)

/-! ## Starting the listeners of one replicated chain -/

/-- The method `GetReplNodeConfig`; `none` is the nil pointer read from a missing entry. -/
def Reactor.GetReplNodeConfig (r : Reactor) (userScopeHash : String) : Option Config :=
  r.replConfig userScopeHash

/-- Modelled from the spec: `cmtcfg.DefaultConfigDir` is not part of the given sources; the
spec lays the per-scope configuration out under `config/<address>/<fingerprint>/`. -/
def DefaultConfigDir : String := "config"

/-- Modelled from the spec: `cmtcfg.DefaultDataDir` is not part of the given sources; the
spec lays the per-scope data out under `data/<address>/<fingerprint>/`. -/
def DefaultDataDir : String := "data"

/-- Modelled from the spec: `NewScopeIDFromHash(scopeHash).Fingerprint()` is not part of the
given sources; the spec gives the fingerprint as the first 16 hex characters of the hash. -/
def Fingerprint (scopeHash : String) : String := String.mk (scopeHash.data.take 16)

/-- Modelled from the spec: `ScopeRegistry.GetAddress` is not part of the given sources; the
spec gives its contract as `GetAddress(hash) → address | NotFound`. -/
def GetAddress (scopeRegistry : String → Option String) (scopeHash : String) :
    Except String String :=
  match scopeRegistry scopeHash with
  | none => .error "NotFound"
  | some address => .ok address

/-- The collaborators of `startNodeListeners` that live outside the given sources:
`filepath.Join` and `filepath.Base`; the ABCI connections of `proxy.NewAppConns` over
`proxy.DefaultClientCreator(proxyApp, abci, dbDir)` with the outcome of their `Start`; the
event bus of `types.NewEventBus` with the outcome of its `Start`; `GetScopedIndexer`
(returning the transaction and block indexers); the indexer service of
`txindex.NewIndexerService` over these indexers and the event bus with the outcome of its
`Start`; `privval.LoadOrGenFilePV`; and the signer client constructors of `privval`. An
`Except.error` is the error that the call returns. -/
structure ListenerEnv where
  Join : List String → String
  Base : String → String
  proxyAppStart : String → String → String → Except String Service
  eventBusStart : Except String Service
  GetScopedIndexer : Config → MultiplexDB → String → String → Except String (String × String)
  indexerServiceStart : String → String → Service → Except String Service
  LoadOrGenFilePV : String → String → PrivValidator
  NewSignerListener : String → Except String String
  NewSignerClient : String → String → Except String PrivValidator
  GetPubKey : PrivValidator → Except String String
  NewRetrySignerClient : PrivValidator → Nat → Nat → PrivValidator

/-- The function `createAndStartIndexerService`: the service and the two indexers, or the
returned error. -/
def createAndStartIndexerService (lenv : ListenerEnv) (config : Config) (chainID : String)
    (indexerMultiplexDB : MultiplexDB) (eventBus : Service) (userScopeHash : String) :
    Except String (Service × String × String) :=
  match lenv.GetScopedIndexer config indexerMultiplexDB chainID userScopeHash with
  | .error err => .error err
  | .ok (txIndexer, blockIndexer) =>
    match lenv.indexerServiceStart txIndexer blockIndexer eventBus with
    | .error err => .error err
    | .ok indexerService => .ok (indexerService, txIndexer, blockIndexer)

/-- The function `createAndStartPrivValidatorSocketClient`: the signer client with retries
(50 retries, 100 milliseconds each), or the returned error. -/
def createAndStartPrivValidatorSocketClient (lenv : ListenerEnv) (listenAddr chainID : String) :
    Except String PrivValidator :=
  match lenv.NewSignerListener listenAddr with
  | .error err => .error ("failed to start private validator: " ++ err)
  | .ok pve =>
    match lenv.NewSignerClient pve chainID with
    | .error err => .error ("failed to start private validator: " ++ err)
    | .ok pvsc =>
      match lenv.GetPubKey pvsc with
      | .error err => .error ("can't get pubkey: " ++ err)
      | .ok _ => .ok (lenv.NewRetrySignerClient pvsc 50 100)

/-- The private validator step of `startNodeListeners`: the file-based signer of the scope
when no listen address is configured, else the socket client; `Except.error` is the error
that `startNodeListeners` returns. -/
def createPrivValidator (lenv : ListenerEnv) (nodeConfig : Config) (chainID scopeHash : String)
    (userConfDir userDataDir : String) : Except String PrivValidator :=
  if nodeConfig.PrivValidatorListenAddr = "" then
    let folderName := Fingerprint scopeHash
    let privValKeyDir := lenv.Join [userConfDir, folderName]
    let privValStateDir := lenv.Join [userDataDir, folderName]
    .ok (lenv.LoadOrGenFilePV
      (lenv.Join [privValKeyDir, lenv.Base nodeConfig.PrivValidatorKey])
      (lenv.Join [privValStateDir, lenv.Base nodeConfig.PrivValidatorState]))
  else
    match createAndStartPrivValidatorSocketClient lenv nodeConfig.PrivValidatorListenAddr
        chainID with
    | .error err => .error ("error with private validator socket client: " ++ err)
    | .ok privValidator => .ok privValidator

/-- The method `startNodeListeners`. The outer `Except.error` is a panic: the genesis doc of
the scope is read with its error dropped and dereferenced, the multiplex provider panics
when it is nil or does not know the table, and the node configuration of the scope is a nil
pointer when `updateNodeConfig` has not stored one. The second component of a returned
pair is the returned error. Metrics and loggers are left out. -/
def Reactor.startNodeListeners (lenv : ListenerEnv) (r : Reactor) (scopeHash : String) :
    Except String (Reactor × Option String) :=
  match r.icsGenesisProvider.GenesisDocByScope scopeHash with
  | .error _ => .error "invalid memory address or nil pointer dereference"
  | .ok genesisDoc =>
    match r.callMultiplexProvider "indexer" with
    | .error e => .error e
    | .ok indexerMultiplexDB =>
      match GetAddress r.scopeRegistry scopeHash with
      | .error err => .ok (r, some err)
      | .ok userAddress =>
        match r.GetReplNodeConfig scopeHash with
        | none => .error "invalid memory address or nil pointer dereference"
        | some nodeConfig =>
          let userConfDir := lenv.Join [nodeConfig.RootDir, DefaultConfigDir, userAddress]
          let userDataDir := lenv.Join [nodeConfig.RootDir, DefaultDataDir, userAddress]
          match lenv.proxyAppStart nodeConfig.ProxyApp nodeConfig.ABCI userDataDir with
          | .error err => .ok (r, some ("error starting proxy app connections: " ++ err))
          | .ok proxyApp =>
            match lenv.eventBusStart with
            | .error err => .ok (r, some ("error starting event bus: " ++ err))
            | .ok eventBus =>
              match createAndStartIndexerService lenv nodeConfig genesisDoc.ChainID
                  indexerMultiplexDB eventBus scopeHash with
              | .error err => .ok (r, some err)
              | .ok (indexerService, _, _) =>
                match createPrivValidator lenv nodeConfig genesisDoc.ChainID scopeHash
                    userConfDir userDataDir with
                | .error err => .ok (r, some err)
                | .ok privValidator =>
                  .ok (((((r.RegisterService scopeHash "proxyApp" proxyApp).RegisterService
                    scopeHash "eventBus" eventBus).RegisterService scopeHash "indexerService"
                    indexerService).RegisterPrivVal scopeHash privValidator), none)

/-! ## Locks taken around the maps of the reactor -/

/-- What a method does to the mutexes and the maps of the reactor, in program order. -/
inductive SyncOp where
  | lock (mutex : String)
  | unlock (mutex : String)
  | read (field : String)
  | write (field : String)
  deriving DecidableEq

/-- The statements of `RegisterService` that take a lock or touch a map: the lookup of the
scope, the allocation of its inner map when the scope is new, and the assignment of the
service. -/
def RegisterService.ops (scopeKnown : Bool) : List SyncOp :=
  [SyncOp.read "serviceRegistry"] ++
    (if scopeKnown then [] else [SyncOp.write "serviceRegistry"]) ++
    [SyncOp.read "serviceRegistry", SyncOp.write "serviceRegistry"]

/-- The statements of the closure `serviceProvider` that take a lock or touch a map: the
lookup of the scope, the lookup of the name, and the read of the returned service. -/
def serviceProvider.ops : List SyncOp :=
  [SyncOp.read "serviceRegistry", SyncOp.read "serviceRegistry", SyncOp.read "serviceRegistry"]

/-- The statements of `RegisterPrivVal` that take a lock or touch a map; the deferred unlock
runs last. -/
def RegisterPrivVal.ops : List SyncOp :=
  [SyncOp.lock "pvMutex", SyncOp.write "mxPrivVals", SyncOp.unlock "pvMutex"]

/-- Whether every read and write of `field` in a sequence of operations happens while
`mutex` is held; `held` tells whether it is held at the start. -/
def guardedBy (mutex field : String) : Bool → List SyncOp → Bool
  | _, [] => true
  | held, SyncOp.lock m :: rest => guardedBy mutex field (held || decide (m = mutex)) rest
  | held, SyncOp.unlock m :: rest => guardedBy mutex field (held && !decide (m = mutex)) rest
  | held, SyncOp.read f :: rest => (!decide (f = field) || held) && guardedBy mutex field held rest
  | held, SyncOp.write f :: rest => (!decide (f = field) || held) && guardedBy mutex field held rest

/-! ## `createBlocksyncReactor` -/

/-- The function `createBlocksyncReactor`. `NewReactor` stands for `blocksync.NewReactor` and
`SetLogger` for the method of the reactor it returns, both outside the given sources. The
pair is the returned `(bcReactor, err)` with `none` for nil; `Except.error` is a panic of
the constructor. The metrics are left out. -/
def createBlocksyncReactor {ε ρ : Type}
    (NewReactor : State → ε → ScopedBlockStore → Bool → Int → Except String ρ)
    (SetLogger : ρ → ρ) (config : Config) (state : ScopedState) (blockExec : ε)
    (blockStore : ScopedBlockStore) (blockSync : Bool) (offlineStateSyncHeight : Int) :
    Except String (Option ρ × Option String) :=
  if config.BlockSyncVersion = "v0" then
    match NewReactor state.State blockExec blockStore blockSync offlineStateSyncHeight with
    | .error e => .error e
    | .ok bcReactor => .ok (some (SetLogger bcReactor), none)
  else if config.BlockSyncVersion = "v1" ∨ config.BlockSyncVersion = "v2" then
    .ok (none, some ("block sync version " ++ config.BlockSyncVersion ++
      " has been deprecated. Please use v0"))
  else
    .ok (none, some ("unknown block sync version " ++ config.BlockSyncVersion))

/-! ## `splitAndTrimEmpty` -/

/-- The pieces of a text between the occurrences of a non-empty separator, found from the
left and not overlapping: `skip` counts the characters of the occurrence being passed over
and `cur` is the piece read so far. -/
def splitGo (sep : List Char) : Nat → List Char → List Char → List (List Char)
  | _, cur, [] => [cur]
  | skip + 1, cur, _ :: cs => splitGo sep skip cur cs
  | 0, cur, c :: cs =>
    if sep.isPrefixOf (c :: cs) then cur :: splitGo sep (sep.length - 1) [] cs
    else splitGo sep 0 (cur ++ [c]) cs

/-- The function `strings.Split`: one piece for each character when the separator is empty,
else the pieces between the occurrences of the separator. -/
def stringsSplit (s sep : String) : List String :=
  if sep = "" then s.data.map (fun c => String.mk [c])
  else (splitGo sep.data 0 [] s.data).map String.mk

/-- The function `strings.Trim`: the characters of `cutset` are removed from the front and
from the back. -/
def stringsTrim (s cutset : String) : String :=
  String.mk (((s.data.dropWhile (fun c => cutset.data.contains c)).reverse.dropWhile
    (fun c => cutset.data.contains c)).reverse)

/-- The loop of `splitAndTrimEmpty` over the pieces `spl`: a trimmed piece is appended to
`nonEmptyStrings` when it is not empty. -/
def trimLoop (cutset : String) : List String → List String → List String
  | nonEmptyStrings, [] => nonEmptyStrings
  | nonEmptyStrings, piece :: rest =>
    let element := stringsTrim piece cutset
    if element ≠ "" then trimLoop cutset (nonEmptyStrings ++ [element]) rest
    else trimLoop cutset nonEmptyStrings rest

/-- The function `splitAndTrimEmpty`. -/
def splitAndTrimEmpty (s sep cutset : String) : List String :=
  if s = "" then []
  else trimLoop cutset [] (stringsSplit s sep)

/-- The result of `splitAndTrimEmpty` in the words of its description: split at every
occurrence of the separator, trim each piece, drop the pieces that are then empty. -/
def splitTrimDropEmpty (s sep cutset : String) : List String :=
  ((stringsSplit s sep).map (fun piece => stringsTrim piece cutset)).filter
    (fun piece => decide (piece ≠ ""))

/-! ## `NewMultiplexBlockExecutor` -/

/-- The loop `for _, option := range options { option(res) }`: each option updates the
executor in turn. -/
def applyOptions {β : Type} : List (β → β) → β → β
  | [], res => res
  | opt :: rest, res => applyOptions rest (opt res)

/-- The function `NewMultiplexBlockExecutor`. `NewBlockExecutor` stands for
`sm.NewBlockExecutor`, outside the given sources; an option (`sm.BlockExecutorOption`)
updates the executor it is given. The logger is left out. -/
def NewMultiplexBlockExecutor {π μ ν β : Type}
    (NewBlockExecutor : ScopedStateStore → π → μ → ν → ScopedBlockStore → List (β → β) → β)
    (stateStore : ScopedStateStore) (proxyApp : π) (mempool : μ) (evpool : ν)
    (blockStore : ScopedBlockStore) (options : List (β → β)) : β :=
  let res := NewBlockExecutor stateStore proxyApp mempool evpool blockStore options
  applyOptions options res

/-- The executor in the words of the description: the one that `sm.NewBlockExecutor` returns
for the same arguments and options, with each option applied again, in order. -/
def executorWithOptionsAgain {π μ ν β : Type}
    (NewBlockExecutor : ScopedStateStore → π → μ → ν → ScopedBlockStore → List (β → β) → β)
    (stateStore : ScopedStateStore) (proxyApp : π) (mempool : μ) (evpool : ν)
    (blockStore : ScopedBlockStore) (options : List (β → β)) : β :=
  options.foldl (fun executor opt => opt executor)
    (NewBlockExecutor stateStore proxyApp mempool evpool blockStore options)


/-! ## Concrete inputs for the listeners and the helpers -/

/-- Collaborators of `startNodeListeners` whose starts all succeed; what they return is
named after what it was made from. -/
def sampleListenerEnv : ListenerEnv :=
  { Join := fun parts => "/".intercalate parts,
    Base := fun p => String.mk ((p.data.reverse.takeWhile (fun c => c ≠ '/')).reverse),
    proxyAppStart := fun _ _ dbDir => .ok { id := "proxyApp@" ++ dbDir },
    eventBusStart := .ok { id := "eventBus" },
    GetScopedIndexer := fun _ _ _ h => .ok ("tx:" ++ h, "block:" ++ h),
    indexerServiceStart := fun tx _ _ => .ok { id := "indexer/" ++ tx },
    LoadOrGenFilePV := fun key _ => { id := key },
    NewSignerListener := fun addr => .ok addr,
    NewSignerClient := fun pve chainID => .ok { id := pve ++ "#" ++ chainID },
    GetPubKey := fun pv => .ok pv.id,
    NewRetrySignerClient := fun pv _ _ => pv }

/-- Collaborators of `startNodeListeners` where the event bus fails to start. -/
def failingEventBusEnv : ListenerEnv :=
  { sampleListenerEnv with eventBusStart := .error "already started" }

/-- The sample reactor once `OnStart` is over, with a scope registry that knows the three
sample scopes as scopes of the user `addr`. -/
def listenerReactor : Reactor :=
  { sampleStarted.reactor with
    scopeRegistry := fun h =>
      if h = "addr:a" ∨ h = "addr:b" ∨ h = "addr:c" then some "addr" else none }

/-- What `startNodeListeners` returns and leaves behind for a reactor and a scope. -/
def listenersOutcome (lenv : ListenerEnv) (r : Reactor) (scopeHash : String) :
    Reactor × Option String :=
  match r.startNodeListeners lenv scopeHash with
  | .ok res => res
  | .error e => (r, some e)

/-- The sample reactor with a genesis set that lacks the doc of one of its scopes. -/
def missingGenesisReactor : Reactor := { sampleReactor with icsGenesisProvider := partialGenesis }

/-- A stand-in for `blocksync.NewReactor` that names the reactor after the chain of the
state it is given. -/
def sampleBlocksyncReactor (state : State) (_ : Unit) (_ : ScopedBlockStore) (blockSync : Bool)
    (_ : Int) : Except String String :=
  .ok ("blocksync/" ++ state.ChainID ++ (if blockSync then "/on" else "/off"))

/-- A scoped state of the chain of `addr:a`. -/
def sampleScopedState : ScopedState :=
  { ScopeHash := "addr:a",
    State := { ChainID := "chain-addr:a", LastBlockHeight := 0, Validators := ["val"] } }

/-- A block store over the empty database. -/
def sampleBlockStore : ScopedBlockStore := { DB := emptyDB, options := [] }

/-- A state store over the empty database. -/
def sampleStateStore : ScopedStateStore :=
  { DB := emptyDB,
    options := { DiscardABCIResponses := false, Compact := false, CompactionInterval := 1000,
                 DBKeyLayout := "v1" } }

/-- The sample reactor with an allocated `ListenAddresses` map and a P2P listen address
that names a Unix socket, without any port. -/
def socketAddressReactor : Reactor :=
  { sampleReactor with
    ListenAddresses := some (fun _ => none),
    nodeConfig := { sampleConfig with P2PListenAddress := "unix:///var/run/p2p.sock" } }

/-- The sample reactor with an allocated `ListenAddresses` map and the highest 16-bit
number as the base of its listen ports. -/
def highPortReactor : Reactor :=
  { sampleReactor with
    ListenAddresses := some (fun _ => none),
    userConfig := { ListenPort := 65535 } }

/-- A stand-in for `sm.NewBlockExecutor` over executors that are plain counters: the new
executor counts from zero and has every option applied once. -/
def countingBlockExecutor (_ : ScopedStateStore) (_ _ _ : Unit) (_ : ScopedBlockStore)
    (options : List (Nat → Nat)) : Nat :=
  applyOptions options 0

/-- The sample reactor with an empty gRPC listen address, as in a configuration that leaves
the gRPC server off. -/
def emptyGrpcReactor : Reactor :=
  { sampleReactor with nodeConfig := { sampleConfig with GRPCListenAddress := "" } }

/-! ## Theorems -/

theorem loadScopeState_dbs_other (env : Env) (config : Config) (st : LoadLoop) (h : String)
    (doc : GenesisDoc) (db : ScopedDB) (hash : Bytes) (k : String) (hk : k ≠ h) :
    (loadScopeState env config st h doc db hash).1.dbs k = st.dbs k := by
  rcases hl : env.LoadFromDBOrGenesisDoc db config.StorageExperimentalKeyLayout doc with
    ⟨db2, e | s⟩ <;> simp [loadScopeState, hl, setDB, hk]

/-- Case analysis of one loop iteration: a property holds of the outcome of `loadScope`
as soon as it holds of each of the six ways the iteration can end. -/
theorem loadScope_cases (P : LoadLoop × Option String → Prop) (env : Env)
    (ics : IChecksummedGenesisDoc) (op : String) (config : Config) (st : LoadLoop) (h : String)
    (hEarly : ∀ e, ((∃ e0, ics.GenesisDocByScope h = .error e0) ∨
        (∃ d0 e0, ics.GenesisDocByScope h = .ok d0 ∧ env.ValidateAndComplete d0 = .error e0) ∨
        st.dbs h = none) → P (st, some e))
    (hGet : ∀ db e, st.dbs h = some db → db.getErr genesisDocHashKey = some e →
        P ({ st with trace := st.trace ++ [DBOp.getFailed h genesisDocHashKey e] },
          some ("error retrieving genesis doc set hash: " ++ e)))
    (hCheck : ∀ db v e, st.dbs h = some db → db.Get genesisDocHashKey = .ok v →
        (checkOperatorGenesisHash ics op = some e ∨
          (checkOperatorGenesisHash ics op = none ∧ v.length ≠ 0 ∧ v ≠ ics.GetChecksum)) →
        P ({ st with trace := st.trace ++ [DBOp.get h genesisDocHashKey v] }, some e))
    (hSetFail : ∀ db v db1 e, st.dbs h = some db → db.Get genesisDocHashKey = .ok v →
        checkOperatorGenesisHash ics op = none → v.length = 0 →
        db.SetSync genesisDocHashKey ics.GetChecksum = (db1, some e) →
        P ({ st with
              dbs := setDB st.dbs h db1,
              trace := st.trace ++ [DBOp.get h genesisDocHashKey v] ++
                [DBOp.setSyncFailed h genesisDocHashKey ics.GetChecksum e] },
          some ("failed to save genesis doc hash to db: " ++ e)))
    (hSet : ∀ db v db1 d0 doc, st.dbs h = some db → db.Get genesisDocHashKey = .ok v →
        ics.GenesisDocByScope h = .ok d0 → env.ValidateAndComplete d0 = .ok doc →
        checkOperatorGenesisHash ics op = none → v.length = 0 →
        db.SetSync genesisDocHashKey ics.GetChecksum = (db1, none) →
        P (loadScopeState env config
            { st with
                dbs := setDB st.dbs h db1,
                trace := st.trace ++ [DBOp.get h genesisDocHashKey v] ++
                  [DBOp.setSync h genesisDocHashKey ics.GetChecksum] }
            h doc db1 ics.GetChecksum))
    (hKeep : ∀ db v d0 doc, st.dbs h = some db → db.Get genesisDocHashKey = .ok v →
        ics.GenesisDocByScope h = .ok d0 → env.ValidateAndComplete d0 = .ok doc →
        checkOperatorGenesisHash ics op = none → v.length ≠ 0 → v = ics.GetChecksum →
        P (loadScopeState env config
            { st with trace := st.trace ++ [DBOp.get h genesisDocHashKey v] } h doc db v)) :
    P (loadScope env ics op config st h) := by
  unfold loadScope
  cases h1 : ics.GenesisDocByScope h with
  | error e => exact hEarly _ (Or.inl ⟨e, h1⟩)
  | ok d0 =>
  dsimp only
  cases h2 : env.ValidateAndComplete d0 with
  | error e => exact hEarly _ (Or.inr (Or.inl ⟨d0, e, h1, h2⟩))
  | ok doc =>
  dsimp only
  cases h3 : st.dbs h with
  | none => simp only [GetScopedDB, h3]; exact hEarly _ (Or.inr (Or.inr h3))
  | some db =>
  simp only [GetScopedDB, h3]
  cases h4 : db.getErr genesisDocHashKey with
  | some e => simp only [ScopedDB.Get, h4]; exact hGet db e h3 h4
  | none =>
  have hg : db.Get genesisDocHashKey = .ok ((db.data genesisDocHashKey).getD []) := by
    simp [ScopedDB.Get, h4]
  simp only [hg]
  cases h5 : checkOperatorGenesisHash ics op with
  | some e => exact hCheck db _ e h3 hg (Or.inl h5)
  | none =>
  dsimp only
  by_cases h6 : ((db.data genesisDocHashKey).getD []).length = 0
  · simp only [h6, if_true]
    rcases h7 : db.SetSync genesisDocHashKey ics.GetChecksum with ⟨db1, _ | e⟩
    · simpa using hSet db _ db1 d0 doc h3 hg h1 h2 h5 h6 h7
    · simpa using hSetFail db _ db1 _ h3 hg h5 h6 h7
  · simp only [h6, if_false]
    by_cases h8 : (db.data genesisDocHashKey).getD [] ≠ ics.GetChecksum
    · rw [if_pos h8]
      exact hCheck db _ _ h3 hg (Or.inr ⟨h5, h6, h8⟩)
    · rw [if_neg h8]
      exact hKeep db _ d0 doc h3 hg h1 h2 h5 h6 (not_not.mp h8)

theorem loadScope_dbs_other (env : Env) (ics : IChecksummedGenesisDoc) (op : String)
    (config : Config) (st : LoadLoop) (h k : String) (hk : k ≠ h) :
    (loadScope env ics op config st h).1.dbs k = st.dbs k := by
  apply loadScope_cases (fun r => r.1.dbs k = st.dbs k)
  · intros; rfl
  · intros; rfl
  · intros; rfl
  · intros; simp [setDB, hk]
  · intros; rw [loadScopeState_dbs_other _ _ _ _ _ _ _ _ hk]; simp [setDB, hk]
  · intros; rw [loadScopeState_dbs_other _ _ _ _ _ _ _ _ hk]

theorem get_ok_getErr (db : ScopedDB) (key : String) (v : Bytes) (hg : db.Get key = .ok v) :
    db.getErr key = none ∧ (db.data key).getD [] = v := by
  unfold ScopedDB.Get at hg
  cases he : db.getErr key with
  | some e => simp [he] at hg
  | none => simpa [he] using hg

theorem setSync_ok_get (db db1 : ScopedDB) (key : String) (v : Bytes)
    (he : db.getErr key = none) (hs : db.SetSync key v = (db1, none)) :
    db1.Get key = .ok v := by
  unfold ScopedDB.SetSync at hs
  cases hse : db.setErr key v with
  | some e => simp [hse] at hs
  | none =>
    simp only [hse, Prod.mk.injEq, and_true] at hs
    subst hs
    simp [ScopedDB.Get, he]

theorem loadScopeState_ok (env : Env) (config : Config) (st st1 : LoadLoop) (h : String)
    (doc : GenesisDoc) (db : ScopedDB) (hash : Bytes)
    (hr : loadScopeState env config st h doc db hash = (st1, none)) :
    ∃ s, (env.LoadFromDBOrGenesisDoc db config.StorageExperimentalKeyLayout doc).2 = .ok s ∧
      st1.dbs = setDB st.dbs h
        (env.LoadFromDBOrGenesisDoc db config.StorageExperimentalKeyLayout doc).1 ∧
      st1.multiplexState = setState st.multiplexState h { ScopeHash := h, State := s } ∧
      st1.genDocSetHashes = st.genDocSetHashes ++ [hash] ∧
      st1.trace = st.trace ++ [DBOp.load h] := by
  rcases hl : env.LoadFromDBOrGenesisDoc db config.StorageExperimentalKeyLayout doc with
    ⟨db2, e | s⟩
  · simp [loadScopeState, hl] at hr
  · simp only [loadScopeState, hl, Prod.mk.injEq, and_true] at hr
    subst hr
    exact ⟨s, rfl, rfl, rfl, rfl, rfl⟩

theorem loadScope_ok (env : Env) (ics : IChecksummedGenesisDoc) (op : String)
    (config : Config) (st : LoadLoop) (h : String) :
    ∀ st1, loadScope env ics op config st h = (st1, none) →
      StepOk env ics op config st st1 h := by
  apply loadScope_cases
    (fun r => ∀ st1, r = (st1, none) → StepOk env ics op config st st1 h)
  · intro e _ st1 hr; simp at hr
  · intro db e _ _ st1 hr; simp at hr
  · intro db v e _ _ _ st1 hr; simp at hr
  · intro db v db1 e _ _ _ _ _ st1 hr; simp at hr
  · intro db v db1 d0 doc h3 hg h1 h2 h5 h6 h7 st1 hr
    obtain ⟨s, hs, hd, hm, hh, -⟩ := loadScopeState_ok _ _ _ _ _ _ _ _ hr
    obtain ⟨hge, hgv⟩ := get_ok_getErr _ _ _ hg
    refine ⟨d0, doc, db, db1, s, h1, h2, h3, h5, hge, setSync_ok_get _ _ _ _ hge h7,
      Or.inr ⟨?_, h7⟩, hs, ?_, hm, ?_⟩
    · rw [hgv]; exact List.length_eq_zero.mp h6
    · rw [hd]; funext k; by_cases hk : k = h <;> simp [setDB, hk]
    · simp [hh]
  · intro db v d0 doc h3 hg h1 h2 h5 h6 h8 st1 hr
    obtain ⟨s, hs, hd, hm, hh, -⟩ := loadScopeState_ok _ _ _ _ _ _ _ _ hr
    obtain ⟨hge, hgv⟩ := get_ok_getErr _ _ _ hg
    refine ⟨d0, doc, db, db, s, h1, h2, h3, h5, hge, h8 ▸ hg, Or.inl rfl, hs, hd, hm, ?_⟩
    simp [hh]

theorem loadScopes_ok (env : Env) (ics : IChecksummedGenesisDoc) (op : String)
    (config : Config) (l : List String) :
    ∀ st st1, loadScopes env ics op config l st = (st1, none) →
      (∀ k, k ∉ l → st1.dbs k = st.dbs k) ∧
      (∀ k, k ∉ l → st1.multiplexState k = st.multiplexState k) ∧
      (∀ h, h ∈ l → ScopeLoaded env ics op config st1 h) ∧
      st1.genDocSetHashes.length = st.genDocSetHashes.length + l.length := by
  induction l with
  | nil =>
    intro st st1 hr
    simp only [loadScopes, Prod.mk.injEq, and_true] at hr
    subst hr
    simp
  | cons x rest ih =>
    intro st st1 hr
    rcases hx : loadScope env ics op config st x with ⟨st2, _ | e⟩
    · simp only [loadScopes, hx] at hr
      obtain ⟨hd, hm, hl, hn⟩ := ih st2 st1 hr
      obtain ⟨d0, doc, db, dprev, s, h1, h2, h3, h5, -, hg, -, hs, hdb, hms, hlen⟩ :=
        loadScope_ok env ics op config st x st2 hx
      refine ⟨?_, ?_, ?_, ?_⟩
      · intro k hk
        simp only [List.mem_cons, not_or] at hk
        rw [hd k hk.2, hdb]
        simp [setDB, hk.1]
      · intro k hk
        simp only [List.mem_cons, not_or] at hk
        rw [hm k hk.2, hms]
        simp [setState, hk.1]
      · intro h hh
        by_cases hr2 : h ∈ rest
        · exact hl h hr2
        · have hhx : h = x := by
            rcases List.mem_cons.mp hh with h0 | h0
            · exact h0
            · exact absurd h0 hr2
          subst hhx
          refine ⟨d0, doc, dprev, s, h1, h2, h5, hg, hs, ?_, ?_⟩
          · rw [hd h hr2, hdb]; simp [setDB]
          · rw [hm h hr2, hms]; simp [setState]
      · rw [hn, hlen]; simp [Nat.add_assoc, Nat.add_comm]
    · simp [loadScopes, hx] at hr

theorem load_ok_inv (env : Env) (dbs : MultiplexDB)
    (p : Except String IChecksummedGenesisDoc) (op : String) (config : Config)
    (hok : (LoadMultiplexStateFromDBOrGenesisDocProviderWithConfig env dbs p op config).err
      = none) :
    ∃ ics st, p = .ok ics ∧
      loadScopes env ics op config (env.GetScopeHashes config.Replication config.UserScopes)
        (initLoop dbs) = (st, none) ∧
      LoadMultiplexStateFromDBOrGenesisDocProviderWithConfig env dbs p op config =
        { multiplexState := st.multiplexState, icsGenDoc := some ics, err := none,
          dbs := st.dbs, trace := st.trace } := by
  cases p with
  | error e => simp [LoadMultiplexStateFromDBOrGenesisDocProviderWithConfig] at hok
  | ok ics =>
    unfold LoadMultiplexStateFromDBOrGenesisDocProviderWithConfig at hok ⊢
    rcases hl : loadScopes env ics op config
        (env.GetScopeHashes config.Replication config.UserScopes) (initLoop dbs)
      with ⟨st, _ | e⟩
    · refine ⟨ics, st, rfl, hl, ?_⟩
      simp only [initLoop] at hl
      simp only [hl] at hok ⊢
      split at hok
      · simp at hok
      · rename_i hlen
        simp [hlen]
    · simp only [initLoop] at hl
      simp [hl] at hok

theorem load_err_shape (env : Env) (dbs : MultiplexDB)
    (p : Except String IChecksummedGenesisDoc) (op : String) (config : Config)
    (herr : (LoadMultiplexStateFromDBOrGenesisDocProviderWithConfig env dbs p op config).err
      ≠ none) :
    (LoadMultiplexStateFromDBOrGenesisDocProviderWithConfig env dbs p op config).multiplexState
        = emptyMultiplexState ∧
    (LoadMultiplexStateFromDBOrGenesisDocProviderWithConfig env dbs p op config).icsGenDoc.isNone
        = true := by
  cases p with
  | error e => simp [LoadMultiplexStateFromDBOrGenesisDocProviderWithConfig]
  | ok ics =>
    unfold LoadMultiplexStateFromDBOrGenesisDocProviderWithConfig at herr ⊢
    rcases hl : loadScopes env ics op config
        (env.GetScopeHashes config.Replication config.UserScopes)
        { dbs := dbs, trace := [], multiplexState := emptyMultiplexState,
          genDocSetHashes := [] }
      with ⟨st, _ | e⟩
    · simp only [hl] at herr ⊢
      split
      · simp
      · rename_i hlen
        simp [hlen] at herr
    · simp [hl]

theorem load_trace (env : Env) (dbs : MultiplexDB) (ics : IChecksummedGenesisDoc)
    (op : String) (config : Config) :
    (LoadMultiplexStateFromDBOrGenesisDocProviderWithConfig env dbs (.ok ics) op config).trace =
      (loadScopes env ics op config (env.GetScopeHashes config.Replication config.UserScopes)
        (initLoop dbs)).1.trace := by
  unfold LoadMultiplexStateFromDBOrGenesisDocProviderWithConfig
  rcases hl : loadScopes env ics op config
      (env.GetScopeHashes config.Replication config.UserScopes) (initLoop dbs)
    with ⟨st, _ | e⟩
  · simp only [initLoop] at hl
    simp only [hl]
    split <;> rfl
  · simp only [initLoop] at hl
    simp only [hl]

theorem load_of_loop_ok (env : Env) (dbs : MultiplexDB) (ics : IChecksummedGenesisDoc)
    (op : String) (config : Config) (st : LoadLoop)
    (hl : loadScopes env ics op config (env.GetScopeHashes config.Replication config.UserScopes)
      (initLoop dbs) = (st, none))
    (hn : st.genDocSetHashes.length =
      (env.GetScopeHashes config.Replication config.UserScopes).length) :
    LoadMultiplexStateFromDBOrGenesisDocProviderWithConfig env dbs (.ok ics) op config =
      { multiplexState := st.multiplexState, icsGenDoc := some ics, err := none,
        dbs := st.dbs, trace := st.trace } := by
  unfold LoadMultiplexStateFromDBOrGenesisDocProviderWithConfig
  simp only [initLoop] at hl
  simp only [hl, hn, ne_eq, not_true_eq_false, if_false]

theorem loadScope_mismatch (env : Env) (ics : IChecksummedGenesisDoc) (op : String)
    (config : Config) (st : LoadLoop) (h : String) (db : ScopedDB) (v : Bytes)
    (hdb : st.dbs h = some db) (hv : db.data genesisDocHashKey = some v) (hne : v ≠ [])
    (hdiff : v ≠ ics.GetChecksum) :
    (loadScope env ics op config st h).2 ≠ none := by
  apply loadScope_cases (fun r => r.2 ≠ none)
  · intros; simp
  · intros; simp
  · intros; simp
  · intros; simp
  · intro db1 v1 db2 d0 doc h3 hg _ _ _ h6 _
    rw [hdb] at h3
    cases h3
    have := (get_ok_getErr _ _ _ hg).2
    rw [hv] at this
    simp only [Option.getD_some] at this
    subst this
    exact absurd (List.length_eq_zero.mp h6) hne
  · intro db1 v1 d0 doc h3 hg _ _ _ _ h8
    rw [hdb] at h3
    cases h3
    have := (get_ok_getErr _ _ _ hg).2
    rw [hv] at this
    simp only [Option.getD_some] at this
    subst this
    exact absurd h8 hdiff

theorem loadScopes_mismatch (env : Env) (ics : IChecksummedGenesisDoc) (op : String)
    (config : Config) (h : String) (db : ScopedDB) (v : Bytes)
    (hv : db.data genesisDocHashKey = some v) (hne : v ≠ [])
    (hdiff : v ≠ ics.GetChecksum) (l : List String) :
    ∀ st, h ∈ l → st.dbs h = some db → (loadScopes env ics op config l st).2 ≠ none := by
  induction l with
  | nil => intro st hh; simp at hh
  | cons x rest ih =>
    intro st hh hdb
    rcases hx : loadScope env ics op config st x with ⟨st2, _ | e⟩
    · simp only [loadScopes, hx]
      by_cases hxh : h = x
      · subst hxh
        have := loadScope_mismatch env ics op config st h db v hdb hv hne hdiff
        rw [hx] at this
        exact absurd rfl this
      · have hrest : h ∈ rest := by
          rcases List.mem_cons.mp hh with h0 | h0
          · exact absurd h0 hxh
          · exact h0
        apply ih st2 hrest
        have := loadScope_dbs_other env ics op config st x h hxh
        rw [hx] at this
        rw [this, hdb]
    · simp [loadScopes, hx]

theorem loadScopeState_trace (env : Env) (config : Config) (st : LoadLoop) (h : String)
    (doc : GenesisDoc) (db : ScopedDB) (hash : Bytes) :
    (loadScopeState env config st h doc db hash).1.trace = st.trace ++ [DBOp.load h] := by
  rcases hl : env.LoadFromDBOrGenesisDoc db config.StorageExperimentalKeyLayout doc with
    ⟨db2, e | s⟩ <;> simp [loadScopeState, hl]

theorem loadScope_writesFollowEmptyRead (env : Env) (ics : IChecksummedGenesisDoc)
    (op : String) (config : Config) (st : LoadLoop) (h : String)
    (hw : writesFollowEmptyRead ics.GetChecksum st.trace) :
    writesFollowEmptyRead ics.GetChecksum (loadScope env ics op config st h).1.trace := by
  apply loadScope_cases (fun r => writesFollowEmptyRead ics.GetChecksum r.1.trace)
  · intros; exact hw
  · intros
    simpa [writesFollowEmptyRead, writesFollowEmptyReadRev] using hw
  · intros
    simpa [writesFollowEmptyRead, writesFollowEmptyReadRev] using hw
  · intro db v db1 e _ _ _ h6 _
    have hv : v = [] := List.length_eq_zero.mp h6
    subst hv
    simpa [writesFollowEmptyRead, writesFollowEmptyReadRev] using hw
  · intro db v db1 d0 doc _ _ _ _ _ h6 _
    have hv : v = [] := List.length_eq_zero.mp h6
    subst hv
    rw [loadScopeState_trace]
    simpa [writesFollowEmptyRead, writesFollowEmptyReadRev] using hw
  · intros
    rw [loadScopeState_trace]
    simpa [writesFollowEmptyRead, writesFollowEmptyReadRev] using hw

theorem loadScopes_writesFollowEmptyRead (env : Env) (ics : IChecksummedGenesisDoc)
    (op : String) (config : Config) (l : List String) :
    ∀ st, writesFollowEmptyRead ics.GetChecksum st.trace →
      writesFollowEmptyRead ics.GetChecksum (loadScopes env ics op config l st).1.trace := by
  induction l with
  | nil => intro st hw; exact hw
  | cons x rest ih =>
    intro st hw
    have hstep := loadScope_writesFollowEmptyRead env ics op config st x hw
    rcases hx : loadScope env ics op config st x with ⟨st2, _ | e⟩
    · simp only [loadScopes, hx]
      rw [hx] at hstep
      exact ih st2 hstep
    · simp only [loadScopes, hx]
      rw [hx] at hstep
      exact hstep

theorem loadScope_trace_scope (env : Env) (ics : IChecksummedGenesisDoc)
    (op : String) (config : Config) (st : LoadLoop) (h : String) :
    ∃ chunk, (loadScope env ics op config st h).1.trace = st.trace ++ chunk ∧
      ∀ o, o ∈ chunk → o.scope = h := by
  apply loadScope_cases
    (fun r => ∃ chunk, r.1.trace = st.trace ++ chunk ∧ ∀ o, o ∈ chunk → o.scope = h)
  · intros; exact ⟨[], by simp, by simp⟩
  · intro db e _ _
    exact ⟨[DBOp.getFailed h genesisDocHashKey e], rfl, by simp [DBOp.scope]⟩
  · intro db v e _ _ _
    exact ⟨[DBOp.get h genesisDocHashKey v], rfl, by simp [DBOp.scope]⟩
  · intro db v db1 e _ _ _ _ _
    exact ⟨[DBOp.get h genesisDocHashKey v,
      DBOp.setSyncFailed h genesisDocHashKey ics.GetChecksum e], by simp, by simp [DBOp.scope]⟩
  · intro db v db1 d0 doc _ _ _ _ _ _ _
    rw [loadScopeState_trace]
    exact ⟨[DBOp.get h genesisDocHashKey v,
      DBOp.setSync h genesisDocHashKey ics.GetChecksum, DBOp.load h], by simp,
      by simp [DBOp.scope]⟩
  · intro db v d0 doc _ _ _ _ _ _ _
    rw [loadScopeState_trace]
    exact ⟨[DBOp.get h genesisDocHashKey v, DBOp.load h], by simp, by simp [DBOp.scope]⟩

theorem loadScopeState_dbs_self (env : Env) (config : Config) (st : LoadLoop) (h : String)
    (doc : GenesisDoc) (db : ScopedDB) (hash : Bytes) :
    (loadScopeState env config st h doc db hash).1.dbs h =
      some (env.LoadFromDBOrGenesisDoc db config.StorageExperimentalKeyLayout doc).1 := by
  rcases hl : env.LoadFromDBOrGenesisDoc db config.StorageExperimentalKeyLayout doc with
    ⟨db2, e | s⟩ <;> simp [loadScopeState, hl, setDB]

theorem loadScope_noWrite (env : Env) (ics : IChecksummedGenesisDoc)
    (op : String) (config : Config) (hframe : StoreKeepsGenesisHash env)
    (st : LoadLoop) (x h : String)
    (hI : SlotTaken h st.dbs) (hn : noWriteOn h st.trace) :
    SlotTaken h (loadScope env ics op config st x).1.dbs ∧
      noWriteOn h (loadScope env ics op config st x).1.trace := by
  by_cases hx : h = x
  · subst hx
    apply loadScope_cases
      (fun r => SlotTaken h r.1.dbs ∧ noWriteOn h r.1.trace)
    · intros; exact ⟨hI, hn⟩
    · intro db e _ _
      refine ⟨hI, ?_⟩
      intro o ho hw
      rcases List.mem_append.mp ho with h1 | h1
      · exact hn o h1 hw
      · simp only [List.mem_singleton] at h1; subst h1; simp [DBOp.isWrite] at hw
    · intro db v e _ _ _
      refine ⟨hI, ?_⟩
      intro o ho hw
      rcases List.mem_append.mp ho with h1 | h1
      · exact hn o h1 hw
      · simp only [List.mem_singleton] at h1; subst h1; simp [DBOp.isWrite] at hw
    · intro db v db1 e h3 hg _ h6 _
      have hv : v = [] := List.length_eq_zero.mp h6
      subst hv
      exact absurd hg (hI db h3)
    · intro db v db1 d0 doc h3 hg _ _ _ h6 _
      have hv : v = [] := List.length_eq_zero.mp h6
      subst hv
      exact absurd hg (hI db h3)
    · intro db v d0 doc h3 hg _ _ _ _ _
      refine ⟨?_, ?_⟩
      · intro db2 hdb2
        rw [loadScopeState_dbs_self] at hdb2
        cases hdb2
        rw [hframe]
        exact hI db h3
      · rw [loadScopeState_trace]
        intro o ho hw
        rcases List.mem_append.mp ho with h1 | h1
        · rcases List.mem_append.mp h1 with h2 | h2
          · exact hn o h2 hw
          · simp only [List.mem_singleton] at h2; subst h2; simp [DBOp.isWrite] at hw
        · simp only [List.mem_singleton] at h1; subst h1; simp [DBOp.isWrite] at hw
  · refine ⟨?_, ?_⟩
    · intro db hdb
      rw [loadScope_dbs_other env ics op config st x h hx] at hdb
      exact hI db hdb
    · obtain ⟨chunk, hc, hs⟩ := loadScope_trace_scope env ics op config st x
      rw [hc]
      intro o ho hw
      rcases List.mem_append.mp ho with h1 | h1
      · exact hn o h1 hw
      · rw [hs o h1]; exact fun h0 => hx h0.symm

theorem loadScopes_noWrite (env : Env) (ics : IChecksummedGenesisDoc)
    (op : String) (config : Config) (hframe : StoreKeepsGenesisHash env)
    (h : String) (l : List String) :
    ∀ st, SlotTaken h st.dbs → noWriteOn h st.trace →
      noWriteOn h (loadScopes env ics op config l st).1.trace := by
  induction l with
  | nil => intro st _ hn; exact hn
  | cons x rest ih =>
    intro st hI hn
    have hstep := loadScope_noWrite env ics op config hframe st x h hI hn
    rcases hx : loadScope env ics op config st x with ⟨st2, _ | e⟩
    · simp only [loadScopes, hx]
      rw [hx] at hstep
      exact ih st2 hstep.1 hstep.2
    · simp only [loadScopes, hx]
      rw [hx] at hstep
      exact hstep.2

theorem scopeLoaded_settled (env : Env) (ics : IChecksummedGenesisDoc) (op : String)
    (config : Config) (hframe : StoreKeepsGenesisHash env) (hstable : StoreReloadStable env)
    (st : LoadLoop) (h : String) (hl : ScopeLoaded env ics op config st h) :
    ScopeSettled env ics op config st.dbs st.multiplexState h := by
  obtain ⟨d0, doc, dprev, s, h1, h2, h5, hg, hs, hdb, hms⟩ := hl
  refine ⟨d0, doc, _, s, h1, h2, h5, hdb, ?_, hstable _ _ _ _ hs, hms⟩
  rw [hframe]; exact hg

theorem loadScope_settled (env : Env) (ics : IChecksummedGenesisDoc) (op : String)
    (config : Config) (ms : MultiplexState) (st : LoadLoop) (h : String)
    (hcs : ics.GetChecksum ≠ [])
    (hset : ScopeSettled env ics op config st.dbs ms h) :
    ∃ st1, loadScope env ics op config st h = (st1, none) ∧ st1.dbs = st.dbs ∧
      st1.trace = st.trace ++ [DBOp.get h genesisDocHashKey ics.GetChecksum, DBOp.load h] ∧
      st1.multiplexState h = ms h ∧
      (∀ k, k ≠ h → st1.multiplexState k = st.multiplexState k) ∧
      st1.genDocSetHashes.length = st.genDocSetHashes.length + 1 := by
  obtain ⟨d0, doc, d, s, h1, h2, h5, hdb, hg, hload, hms⟩ := hset
  have hlen : ¬ ics.GetChecksum.length = 0 := fun h0 => hcs (List.length_eq_zero.mp h0)
  have hval : loadScope env ics op config st h =
      ({ dbs := setDB st.dbs h d,
         trace := st.trace ++ [DBOp.get h genesisDocHashKey ics.GetChecksum] ++ [DBOp.load h],
         multiplexState := setState st.multiplexState h { ScopeHash := h, State := s },
         genDocSetHashes := st.genDocSetHashes ++ [ics.GetChecksum] }, none) := by
    unfold loadScope
    simp only [h1, h2, GetScopedDB, hdb, hg, h5, hlen, if_false, ne_eq, not_true_eq_false,
      loadScopeState, hload]
  refine ⟨_, hval, ?_, ?_, ?_, ?_, ?_⟩
  · funext k
    by_cases hk : k = h
    · subst hk; simp [setDB, hdb]
    · simp [setDB, hk]
  · simp
  · simp [setState, hms]
  · intro k hk; simp [setState, hk]
  · simp

theorem loadScopes_settled (env : Env) (ics : IChecksummedGenesisDoc) (op : String)
    (config : Config) (ms : MultiplexState) (hcs : ics.GetChecksum ≠ []) (l : List String) :
    ∀ st, (∀ h, h ∈ l → ScopeSettled env ics op config st.dbs ms h) →
      ∃ st1, loadScopes env ics op config l st = (st1, none) ∧ st1.dbs = st.dbs ∧
        (∀ o, o ∈ st1.trace → o ∈ st.trace ∨ o.isWrite = false) ∧
        (∀ k, k ∈ l → st1.multiplexState k = ms k) ∧
        (∀ k, k ∉ l → st1.multiplexState k = st.multiplexState k) ∧
        st1.genDocSetHashes.length = st.genDocSetHashes.length + l.length := by
  induction l with
  | nil => intro st _; exact ⟨st, rfl, rfl, fun o ho => Or.inl ho, by simp, by simp, by simp⟩
  | cons x rest ih =>
    intro st hall
    obtain ⟨st2, hx, hd2, ht2, hm2, hmo2, hn2⟩ :=
      loadScope_settled env ics op config ms st x hcs (hall x (List.mem_cons_self _ _))
    obtain ⟨st1, hr, hd1, ht1, hm1, hmo1, hn1⟩ := ih st2 (by
      intro h hh
      rw [hd2]
      exact hall h (List.mem_cons_of_mem _ hh))
    refine ⟨st1, ?_, ?_, ?_, ?_, ?_, ?_⟩
    · simp only [loadScopes, hx]; exact hr
    · rw [hd1, hd2]
    · intro o ho
      rcases ht1 o ho with h0 | h0
      · rw [ht2] at h0
        rcases List.mem_append.mp h0 with h3 | h3
        · exact Or.inl h3
        · right
          simp only [List.mem_cons, List.mem_singleton, List.not_mem_nil, or_false] at h3
          rcases h3 with h3 | h3 <;> subst h3 <;> rfl
      · exact Or.inr h0
    · intro k hk
      by_cases hkr : k ∈ rest
      · exact hm1 k hkr
      · have hkx : k = x := by
          rcases List.mem_cons.mp hk with h0 | h0
          · exact h0
          · exact absurd h0 hkr
        subst hkx
        rw [hmo1 k hkr, hm2]
    · intro k hk
      simp only [List.mem_cons, not_or] at hk
      rw [hmo1 k hk.2, hmo2 k hk.1]
    · rw [hn1, hn2]; simp [Nat.add_assoc, Nat.add_comm]

/-- C1: whenever the loader returns without error (the state store leaving the
genesis-hash slot as it found it), the genesis provider has produced a genesis set and,
for every configured scope hash, that scope's state database answers a `Get` of
`mxGenesisDocHash` with the checksum of the loaded set. -/
theorem genesis_hash_stored_after_load (env : Env) (stateMultiplexDB : MultiplexDB)
    (genesisDocProvider : Except String IChecksummedGenesisDoc)
    (operatorGenesisHashHex : String) (config : Config)
    (hframe : StoreKeepsGenesisHash env)
    (hok : (LoadMultiplexStateFromDBOrGenesisDocProviderWithConfig env stateMultiplexDB
      genesisDocProvider operatorGenesisHashHex config).err = none) :
    ∃ ics, genesisDocProvider = .ok ics ∧
      ∀ h, h ∈ env.GetScopeHashes config.Replication config.UserScopes →
        ∃ db, (LoadMultiplexStateFromDBOrGenesisDocProviderWithConfig env stateMultiplexDB
            genesisDocProvider operatorGenesisHashHex config).dbs h = some db ∧
          db.Get genesisDocHashKey = .ok ics.GetChecksum := by
  obtain ⟨ics, st, hp, hl, hr⟩ := load_ok_inv env stateMultiplexDB genesisDocProvider
    operatorGenesisHashHex config hok
  refine ⟨ics, hp, ?_⟩
  intro h hh
  obtain ⟨-, -, hloaded, -⟩ := loadScopes_ok env ics operatorGenesisHashHex config _ _ _ hl
  obtain ⟨d0, doc, dprev, s, -, -, -, hg, -, hdb, -⟩ := hloaded h hh
  rw [hr]
  exact ⟨_, hdb, by rw [hframe]; exact hg⟩

theorem sampleEnv_keeps_genesis_hash : StoreKeepsGenesisHash sampleEnv :=
  fun _ _ _ => rfl

theorem sampleEnv_reload_stable : StoreReloadStable sampleEnv := by
  intro db layout doc s hs
  simp only [sampleEnv] at hs ⊢
  rw [hs]

/-- Witness of C1: loading the three sample scopes from fresh databases. -/
theorem genesis_hash_stored_after_load_witness :
    ∃ ics, (Except.ok sampleGenesis : Except String IChecksummedGenesisDoc) = .ok ics ∧
      ∀ h, h ∈ sampleEnv.GetScopeHashes sampleConfig.Replication sampleConfig.UserScopes →
        ∃ db, (LoadMultiplexStateFromDBOrGenesisDocProviderWithConfig sampleEnv sampleDBs
            (.ok sampleGenesis) "" sampleConfig).dbs h = some db ∧
          db.Get genesisDocHashKey = .ok ics.GetChecksum :=
  genesis_hash_stored_after_load sampleEnv sampleDBs (.ok sampleGenesis) "" sampleConfig
    sampleEnv_keeps_genesis_hash (by decide)

/-- C2: if the state database of some configured scope already holds a non-empty
`mxGenesisDocHash` value that differs from the checksum of the loaded genesis set, the
loader returns an error, an empty `MultiplexState` and a nil checksummed genesis doc. -/
theorem genesis_hash_mismatch_no_state (env : Env) (stateMultiplexDB : MultiplexDB)
    (genesisDocProvider : Except String IChecksummedGenesisDoc)
    (operatorGenesisHashHex : String) (config : Config)
    (h : String) (db : ScopedDB) (v : Bytes)
    (hh : h ∈ env.GetScopeHashes config.Replication config.UserScopes)
    (hdb : stateMultiplexDB h = some db)
    (hv : db.data genesisDocHashKey = some v) (hne : v ≠ [])
    (hdiff : ∀ ics, genesisDocProvider = .ok ics → v ≠ ics.GetChecksum) :
    (LoadMultiplexStateFromDBOrGenesisDocProviderWithConfig env stateMultiplexDB
        genesisDocProvider operatorGenesisHashHex config).err ≠ none ∧
      (∀ k, (LoadMultiplexStateFromDBOrGenesisDocProviderWithConfig env stateMultiplexDB
        genesisDocProvider operatorGenesisHashHex config).multiplexState k = none) ∧
      (LoadMultiplexStateFromDBOrGenesisDocProviderWithConfig env stateMultiplexDB
        genesisDocProvider operatorGenesisHashHex config).icsGenDoc.isNone = true := by
  have herr : (LoadMultiplexStateFromDBOrGenesisDocProviderWithConfig env stateMultiplexDB
      genesisDocProvider operatorGenesisHashHex config).err ≠ none := by
    intro hok
    obtain ⟨ics, st, hp, hl, -⟩ := load_ok_inv env stateMultiplexDB genesisDocProvider
      operatorGenesisHashHex config hok
    have := loadScopes_mismatch env ics operatorGenesisHashHex config h db v hv hne
      (hdiff ics hp) _ (initLoop stateMultiplexDB) hh hdb
    rw [hl] at this
    exact this rfl
  obtain ⟨hms, hics⟩ := load_err_shape env stateMultiplexDB genesisDocProvider
    operatorGenesisHashHex config herr
  refine ⟨herr, ?_, hics⟩
  intro k
  rw [hms]
  rfl

/-- Witness of C2: the slot of `addr:b` is pre-seeded with `0xDEADBEEF`. -/
theorem genesis_hash_mismatch_no_state_witness :
    (LoadMultiplexStateFromDBOrGenesisDocProviderWithConfig sampleEnv seededDBs
        (.ok sampleGenesis) "" sampleConfig).err ≠ none ∧
      (∀ k, (LoadMultiplexStateFromDBOrGenesisDocProviderWithConfig sampleEnv seededDBs
        (.ok sampleGenesis) "" sampleConfig).multiplexState k = none) ∧
      (LoadMultiplexStateFromDBOrGenesisDocProviderWithConfig sampleEnv seededDBs
        (.ok sampleGenesis) "" sampleConfig).icsGenDoc.isNone = true :=
  genesis_hash_mismatch_no_state sampleEnv seededDBs (.ok sampleGenesis) "" sampleConfig
    "addr:b" (seededDB [222, 173, 190, 239]) [222, 173, 190, 239]
    (by decide) (by simp [seededDBs]) (by simp [seededDB]) (by decide)
    (by intro ics hics; cases hics; decide)

/-- C3: first-write-wins persistence of the genesis hash. In every run of the loader each
`SetSync` call stores the checksum under `mxGenesisDocHash` directly after a `Get` of that
key on the same scope returned an empty value; the state store leaving the slot as it
found it, a scope whose slot is already non-empty sees no `SetSync` call at all, whether
the run succeeds or fails; and, the store also reloading without change, a second run on
the databases left by a successful run with the same genesis set (whose checksum is not
empty) succeeds, performs no `SetSync` call and leaves the databases as they are. A run
whose genesis provider fails performs no database operation. -/
theorem genesis_hash_first_write_wins (env : Env) (stateMultiplexDB : MultiplexDB)
    (ics : IChecksummedGenesisDoc) (operatorGenesisHashHex : String) (config : Config) :
    writesFollowEmptyRead ics.GetChecksum
        (LoadMultiplexStateFromDBOrGenesisDocProviderWithConfig env stateMultiplexDB
          (.ok ics) operatorGenesisHashHex config).trace ∧
      (StoreKeepsGenesisHash env → ∀ h db v, stateMultiplexDB h = some db →
        db.data genesisDocHashKey = some v → v ≠ [] →
        noWriteOn h (LoadMultiplexStateFromDBOrGenesisDocProviderWithConfig env
          stateMultiplexDB (.ok ics) operatorGenesisHashHex config).trace) ∧
      (StoreKeepsGenesisHash env → StoreReloadStable env → ics.GetChecksum ≠ [] →
        (LoadMultiplexStateFromDBOrGenesisDocProviderWithConfig env stateMultiplexDB
          (.ok ics) operatorGenesisHashHex config).err = none →
        (LoadMultiplexStateFromDBOrGenesisDocProviderWithConfig env
            (LoadMultiplexStateFromDBOrGenesisDocProviderWithConfig env stateMultiplexDB
              (.ok ics) operatorGenesisHashHex config).dbs
            (.ok ics) operatorGenesisHashHex config).err = none ∧
          (∀ o, o ∈ (LoadMultiplexStateFromDBOrGenesisDocProviderWithConfig env
            (LoadMultiplexStateFromDBOrGenesisDocProviderWithConfig env stateMultiplexDB
              (.ok ics) operatorGenesisHashHex config).dbs
            (.ok ics) operatorGenesisHashHex config).trace → o.isWrite = false) ∧
          (LoadMultiplexStateFromDBOrGenesisDocProviderWithConfig env
            (LoadMultiplexStateFromDBOrGenesisDocProviderWithConfig env stateMultiplexDB
              (.ok ics) operatorGenesisHashHex config).dbs
            (.ok ics) operatorGenesisHashHex config).dbs =
          (LoadMultiplexStateFromDBOrGenesisDocProviderWithConfig env stateMultiplexDB
              (.ok ics) operatorGenesisHashHex config).dbs) ∧
      (∀ e, (LoadMultiplexStateFromDBOrGenesisDocProviderWithConfig env stateMultiplexDB
          (.error e) operatorGenesisHashHex config).trace = []) := by
  refine ⟨?_, ?_, ?_, ?_⟩
  · rw [load_trace]
    exact loadScopes_writesFollowEmptyRead env ics operatorGenesisHashHex config _ _
      (by simp [initLoop, writesFollowEmptyRead, writesFollowEmptyReadRev])
  · intro hframe h db v hdb hv hne
    rw [load_trace]
    apply loadScopes_noWrite env ics operatorGenesisHashHex config hframe
    · intro db1 hdb1
      simp only [initLoop] at hdb1
      rw [hdb] at hdb1
      cases hdb1
      intro hg
      have := (get_ok_getErr _ _ _ hg).2
      rw [hv] at this
      exact hne (by simpa using this)
    · intro o ho; simp [initLoop] at ho
  · intro hframe hstable hcs hok
    obtain ⟨ics1, st, hp, hl, hr⟩ := load_ok_inv env stateMultiplexDB (.ok ics)
      operatorGenesisHashHex config hok
    cases hp
    obtain ⟨-, -, hloaded, -⟩ := loadScopes_ok env ics operatorGenesisHashHex config _ _ _ hl
    obtain ⟨st2, hl2, hd2, ht2, -, -, hn2⟩ :=
      loadScopes_settled env ics operatorGenesisHashHex config st.multiplexState hcs
        (env.GetScopeHashes config.Replication config.UserScopes) (initLoop st.dbs)
        (fun h hh => scopeLoaded_settled env ics operatorGenesisHashHex config hframe hstable
          st h (hloaded h hh))
    rw [hr]
    have hfin := load_of_loop_ok env st.dbs ics operatorGenesisHashHex config st2 hl2
      (by simpa [initLoop] using hn2)
    rw [hfin]
    refine ⟨rfl, ?_, hd2⟩
    intro o ho
    rcases ht2 o ho with h0 | h0
    · simp [initLoop] at h0
    · exact h0
  · intro e; rfl

/-- Witness of C3: the pre-seeded slot of `addr:b` is never written, and a second run on
the databases left by a successful first run succeeds without a `SetSync` call. -/
theorem genesis_hash_first_write_wins_witness :
    noWriteOn "addr:b" (LoadMultiplexStateFromDBOrGenesisDocProviderWithConfig sampleEnv
        seededDBs (.ok sampleGenesis) "" sampleConfig).trace ∧
      ((LoadMultiplexStateFromDBOrGenesisDocProviderWithConfig sampleEnv
            (LoadMultiplexStateFromDBOrGenesisDocProviderWithConfig sampleEnv sampleDBs
              (.ok sampleGenesis) "" sampleConfig).dbs
            (.ok sampleGenesis) "" sampleConfig).err = none ∧
        (∀ o, o ∈ (LoadMultiplexStateFromDBOrGenesisDocProviderWithConfig sampleEnv
            (LoadMultiplexStateFromDBOrGenesisDocProviderWithConfig sampleEnv sampleDBs
              (.ok sampleGenesis) "" sampleConfig).dbs
            (.ok sampleGenesis) "" sampleConfig).trace → o.isWrite = false) ∧
        (LoadMultiplexStateFromDBOrGenesisDocProviderWithConfig sampleEnv
            (LoadMultiplexStateFromDBOrGenesisDocProviderWithConfig sampleEnv sampleDBs
              (.ok sampleGenesis) "" sampleConfig).dbs
            (.ok sampleGenesis) "" sampleConfig).dbs =
          (LoadMultiplexStateFromDBOrGenesisDocProviderWithConfig sampleEnv sampleDBs
              (.ok sampleGenesis) "" sampleConfig).dbs) :=
  ⟨(genesis_hash_first_write_wins sampleEnv seededDBs sampleGenesis "" sampleConfig).2.1
      sampleEnv_keeps_genesis_hash "addr:b" (seededDB [222, 173, 190, 239])
      [222, 173, 190, 239] (by simp [seededDBs]) (by simp [seededDB]) (by decide),
    (genesis_hash_first_write_wins sampleEnv sampleDBs sampleGenesis "" sampleConfig).2.2.1
      sampleEnv_keeps_genesis_hash sampleEnv_reload_stable (by decide) (by decide)⟩

/-- C4 fails as stated: with no configured scope the per-scope loop, which holds the
check of the operator's hash, never runs, and the loader succeeds although the operator
passed the hash `00`, which decodes to a byte string different from the checksum. -/
theorem operator_hash_mismatch_unchecked_without_scopes :
    ("00" : String) ≠ "" ∧
      hexDecodeString "00" = .ok [0] ∧ ([0] : Bytes) ≠ sampleGenesis.GetChecksum ∧
      sampleEnv.GetScopeHashes noScopeConfig.Replication noScopeConfig.UserScopes = [] ∧
      (LoadMultiplexStateFromDBOrGenesisDocProviderWithConfig sampleEnv sampleDBs
        (.ok sampleGenesis) "00" noScopeConfig).err = none ∧
      (LoadMultiplexStateFromDBOrGenesisDocProviderWithConfig sampleEnv sampleDBs
        (.ok sampleGenesis) "00" noScopeConfig).icsGenDoc.isSome = true := by
  refine ⟨by decide, rfl, by decide, rfl, rfl, rfl⟩

/-- C4, amended: if at least one scope is configured and a non-empty
`operatorGenesisHashHex` is passed that does not decode to the checksum of the loaded
genesis set, the loader returns an error. -/
theorem operator_hash_mismatch_aborts (env : Env) (stateMultiplexDB : MultiplexDB)
    (genesisDocProvider : Except String IChecksummedGenesisDoc)
    (operatorGenesisHashHex : String) (config : Config)
    (hscopes : env.GetScopeHashes config.Replication config.UserScopes ≠ [])
    (hop : operatorGenesisHashHex ≠ "")
    (hdiff : ∀ ics b, genesisDocProvider = .ok ics →
      hexDecodeString operatorGenesisHashHex = .ok b → b ≠ ics.GetChecksum) :
    (LoadMultiplexStateFromDBOrGenesisDocProviderWithConfig env stateMultiplexDB
      genesisDocProvider operatorGenesisHashHex config).err ≠ none := by
  intro hok
  obtain ⟨ics, st, hp, hl, -⟩ := load_ok_inv env stateMultiplexDB genesisDocProvider
    operatorGenesisHashHex config hok
  obtain ⟨-, -, hloaded, -⟩ := loadScopes_ok env ics operatorGenesisHashHex config _ _ _ hl
  obtain ⟨x, hx⟩ := List.exists_mem_of_ne_nil _ hscopes
  obtain ⟨-, -, -, -, -, -, hcheck, -⟩ := hloaded x hx
  unfold checkOperatorGenesisHash at hcheck
  rw [if_pos hop] at hcheck
  cases hd : hexDecodeString operatorGenesisHashHex with
  | error e => simp [hd] at hcheck
  | ok b =>
    simp only [hd] at hcheck
    by_cases hb : ics.GetChecksum ≠ b
    · simp [hb] at hcheck
    · exact hdiff ics b hp hd (not_not.mp hb).symm

/-- Witness of C4, amended: three scopes and the operator hash `00`. -/
theorem operator_hash_mismatch_aborts_witness :
    (LoadMultiplexStateFromDBOrGenesisDocProviderWithConfig sampleEnv sampleDBs
      (.ok sampleGenesis) "00" sampleConfig).err ≠ none :=
  operator_hash_mismatch_aborts sampleEnv sampleDBs (.ok sampleGenesis) "00" sampleConfig
    (by decide) (by decide)
    (by
      intro ics b hics hb
      cases hics
      have h0 : hexDecodeString "00" = .ok [0] := rfl
      rw [h0] at hb
      cases hb
      decide)

/-- C10: whenever the loader succeeds, the returned `MultiplexState` has an entry exactly
for the scope hashes returned by `GetScopeHashes()`, and the entry under key `h` has
`ScopeHash` equal to `h`. -/
theorem multiplex_state_keys_are_scope_hashes (env : Env) (stateMultiplexDB : MultiplexDB)
    (genesisDocProvider : Except String IChecksummedGenesisDoc)
    (operatorGenesisHashHex : String) (config : Config)
    (hok : (LoadMultiplexStateFromDBOrGenesisDocProviderWithConfig env stateMultiplexDB
      genesisDocProvider operatorGenesisHashHex config).err = none) :
    (∀ k, ((LoadMultiplexStateFromDBOrGenesisDocProviderWithConfig env stateMultiplexDB
          genesisDocProvider operatorGenesisHashHex config).multiplexState k).isSome = true ↔
        k ∈ env.GetScopeHashes config.Replication config.UserScopes) ∧
      (∀ k s, (LoadMultiplexStateFromDBOrGenesisDocProviderWithConfig env stateMultiplexDB
          genesisDocProvider operatorGenesisHashHex config).multiplexState k = some s →
        s.ScopeHash = k) := by
  obtain ⟨ics, st, hp, hl, hr⟩ := load_ok_inv env stateMultiplexDB genesisDocProvider
    operatorGenesisHashHex config hok
  obtain ⟨-, hother, hloaded, -⟩ :=
    loadScopes_ok env ics operatorGenesisHashHex config _ _ _ hl
  rw [hr]
  have hkey : ∀ k, k ∈ env.GetScopeHashes config.Replication config.UserScopes →
      ∃ s, st.multiplexState k = some { ScopeHash := k, State := s } := by
    intro k hk
    obtain ⟨-, -, -, s, -, -, -, -, -, -, hms⟩ := hloaded k hk
    exact ⟨s, hms⟩
  refine ⟨?_, ?_⟩
  · intro k
    constructor
    · intro hsome
      by_contra hk
      have := hother k hk
      simp only [initLoop, emptyMultiplexState] at this
      simp [this] at hsome
    · intro hk
      obtain ⟨s, hs⟩ := hkey k hk
      simp [hs]
  · intro k s hs
    by_cases hk : k ∈ env.GetScopeHashes config.Replication config.UserScopes
    · obtain ⟨s1, hs1⟩ := hkey k hk
      simp only at hs
      rw [hs1] at hs
      cases hs
      rfl
    · have := hother k hk
      simp only [initLoop, emptyMultiplexState] at this
      simp [this] at hs

/-- Witness of C10: the state multiplex loaded for the three sample scopes. -/
theorem multiplex_state_keys_are_scope_hashes_witness :
    (∀ k, ((LoadMultiplexStateFromDBOrGenesisDocProviderWithConfig sampleEnv sampleDBs
          (.ok sampleGenesis) "" sampleConfig).multiplexState k).isSome = true ↔
        k ∈ sampleEnv.GetScopeHashes sampleConfig.Replication sampleConfig.UserScopes) ∧
      (∀ k s, (LoadMultiplexStateFromDBOrGenesisDocProviderWithConfig sampleEnv sampleDBs
          (.ok sampleGenesis) "" sampleConfig).multiplexState k = some s →
        s.ScopeHash = k) :=
  multiplex_state_keys_are_scope_hashes sampleEnv sampleDBs (.ok sampleGenesis) ""
    sampleConfig (by decide)

theorem matchLine_none_of_no_colon (l : List Char) (h : ∀ c, c ∈ l → c ≠ ':') :
    matchLine l = none := by
  induction l with
  | nil => rfl
  | cons c rest ih =>
    have hrest := ih (fun d hd => h d (List.mem_cons_of_mem _ hd))
    have hc : c ≠ ':' := h c (List.mem_cons_self _ _)
    simp [matchLine, hrest, hc]

theorem isDigit_ne_colon (c : Char) (h : isDigit c = true) : c ≠ ':' := by
  intro hc
  subst hc
  revert h
  decide

theorem takeWhile_all {α : Type} (p : α → Bool) (l : List α) (h : ∀ c, c ∈ l → p c = true) :
    l.takeWhile p = l ∧ l.dropWhile p = [] := by
  induction l with
  | nil => exact ⟨rfl, rfl⟩
  | cons c rest ih =>
    have hc := h c (List.mem_cons_self _ _)
    have hr := ih (fun d hd => h d (List.mem_cons_of_mem _ hd))
    simp [List.takeWhile, List.dropWhile, hc, hr.1, hr.2]

theorem matchLine_host_port (X D : List Char) (hD : D ≠ [])
    (hdig : ∀ c, c ∈ D → isDigit c = true) :
    matchLine (X ++ ':' :: D) = some (X, D, []) := by
  induction X with
  | nil =>
    have hnone : matchLine D = none :=
      matchLine_none_of_no_colon D (fun c hc => isDigit_ne_colon c (hdig c hc))
    obtain ⟨d, ds, rfl⟩ := List.exists_cons_of_ne_nil hD
    have hd : isDigit d = true := hdig d (List.mem_cons_self _ _)
    have htw := takeWhile_all isDigit (d :: ds) hdig
    simp only [List.nil_append, matchLine] at hnone ⊢
    simp only [hnone, List.head?_cons, Option.map_some', Option.getD_some, hd, and_self,
      if_true, htw.1, htw.2]
  | cons c rest ih =>
    show matchLine (c :: (rest ++ ':' :: D)) = some (c :: rest, D, [])
    simp only [matchLine, ih]

theorem replaceAllAux_no_newline (newPort : List Char) (s : List Char)
    (hs : ∀ c, c ∈ s → c ≠ '\n') :
    ∀ line, replaceAllAux newPort line s = replaceLine newPort (line ++ s) := by
  induction s with
  | nil => intro line; simp [replaceAllAux]
  | cons c cs ih =>
    intro line
    have hc : c ≠ '\n' := hs c (List.mem_cons_self _ _)
    simp only [replaceAllAux, hc, if_false]
    rw [ih (fun d hd => hs d (List.mem_cons_of_mem _ hd))]
    simp

theorem matchLine_none_of_hasColonDigit (l : List Char) (h : hasColonDigit l = false) :
    matchLine l = none := by
  induction l with
  | nil => rfl
  | cons c rest ih =>
    simp only [hasColonDigit, Bool.or_eq_false_iff, Bool.and_eq_false_iff,
      decide_eq_false_iff_not] at h
    have hrest := ih h.2
    simp only [matchLine, hrest]
    rcases h.1 with h1 | h1
    · simp [h1]
    · simp [h1]

theorem hasColonDigit_suffix (X Y : List Char) (h : hasColonDigit (X ++ Y) = false) :
    hasColonDigit Y = false := by
  induction X with
  | nil => exact h
  | cons c rest ih =>
    simp only [List.cons_append, hasColonDigit, Bool.or_eq_false_iff] at h
    exact ih h.2

theorem replaceAllAux_host_port (newPort D : List Char) (hD : D ≠ [])
    (hdig : ∀ c, c ∈ D → isDigit c = true) (s : List Char) :
    ∀ line, (∀ A B, s = A ++ '\n' :: B → hasColonDigit (line ++ A) = false) →
      replaceAllAux newPort line (s ++ ':' :: D) = line ++ s ++ newPort := by
  induction s with
  | nil =>
    intro line _
    have hnl : ∀ c, c ∈ ':' :: D → c ≠ '\n' := by
      intro c hc
      rcases List.mem_cons.mp hc with h2 | h2
      · subst h2; decide
      · intro h3
        subst h3
        exact absurd (hdig _ h2) (by decide)
    rw [List.nil_append, replaceAllAux_no_newline _ _ hnl]
    unfold replaceLine
    rw [matchLine_host_port _ _ hD hdig]
    simp
  | cons c cs ih =>
    intro line hline
    by_cases hc : c = '\n'
    · subst hc
      have h0 : hasColonDigit line = false := by
        have := hline [] cs rfl
        simpa using this
      have hrest := ih [] (by
        intro A B hAB
        have := hline ('\n' :: A) B (by rw [hAB]; rfl)
        simpa using hasColonDigit_suffix (line ++ ['\n']) A (by simpa using this))
      show replaceAllAux newPort line ('\n' :: (cs ++ ':' :: D)) = _
      simp only [replaceAllAux, if_true]
      rw [hrest]
      unfold replaceLine
      rw [matchLine_none_of_hasColonDigit _ h0]
      simp
    · have hrest := ih (line ++ [c]) (by
        intro A B hAB
        have := hline (c :: A) B (by rw [hAB]; rfl)
        simpa using this)
      show replaceAllAux newPort line (c :: (cs ++ ':' :: D)) = _
      simp only [replaceAllAux, hc, if_false]
      rw [hrest]
      simp

theorem replaceAllString_host_port (addr H P : String) (h : IsHostPort addr H) :
    ReplaceAllString addr (":" ++ P) = H ++ ":" ++ P := by
  obtain ⟨D, rfl, hD, hdig, hH⟩ := h
  have hdata : (H ++ ":" ++ D).data = H.data ++ ':' :: D.data := by
    simp [String.data_append]
  unfold ReplaceAllString
  rw [hdata, replaceAllAux_host_port _ _ hD hdig _ [] (by simpa using hH)]
  apply String.ext
  simp [String.data_append]

theorem hasColonDigit_append_left (X Y : List Char) (h : hasColonDigit (X ++ Y) = false) :
    hasColonDigit X = false := by
  induction X with
  | nil => rfl
  | cons c rest ih =>
    simp only [List.cons_append, hasColonDigit, Bool.or_eq_false_iff,
      Bool.and_eq_false_iff, decide_eq_false_iff_not] at h ⊢
    refine ⟨?_, ih h.2⟩
    rcases h.1 with h1 | h1
    · exact Or.inl h1
    · cases rest with
      | nil => exact Or.inr rfl
      | cons d ds => exact Or.inr (by simpa using h1)

theorem replaceAllAux_no_match (newPort : List Char) (s : List Char) :
    ∀ line, hasColonDigit (line ++ s) = false → replaceAllAux newPort line s = line ++ s := by
  induction s with
  | nil =>
    intro line h
    rw [List.append_nil] at h
    simp [replaceAllAux, replaceLine, matchLine_none_of_hasColonDigit line h]
  | cons c cs ih =>
    intro line h
    by_cases hc : c = '\n'
    · subst hc
      have hline : hasColonDigit line = false := hasColonDigit_append_left line _ h
      have hcs : hasColonDigit cs = false := by
        have h2 : hasColonDigit ((line ++ ['\n']) ++ cs) = false := by simpa using h
        exact hasColonDigit_suffix _ _ h2
      simp only [replaceAllAux, if_true, replaceLine, matchLine_none_of_hasColonDigit line hline]
      rw [ih [] (by simpa using hcs)]
      simp
    · simp only [replaceAllAux, hc, if_false]
      rw [ih (line ++ [c]) (by simpa using h)]
      simp

theorem replaceAllString_no_match (addr newPort : String)
    (h : hasColonDigit addr.data = false) : ReplaceAllString addr newPort = addr := by
  unfold ReplaceAllString
  rw [replaceAllAux_no_match newPort.data addr.data [] (by simpa using h)]
  rfl

theorem itoa_nonneg (n : Int) (hn : 0 ≤ n) : Itoa n = Nat.repr n.toNat := by
  unfold Itoa
  rw [if_neg (by omega)]

theorem wrapInt64_id (x : Int) (h0 : -(2 ^ 63) ≤ x) (h1 : x < 2 ^ 63) : wrapInt64 x = x := by
  unfold wrapInt64
  rw [Int.emod_eq_of_lt (by omega) (by omega)]
  omega

theorem ports_no_wrap (b : Int) (i : Nat) (hb : -(2 ^ 63) ≤ b)
    (hs : b + 3000 + i < 2 ^ 63) :
    wrapInt64 (b + i) = newP2PPort b i ∧
      wrapInt64 (wrapInt64 (b + 1000) + i) = newRPCPort b i ∧
      wrapInt64 (wrapInt64 (b + 2000) + i) = newGRPCPort b i ∧
      wrapInt64 (wrapInt64 (b + 3000) + i) = newGRPCPrivPort b i := by
  have hi : (0 : Int) ≤ (i : Int) := Int.ofNat_nonneg i
  unfold newP2PPort newRPCPort newGRPCPort newGRPCPrivPort
  refine ⟨?_, ?_, ?_, ?_⟩
  · exact wrapInt64_id _ (by omega) (by omega)
  · rw [wrapInt64_id (b + 1000) (by omega) (by omega)]
    exact wrapInt64_id _ (by omega) (by omega)
  · rw [wrapInt64_id (b + 2000) (by omega) (by omega)]
    exact wrapInt64_id _ (by omega) (by omega)
  · rw [wrapInt64_id (b + 3000) (by omega) (by omega)]
    exact wrapInt64_id _ (by omega) (by omega)

/-! ### Listen ports -/

theorem updateNodeConfig_ok (r : Reactor) (m : MultiplexServiceAddress) (h : String) (i : Nat)
    (hm : r.ListenAddresses = some m) :
    ∃ r1, r.updateNodeConfig h i = .ok (r1, none) ∧
      r1.ListenAddresses = some (fun k =>
        if k = h then some (listenAddressesFor r.nodeConfig r.userConfig.GetListenPort i)
        else m k) ∧
      r1.nodeConfig = r.nodeConfig ∧ r1.userConfig = r.userConfig ∧
      r1.replChains = r.replChains := by
  unfold Reactor.updateNodeConfig
  simp only [hm]
  exact ⟨_, rfl, rfl, rfl, rfl, rfl⟩

theorem startReplicatedChains_ok (l : List String) :
    ∀ (r : Reactor) (i : Nat) (launched : List String) (m : MultiplexServiceAddress),
      r.ListenAddresses = some m →
      ∃ r1 m1, r.startReplicatedChains i l launched = .ok (r1, launched ++ l) ∧
        r1.ListenAddresses = some m1 ∧
        r1.nodeConfig = r.nodeConfig ∧ r1.userConfig = r.userConfig ∧
        r1.replChains = r.replChains ∧
        (∀ k, k ∉ l → m1 k = m k) ∧
        (l.Nodup → ∀ j (hj : j < l.length), m1 (l.get ⟨j, hj⟩) =
          some (listenAddressesFor r.nodeConfig r.userConfig.GetListenPort (i + j))) := by
  induction l with
  | nil =>
    intro r i launched m hm
    exact ⟨r, m, by simp [Reactor.startReplicatedChains], hm, rfl, rfl, rfl,
      fun _ _ => rfl, fun _ j hj => absurd hj (Nat.not_lt_zero _)⟩
  | cons h rest ih =>
    intro r i launched m hm
    obtain ⟨r1, hu, hm1, hc1, hu1, hr1⟩ := updateNodeConfig_ok r m h i hm
    obtain ⟨r2, m2, hs, hm2, hc2, hu2, hr2, hother, hidx⟩ :=
      ih r1 (i + 1) (launched ++ [h]) _ hm1
    refine ⟨r2, m2, ?_, hm2, hc2.trans hc1, hu2.trans hu1, hr2.trans hr1, ?_, ?_⟩
    · simp only [Reactor.startReplicatedChains, hu, hs]
      simp
    · intro k hk
      simp only [List.mem_cons, not_or] at hk
      rw [hother k hk.2]
      simp [hk.1]
    · intro hnd j hj
      have hnd2 := List.nodup_cons.mp hnd
      cases j with
      | zero =>
        simp only [List.get_eq_getElem, List.getElem_cons_zero, Nat.add_zero]
        rw [hother h hnd2.1]
        simp
      | succ j =>
        have hj2 : j < rest.length := Nat.lt_of_succ_lt_succ hj
        have := hidx hnd2.2 j hj2
        simp only [List.get_eq_getElem, List.getElem_cons_succ] at this ⊢
        rw [this, hc1, hu1]
        have harith : i + 1 + j = i + (j + 1) := by omega
        rw [harith]

theorem loadMultiplexState_frame (env : ReactorEnv) (r : Reactor) :
    (r.loadMultiplexState env).1.nodeConfig = r.nodeConfig ∧
      (r.loadMultiplexState env).1.userConfig = r.userConfig ∧
      (r.loadMultiplexState env).1.replChains = r.replChains ∧
      (r.loadMultiplexState env).1.ListenAddresses = r.ListenAddresses ∧
      (r.loadMultiplexState env).1.replConfig = r.replConfig := by
  unfold Reactor.loadMultiplexState
  simp only
  split
  · exact ⟨rfl, rfl, rfl, rfl, rfl⟩
  · split
    · exact ⟨rfl, rfl, rfl, rfl, rfl⟩
    · exact ⟨rfl, rfl, rfl, rfl, rfl⟩

theorem onStart_ok_inv (env : ReactorEnv) (r : Reactor) (res : OnStartResult)
    (hstart : r.OnStart env = .ok res) (hok : res.err = none) :
    ∃ m, res.reactor.ListenAddresses = some m ∧ res.launched = r.replChains ∧
      (∀ k, k ∉ r.replChains → m k = none) ∧
      (r.replChains.Nodup → ∀ j (hj : j < r.replChains.length),
        m (r.replChains.get ⟨j, hj⟩) =
          some (listenAddressesFor r.nodeConfig r.userConfig.GetListenPort j)) := by
  unfold Reactor.OnStart at hstart
  cases hdir : initDataDir env r.nodeConfig with
  | some e =>
    simp only [hdir, Except.ok.injEq] at hstart
    subst hstart
    simp at hok
  | none =>
    simp only [hdir] at hstart
    obtain ⟨hc, hu, hr, -, -⟩ := loadMultiplexState_frame env r
    rcases hload : r.loadMultiplexState env with ⟨r1, _ | e⟩
    · rw [hload] at hc hu hr
      simp only at hc hu hr
      simp only [hload] at hstart
      obtain ⟨r3, m3, hs, hm3, -, -, -, hother, hidx⟩ :=
        startReplicatedChains_ok r1.replChains
          { r1 with ListenAddresses := some (fun _ => none) } 0 [] (fun _ => none) rfl
      simp only [hs, List.nil_append, Except.ok.injEq] at hstart
      subst hstart
      simp only [Nat.zero_add, hc, hu] at hidx
      have key : ∀ l : List String, l = r1.replChains →
          (∀ k, k ∉ l → m3 k = none) ∧
          (l.Nodup → ∀ j (hj : j < l.length), m3 (l.get ⟨j, hj⟩) =
            some (listenAddressesFor r.nodeConfig r.userConfig.GetListenPort j)) := by
        intro l hl
        subst hl
        exact ⟨hother, hidx⟩
      exact ⟨m3, hm3, hr, (key _ hr.symm).1, (key _ hr.symm).2⟩
    · simp only [hload, Except.ok.injEq] at hstart
      subst hstart
      simp at hok

/-- C5 fails as stated: a base listen address need not carry a port. With an empty gRPC
listen address, which leaves the gRPC server off, `OnStart` returns without error and
records the empty string as the gRPC address of the scope at position 0: no address with
the port `b + 2000 + 0`, whatever its host part, while the P2P address of that scope
carries the port `b + 0`. -/
theorem onStart_empty_grpc_address_gets_no_port :
    emptyGrpcReactor.userConfig.GetListenPort = 30001 ∧
      emptyGrpcReactor.replChains.head? = some "addr:a" ∧
      startError (emptyGrpcReactor.OnStart sampleReactorEnv) = none ∧
      recordedAddress (emptyGrpcReactor.OnStart sampleReactorEnv) "addr:a" "P2P" =
        some "tcp://0.0.0.0:30001" ∧
      recordedAddress (emptyGrpcReactor.OnStart sampleReactorEnv) "addr:a" "GRPC" = some "" ∧
      ∀ H, recordedAddress (emptyGrpcReactor.OnStart sampleReactorEnv) "addr:a" "GRPC" ≠
        some (H ++ ":" ++ Itoa (30001 + 2000 + 0)) := by
  have hrec : recordedAddress (emptyGrpcReactor.OnStart sampleReactorEnv) "addr:a" "GRPC" =
      some "" := by decide
  refine ⟨by decide, by decide, by decide, by decide, hrec, ?_⟩
  intro H hH
  rw [hrec] at hH
  have hd := congrArg String.data (Option.some.inj hH)
  simp [String.data_append] at hd

/-- C5, amended: port allocation. Let the listen-port base `b` and the position `i` be such
that the sums of the code do not wrap (`b` is a 64-bit integer and `b + 3000 + i` stays
below `2^63`). When `OnStart` returns without error on a reactor whose scope hashes are
pairwise distinct, the addresses recorded for the scope at position `i` are the base
listen addresses rewritten with the ports `b + i` (P2P), `b + 1000 + i` (RPC),
`b + 2000 + i` (gRPC) and `b + 3000 + i` (privileged gRPC); for each endpoint on its own, a
base address made of a host part, a colon and digits is recorded as the host part, a colon
and that port, and a base address without a `:` followed by a digit is recorded unchanged;
the sums are those of the 64-bit integers of the code; with `b = 30001` and three scopes
the P2P addresses carry the ports 30001, 30002, 30003 and the RPC addresses the ports
31001, 31002, 31003. -/
theorem onStart_port_allocation (env : ReactorEnv) (r : Reactor) (res : OnStartResult)
    (hstart : r.OnStart env = .ok res) (hok : res.err = none)
    (hnodup : r.replChains.Nodup) (i : Nat) (hi : i < r.replChains.length)
    (hb : -(2 ^ 63) ≤ r.userConfig.GetListenPort)
    (hs : r.userConfig.GetListenPort + 3000 + i < 2 ^ 63) :
    (∃ m entry, res.reactor.ListenAddresses = some m ∧
      m (r.replChains.get ⟨i, hi⟩) = some entry ∧
      entry "P2P" = some (ReplaceAllString r.nodeConfig.P2PListenAddress
        (":" ++ Itoa (r.userConfig.GetListenPort + i))) ∧
      entry "RPC" = some (ReplaceAllString r.nodeConfig.RPCListenAddress
        (":" ++ Itoa (r.userConfig.GetListenPort + 1000 + i))) ∧
      entry "GRPC" = some (ReplaceAllString r.nodeConfig.GRPCListenAddress
        (":" ++ Itoa (r.userConfig.GetListenPort + 2000 + i))) ∧
      entry "GRPCPriv" = some (ReplaceAllString r.nodeConfig.GRPCPrivilegedListenAddress
        (":" ++ Itoa (r.userConfig.GetListenPort + 3000 + i))) ∧
      (∀ H, IsHostPort r.nodeConfig.P2PListenAddress H →
        entry "P2P" = some (H ++ ":" ++ Itoa (r.userConfig.GetListenPort + i))) ∧
      (∀ H, IsHostPort r.nodeConfig.RPCListenAddress H →
        entry "RPC" = some (H ++ ":" ++ Itoa (r.userConfig.GetListenPort + 1000 + i))) ∧
      (∀ H, IsHostPort r.nodeConfig.GRPCListenAddress H →
        entry "GRPC" = some (H ++ ":" ++ Itoa (r.userConfig.GetListenPort + 2000 + i))) ∧
      (∀ H, IsHostPort r.nodeConfig.GRPCPrivilegedListenAddress H →
        entry "GRPCPriv" =
          some (H ++ ":" ++ Itoa (r.userConfig.GetListenPort + 3000 + i))) ∧
      (hasColonDigit r.nodeConfig.P2PListenAddress.data = false →
        entry "P2P" = some r.nodeConfig.P2PListenAddress) ∧
      (hasColonDigit r.nodeConfig.RPCListenAddress.data = false →
        entry "RPC" = some r.nodeConfig.RPCListenAddress) ∧
      (hasColonDigit r.nodeConfig.GRPCListenAddress.data = false →
        entry "GRPC" = some r.nodeConfig.GRPCListenAddress) ∧
      (hasColonDigit r.nodeConfig.GRPCPrivilegedListenAddress.data = false →
        entry "GRPCPriv" = some r.nodeConfig.GRPCPrivilegedListenAddress)) ∧
    (wrapInt64 (r.userConfig.GetListenPort + i) = r.userConfig.GetListenPort + i ∧
      wrapInt64 (wrapInt64 (r.userConfig.GetListenPort + 1000) + i) =
        r.userConfig.GetListenPort + 1000 + i ∧
      wrapInt64 (wrapInt64 (r.userConfig.GetListenPort + 2000) + i) =
        r.userConfig.GetListenPort + 2000 + i ∧
      wrapInt64 (wrapInt64 (r.userConfig.GetListenPort + 3000) + i) =
        r.userConfig.GetListenPort + 3000 + i) ∧
    (sampleReactor.userConfig.GetListenPort = 30001 ∧
      sampleReactor.replChains = ["addr:a", "addr:b", "addr:c"] ∧
      recordedAddress (sampleReactor.OnStart sampleReactorEnv) "addr:a" "P2P" =
        some "tcp://0.0.0.0:30001" ∧
      recordedAddress (sampleReactor.OnStart sampleReactorEnv) "addr:b" "P2P" =
        some "tcp://0.0.0.0:30002" ∧
      recordedAddress (sampleReactor.OnStart sampleReactorEnv) "addr:c" "P2P" =
        some "tcp://0.0.0.0:30003" ∧
      recordedAddress (sampleReactor.OnStart sampleReactorEnv) "addr:a" "RPC" =
        some "tcp://127.0.0.1:31001" ∧
      recordedAddress (sampleReactor.OnStart sampleReactorEnv) "addr:b" "RPC" =
        some "tcp://127.0.0.1:31002" ∧
      recordedAddress (sampleReactor.OnStart sampleReactorEnv) "addr:c" "RPC" =
        some "tcp://127.0.0.1:31003") := by
  refine ⟨?_, ?_, ?_⟩
  · obtain ⟨m, hm, -, -, hidx⟩ := onStart_ok_inv env r res hstart hok
    refine ⟨m, _, hm, hidx hnodup i hi, ?_, ?_, ?_, ?_, ?_, ?_, ?_, ?_, ?_, ?_, ?_, ?_⟩
    · simp [listenAddressesFor, newP2PPort]
    · simp [listenAddressesFor, newRPCPort]
    · simp [listenAddressesFor, newGRPCPort]
    · simp [listenAddressesFor, newGRPCPrivPort]
    · intro H hH
      simp [listenAddressesFor, newP2PPort, replaceAllString_host_port _ _ _ hH]
    · intro H hH
      simp [listenAddressesFor, newRPCPort, replaceAllString_host_port _ _ _ hH]
    · intro H hH
      simp [listenAddressesFor, newGRPCPort, replaceAllString_host_port _ _ _ hH]
    · intro H hH
      simp [listenAddressesFor, newGRPCPrivPort, replaceAllString_host_port _ _ _ hH]
    · intro hno
      simp [listenAddressesFor, replaceAllString_no_match _ _ hno]
    · intro hno
      simp [listenAddressesFor, replaceAllString_no_match _ _ hno]
    · intro hno
      simp [listenAddressesFor, replaceAllString_no_match _ _ hno]
    · intro hno
      simp [listenAddressesFor, replaceAllString_no_match _ _ hno]
  · exact ports_no_wrap _ i hb hs
  · decide

/-- Witness of C5, amended: the second of the three sample scopes. -/
theorem onStart_port_allocation_witness :
    ∃ m entry, sampleStarted.reactor.ListenAddresses = some m ∧
      m (sampleReactor.replChains.get ⟨1, by decide⟩) = some entry ∧
      entry "P2P" = some (ReplaceAllString sampleReactor.nodeConfig.P2PListenAddress
        (":" ++ Itoa (sampleReactor.userConfig.GetListenPort + (1 : Nat)))) ∧
      entry "RPC" = some (ReplaceAllString sampleReactor.nodeConfig.RPCListenAddress
        (":" ++ Itoa (sampleReactor.userConfig.GetListenPort + 1000 + (1 : Nat)))) ∧
      entry "GRPC" = some (ReplaceAllString sampleReactor.nodeConfig.GRPCListenAddress
        (":" ++ Itoa (sampleReactor.userConfig.GetListenPort + 2000 + (1 : Nat)))) ∧
      entry "GRPCPriv" =
        some (ReplaceAllString sampleReactor.nodeConfig.GRPCPrivilegedListenAddress
          (":" ++ Itoa (sampleReactor.userConfig.GetListenPort + 3000 + (1 : Nat)))) :=
  match (onStart_port_allocation sampleReactorEnv sampleReactor sampleStarted rfl (by decide)
    (by decide) 1 (by decide) (by decide) (by decide)).1 with
  | ⟨m, entry, h1, h2, h3, h4, h5, h6, _⟩ => ⟨m, entry, h1, h2, h3, h4, h5, h6⟩

/-- C6 fails as stated: the RPC port of the scope at index 0 is the P2P port of the scope
at index 1000, so the port sets of these two distinct scopes are not disjoint. -/
theorem scope_ports_collide_at_distance_1000 :
    (0 : Nat) ≠ 1000 ∧ newRPCPort 30001 0 = 31001 ∧ newP2PPort 30001 1000 = 31001 ∧
      ¬ List.Disjoint (scopePorts 30001 0) (scopePorts 30001 1000) := by
  refine ⟨by decide, by decide, by decide, ?_⟩
  intro hd
  exact hd (a := 31001) (by decide) (by decide)

/-- C6, amended: for every base and every two distinct scope indices `i ≠ j`, the sets of
four ports given to the two scopes are disjoint exactly when the indices are not 1000,
2000 or 3000 apart; in particular they are disjoint whenever both indices are below
1000. -/
theorem scope_ports_disjoint_iff (b : Int) (i j : Nat) (hij : i ≠ j) :
    (List.Disjoint (scopePorts b i) (scopePorts b j) ↔
      ¬ (i + 1000 = j ∨ i + 2000 = j ∨ i + 3000 = j ∨
          j + 1000 = i ∨ j + 2000 = i ∨ j + 3000 = i)) ∧
    (i < 1000 → j < 1000 → List.Disjoint (scopePorts b i) (scopePorts b j)) := by
  have key : List.Disjoint (scopePorts b i) (scopePorts b j) ↔
      ¬ (i + 1000 = j ∨ i + 2000 = j ∨ i + 3000 = j ∨
          j + 1000 = i ∨ j + 2000 = i ∨ j + 3000 = i) := by
    simp only [List.Disjoint, scopePorts, newP2PPort, newRPCPort, newGRPCPort,
      newGRPCPrivPort, List.mem_cons, List.mem_singleton, List.not_mem_nil, or_false]
    constructor
    · intro hd hcases
      rcases hcases with h | h | h | h | h | h
      · exact hd (a := b + 1000 + (i : Int)) (by simp) (by left; omega)
      · exact hd (a := b + 2000 + (i : Int)) (by simp) (by left; omega)
      · exact hd (a := b + 3000 + (i : Int)) (by simp) (by left; omega)
      · exact hd (a := b + (i : Int)) (by simp) (by right; left; omega)
      · exact hd (a := b + (i : Int)) (by simp) (by right; right; left; omega)
      · exact hd (a := b + (i : Int)) (by simp) (by right; right; right; omega)
    · intro hn a ha hb
      apply hn
      omega
  exact ⟨key, fun hi hj => key.mpr (by omega)⟩

/-- Witness of C6, amended: the scopes at indices 0 and 1 with base 30001. -/
theorem scope_ports_disjoint_iff_witness :
    (List.Disjoint (scopePorts 30001 0) (scopePorts 30001 1) ↔
      ¬ (0 + 1000 = 1 ∨ 0 + 2000 = 1 ∨ 0 + 3000 = 1 ∨
          1 + 1000 = 0 ∨ 1 + 2000 = 0 ∨ 1 + 3000 = 0)) ∧
    (0 < 1000 → 1 < 1000 → List.Disjoint (scopePorts 30001 0) (scopePorts 30001 1)) :=
  scope_ports_disjoint_iff 30001 0 1 (by decide)

/-- C7: for every base and every two distinct scope indices, the two P2P ports differ,
the two RPC ports differ, the two gRPC ports differ and the two privileged gRPC ports
differ. -/
theorem endpoint_ports_differ (b : Int) (i j : Nat) (hij : i ≠ j) :
    newP2PPort b i ≠ newP2PPort b j ∧ newRPCPort b i ≠ newRPCPort b j ∧
      newGRPCPort b i ≠ newGRPCPort b j ∧ newGRPCPrivPort b i ≠ newGRPCPrivPort b j := by
  simp only [newP2PPort, newRPCPort, newGRPCPort, newGRPCPrivPort]
  refine ⟨?_, ?_, ?_, ?_⟩ <;> omega

/-- Witness of C7: the scopes at indices 0 and 1000 with base 30001. -/
theorem endpoint_ports_differ_witness :
    newP2PPort 30001 0 ≠ newP2PPort 30001 1000 ∧ newRPCPort 30001 0 ≠ newRPCPort 30001 1000 ∧
      newGRPCPort 30001 0 ≠ newGRPCPort 30001 1000 ∧
      newGRPCPrivPort 30001 0 ≠ newGRPCPrivPort 30001 1000 :=
  endpoint_ports_differ 30001 0 1000 (by decide)

/-- C8 fails as stated: the rewrite works on every line. For the base address
`H ++ ":" ++ D` with `H` the line `tcp://0.0.0.0:26656`, a line break and `tcp://0.0.0.0`,
and `D = 26656`, the port of the first line is replaced as well, so the stored address is
not `H ++ ":" ++ P`. -/
theorem two_line_address_rewritten_twice :
    twoLineAddressReactor.nodeConfig.P2PListenAddress =
        "tcp://0.0.0.0:26656\ntcp://0.0.0.0" ++ ":" ++ "26656" ∧
      storedAddress (twoLineAddressReactor.updateNodeConfig "addr:a" 0) "addr:a" "P2P" =
        some "tcp://0.0.0.0:30001\ntcp://0.0.0.0:30001" ∧
      storedAddress (twoLineAddressReactor.updateNodeConfig "addr:a" 0) "addr:a" "P2P" ≠
        some ("tcp://0.0.0.0:26656\ntcp://0.0.0.0" ++ ":" ++
          Itoa (newP2PPort twoLineAddressReactor.userConfig.GetListenPort 0)) := by
  decide

/-- C8, amended: let the listen-port base and the index be such that the sums of the code
do not wrap (the base is a 64-bit integer and base + 3000 + index stays below `2^63`).
For each of the four endpoints on its own: if its base listen address has the form
`H ++ ":" ++ D` where `D` is a non-empty string of decimal digits and no `:` followed by a
digit occurs in `H` before a line break (in particular where `H` contains no line break),
then the address that `updateNodeConfig` stores for a scope is `H ++ ":" ++ P`, where `P`
is the decimal rendering of the newly assigned port, which is the 64-bit sum of the
code. -/
theorem updateNodeConfig_keeps_host (r : Reactor) (m : MultiplexServiceAddress)
    (scopeHash : String) (i : Nat)
    (hm : r.ListenAddresses = some m)
    (hb : -(2 ^ 63) ≤ r.userConfig.GetListenPort)
    (hs : r.userConfig.GetListenPort + 3000 + i < 2 ^ 63) :
    (∀ H, IsHostPort r.nodeConfig.P2PListenAddress H →
        storedAddress (r.updateNodeConfig scopeHash i) scopeHash "P2P" =
          some (H ++ ":" ++ Itoa (newP2PPort r.userConfig.GetListenPort i))) ∧
      (∀ H, IsHostPort r.nodeConfig.RPCListenAddress H →
        storedAddress (r.updateNodeConfig scopeHash i) scopeHash "RPC" =
          some (H ++ ":" ++ Itoa (newRPCPort r.userConfig.GetListenPort i))) ∧
      (∀ H, IsHostPort r.nodeConfig.GRPCListenAddress H →
        storedAddress (r.updateNodeConfig scopeHash i) scopeHash "GRPC" =
          some (H ++ ":" ++ Itoa (newGRPCPort r.userConfig.GetListenPort i))) ∧
      (∀ H, IsHostPort r.nodeConfig.GRPCPrivilegedListenAddress H →
        storedAddress (r.updateNodeConfig scopeHash i) scopeHash "GRPCPriv" =
          some (H ++ ":" ++ Itoa (newGRPCPrivPort r.userConfig.GetListenPort i))) ∧
      (wrapInt64 (r.userConfig.GetListenPort + i) = newP2PPort r.userConfig.GetListenPort i ∧
        wrapInt64 (wrapInt64 (r.userConfig.GetListenPort + 1000) + i) =
          newRPCPort r.userConfig.GetListenPort i ∧
        wrapInt64 (wrapInt64 (r.userConfig.GetListenPort + 2000) + i) =
          newGRPCPort r.userConfig.GetListenPort i ∧
        wrapInt64 (wrapInt64 (r.userConfig.GetListenPort + 3000) + i) =
          newGRPCPrivPort r.userConfig.GetListenPort i) := by
  obtain ⟨r1, hu, hm1, -, -, -⟩ := updateNodeConfig_ok r m scopeHash i hm
  rw [hu]
  simp only [storedAddress, hm1, Option.bind_some, if_true]
  refine ⟨?_, ?_, ?_, ?_, ports_no_wrap _ i hb hs⟩
  · intro H h1
    simp [listenAddressesFor, replaceAllString_host_port _ _ _ h1]
  · intro H h2
    simp [listenAddressesFor, replaceAllString_host_port _ _ _ h2]
  · intro H h3
    simp [listenAddressesFor, replaceAllString_host_port _ _ _ h3]
  · intro H h4
    simp [listenAddressesFor, replaceAllString_host_port _ _ _ h4]

theorem isHostPort_of_parts (H D : String) (hD : D.data ≠ [])
    (hdig : ∀ c, c ∈ D.data → isDigit c = true) (hH : ∀ c, c ∈ H.data → c ≠ '\n') :
    IsHostPort (H ++ ":" ++ D) H := by
  refine ⟨D, rfl, hD, hdig, ?_⟩
  intro A B hAB
  exact absurd rfl (hH '\n' (by rw [hAB]; simp))

/-- Witness of C8, amended: with an empty gRPC listen address the P2P and the RPC address
of the scope at index 2 are still rewritten. -/
theorem updateNodeConfig_keeps_host_witness :
    storedAddress (({ emptyGrpcReactor with ListenAddresses := some (fun _ => none) } :
          Reactor).updateNodeConfig "addr:c" 2) "addr:c" "P2P" =
        some ("tcp://0.0.0.0" ++ ":" ++ Itoa (newP2PPort 30001 2)) ∧
      storedAddress (({ emptyGrpcReactor with ListenAddresses := some (fun _ => none) } :
          Reactor).updateNodeConfig "addr:c" 2) "addr:c" "RPC" =
        some ("tcp://127.0.0.1" ++ ":" ++ Itoa (newRPCPort 30001 2)) ∧
      storedAddress (({ sampleReactor with ListenAddresses := some (fun _ => none) } :
          Reactor).updateNodeConfig "addr:c" 2) "addr:c" "GRPC" =
        some ("tcp://127.0.0.1" ++ ":" ++ Itoa (newGRPCPort 30001 2)) ∧
      storedAddress (({ sampleReactor with ListenAddresses := some (fun _ => none) } :
          Reactor).updateNodeConfig "addr:c" 2) "addr:c" "GRPCPriv" =
        some ("tcp://127.0.0.1" ++ ":" ++ Itoa (newGRPCPrivPort 30001 2)) :=
  ⟨(updateNodeConfig_keeps_host { emptyGrpcReactor with ListenAddresses := some (fun _ => none) }
      (fun _ => none) "addr:c" 2 rfl (by decide) (by decide)).1 "tcp://0.0.0.0"
      (isHostPort_of_parts "tcp://0.0.0.0" "26656" (by decide) (by decide) (by decide)),
    (updateNodeConfig_keeps_host { emptyGrpcReactor with ListenAddresses := some (fun _ => none) }
      (fun _ => none) "addr:c" 2 rfl (by decide) (by decide)).2.1 "tcp://127.0.0.1"
      (isHostPort_of_parts "tcp://127.0.0.1" "26657" (by decide) (by decide) (by decide)),
    (updateNodeConfig_keeps_host { sampleReactor with ListenAddresses := some (fun _ => none) }
      (fun _ => none) "addr:c" 2 rfl (by decide) (by decide)).2.2.1 "tcp://127.0.0.1"
      (isHostPort_of_parts "tcp://127.0.0.1" "26670" (by decide) (by decide) (by decide)),
    (updateNodeConfig_keeps_host { sampleReactor with ListenAddresses := some (fun _ => none) }
      (fun _ => none) "addr:c" 2 rfl (by decide) (by decide)).2.2.2.1 "tcp://127.0.0.1"
      (isHostPort_of_parts "tcp://127.0.0.1" "26671" (by decide) (by decide) (by decide))⟩

/-! ### Providers after `loadMultiplexState` -/

theorem multiplex_state_scope_hash (env : Env) (dbs : MultiplexDB)
    (p : Except String IChecksummedGenesisDoc) (op : String) (config : Config)
    (hok : (LoadMultiplexStateFromDBOrGenesisDocProviderWithConfig env dbs p op config).err
      = none) :
    ∀ k s, (LoadMultiplexStateFromDBOrGenesisDocProviderWithConfig env dbs p op
        config).multiplexState k = some s → s.ScopeHash = k := by
  obtain ⟨ics, st, hp, hl, hr⟩ := load_ok_inv env dbs p op config hok
  obtain ⟨-, hother, hloaded, -⟩ := loadScopes_ok env ics op config _ _ _ hl
  rw [hr]
  intro k s hs
  by_cases hk : k ∈ env.GetScopeHashes config.Replication config.UserScopes
  · obtain ⟨-, -, -, s1, -, -, -, -, -, -, hms⟩ := hloaded k hk
    simp only at hs
    rw [hms] at hs
    cases hs
    rfl
  · have := hother k hk
    simp only [initLoop, emptyMultiplexState] at this
    simp [this] at hs


theorem load_ok_scope (env : Env) (dbs : MultiplexDB)
    (p : Except String IChecksummedGenesisDoc) (op : String) (config : Config)
    (hok : (LoadMultiplexStateFromDBOrGenesisDocProviderWithConfig env dbs p op config).err
      = none) (h : String) (hh : h ∈ env.GetScopeHashes config.Replication config.UserScopes) :
    (∃ s, (LoadMultiplexStateFromDBOrGenesisDocProviderWithConfig env dbs p op
        config).multiplexState h = some s) ∧
      (∃ db, (LoadMultiplexStateFromDBOrGenesisDocProviderWithConfig env dbs p op
        config).dbs h = some db) := by
  obtain ⟨ics, st, -, hl, hr⟩ := load_ok_inv env dbs p op config hok
  obtain ⟨-, -, hloaded, -⟩ := loadScopes_ok env ics op config _ _ _ hl
  obtain ⟨d0, doc, dprev, s, -, -, -, -, -, hdb, hms⟩ := hloaded h hh
  rw [hr]
  exact ⟨⟨_, hms⟩, ⟨_, hdb⟩⟩

/-- C9 fails as stated. In singular replication mode `initDBs` leaves the indexer and the
evidence multiplex nil, so after a successful `loadMultiplexState` the database provider
panics for these two families on the scope of the reactor's list. In plural mode
`initMultiplexDBs` drops the error of `MultiplexDBProvider`: when the block store databases
cannot be opened, `loadMultiplexState` still succeeds and the block store provider and the
database provider for `blockstore` panic. -/
theorem providers_panic_after_successful_load :
    ((singularReactor.loadMultiplexState singularEnv).2 = none ∧
      "" ∈ singularReactor.replChains ∧
      succeeded ((singularReactor.loadMultiplexState singularEnv).1.callDatabasesProvider
        "indexer" "") = false ∧
      succeeded ((singularReactor.loadMultiplexState singularEnv).1.callDatabasesProvider
        "evidence" "") = false) ∧
    ((sampleReactor.loadMultiplexState failingBlockstoreEnv).2 = none ∧
      "addr:a" ∈ sampleReactor.replChains ∧
      succeeded (callProvider
        (sampleReactor.loadMultiplexState failingBlockstoreEnv).1.blockStoreProvider
        "addr:a") = false ∧
      succeeded ((sampleReactor.loadMultiplexState failingBlockstoreEnv).1.callDatabasesProvider
        "blockstore" "addr:a") = false) := by
  decide

/-- C9, amended: after `loadMultiplexState` succeeds, for every scope hash `h` of the
reactor's scope list, in singular and in plural replication mode, `statesProvider(h)`,
`stateStoreProvider(h)` and `databasesProvider("state", h)` return a value without
panicking, the state carrying the scope hash `h`; `blockStoreProvider(h)` and
`databasesProvider(f, h)` for the families `blockstore`, `indexer` and `evidence` return a
value exactly when the multiplex that `initDBs` returned for that family has an entry for
`h`; and in singular mode `databasesProvider` panics for `indexer` and `evidence`. -/
theorem providers_after_load (env : ReactorEnv) (r : Reactor)
    (hchains : r.replChains =
      env.GetScopeHashes r.nodeConfig.Replication r.nodeConfig.UserScopes)
    (hload : (r.loadMultiplexState env).2 = none) (h : String) (hh : h ∈ r.replChains) :
    (∃ s, callProvider (r.loadMultiplexState env).1.statesProvider h = .ok s ∧
        s.ScopeHash = h) ∧
      succeeded (callProvider (r.loadMultiplexState env).1.stateStoreProvider h) = true ∧
      succeeded ((r.loadMultiplexState env).1.callDatabasesProvider "state" h) = true ∧
      (succeeded (callProvider (r.loadMultiplexState env).1.blockStoreProvider h) = true ↔
        ((initDBs env r.nodeConfig r.dbBackendProvider).bsMultiplexDB h).isSome = true) ∧
      (succeeded ((r.loadMultiplexState env).1.callDatabasesProvider "blockstore" h) = true ↔
        ((initDBs env r.nodeConfig r.dbBackendProvider).bsMultiplexDB h).isSome = true) ∧
      (succeeded ((r.loadMultiplexState env).1.callDatabasesProvider "indexer" h) = true ↔
        ((initDBs env r.nodeConfig r.dbBackendProvider).indexerMultiplexDB h).isSome = true) ∧
      (succeeded ((r.loadMultiplexState env).1.callDatabasesProvider "evidence" h) = true ↔
        ((initDBs env r.nodeConfig r.dbBackendProvider).evidenceMultiplexDB h).isSome = true) ∧
      (r.nodeConfig.Replication ≠ PluralReplicationMode →
        succeeded ((r.loadMultiplexState env).1.callDatabasesProvider "indexer" h) = false ∧
        succeeded ((r.loadMultiplexState env).1.callDatabasesProvider "evidence" h) = false) := by
  unfold Reactor.loadMultiplexState at hload ⊢
  simp only at hload ⊢
  cases hinit : (initDBs env r.nodeConfig r.dbBackendProvider).err with
  | some e => simp [hinit] at hload
  | none =>
    simp only [hinit] at hload ⊢
    cases hres : (LoadMultiplexStateFromDBOrGenesisDocProviderWithConfig env.toEnv
        (initDBs env r.nodeConfig r.dbBackendProvider).stateMultiplexDB
        (.ok r.icsGenesisProvider) "" r.nodeConfig).err with
    | some e => simp [hres] at hload
    | none =>
      simp only [hres]
      rw [hchains] at hh
      obtain ⟨⟨s, hs⟩, ⟨db, hdb⟩⟩ := load_ok_scope env.toEnv _ _ _ _ hres h hh
      have hkey := (multiplex_state_scope_hash env.toEnv _ _ _ _ hres) h s hs
      refine ⟨⟨s, ?_, hkey⟩, ?_, ?_, ?_, ?_, ?_, ?_, ?_⟩
      · simp [Reactor.SetStoresProviders, Reactor.SetStatesProviders, callProvider,
          GetScopedState, hs]
      · simp [Reactor.SetStoresProviders, callProvider, GetScopedStateStore,
          NewMultiplexStateStore, hdb, succeeded]
      · simp [Reactor.SetStoresProviders, Reactor.SetStatesProviders,
          Reactor.SetDatabasesProviders, Reactor.callDatabasesProvider, multiplexByTable,
          GetScopedDB, hdb, succeeded]
      · cases hb : (initDBs env r.nodeConfig r.dbBackendProvider).bsMultiplexDB h <;>
          simp [Reactor.SetStoresProviders, callProvider, GetScopedBlockStore,
            NewMultiplexBlockStore, hb, succeeded]
      · cases hb : (initDBs env r.nodeConfig r.dbBackendProvider).bsMultiplexDB h <;>
          simp [Reactor.SetStoresProviders, Reactor.SetStatesProviders,
            Reactor.SetDatabasesProviders, Reactor.callDatabasesProvider, multiplexByTable,
            GetScopedDB, hb, succeeded]
      · cases hb : (initDBs env r.nodeConfig r.dbBackendProvider).indexerMultiplexDB h <;>
          simp [Reactor.SetStoresProviders, Reactor.SetStatesProviders,
            Reactor.SetDatabasesProviders, Reactor.callDatabasesProvider, multiplexByTable,
            GetScopedDB, hb, succeeded]
      · cases hb : (initDBs env r.nodeConfig r.dbBackendProvider).evidenceMultiplexDB h <;>
          simp [Reactor.SetStoresProviders, Reactor.SetStatesProviders,
            Reactor.SetDatabasesProviders, Reactor.callDatabasesProvider, multiplexByTable,
            GetScopedDB, hb, succeeded]
      · intro hsing
        have hix : (initDBs env r.nodeConfig r.dbBackendProvider).indexerMultiplexDB h = none ∧
            (initDBs env r.nodeConfig r.dbBackendProvider).evidenceMultiplexDB h = none := by
          unfold initDBs
          rw [if_neg hsing]
          split
          · exact ⟨rfl, rfl⟩
          · split <;> exact ⟨rfl, rfl⟩
        simp [Reactor.SetStoresProviders, Reactor.SetStatesProviders,
          Reactor.SetDatabasesProviders, Reactor.callDatabasesProvider, multiplexByTable,
          GetScopedDB, hix.1, hix.2, succeeded]

/-- Witness of C9, amended: the first sample scope in plural mode. -/
theorem providers_after_load_witness :
    (∃ s, callProvider (sampleReactor.loadMultiplexState sampleReactorEnv).1.statesProvider
          "addr:a" = .ok s ∧ s.ScopeHash = "addr:a") ∧
      succeeded (callProvider
        (sampleReactor.loadMultiplexState sampleReactorEnv).1.stateStoreProvider "addr:a")
        = true ∧
      succeeded ((sampleReactor.loadMultiplexState sampleReactorEnv).1.callDatabasesProvider
        "state" "addr:a") = true :=
  have hw := providers_after_load sampleReactorEnv sampleReactor rfl (by decide) "addr:a"
    (by decide)
  ⟨hw.1, hw.2.1, hw.2.2.1⟩

/-! ### Loading with the state store of the spec -/

theorem specStore_result (db : ScopedDB) (layout : String) (doc : GenesisDoc)
    (hstate : db.state = none ∨ db.state = some (MakeGenesisState doc)) :
    ∃ db2, LoadFromDBOrGenesisDoc db layout doc = (db2, .ok (MakeGenesisState doc)) ∧
      db2.state = some (MakeGenesisState doc) ∧ db2.data = db.data ∧
      db2.getErr = db.getErr ∧ db2.setErr = db.setErr := by
  rcases hstate with h | h
  · exact ⟨{ db with state := some (MakeGenesisState doc) },
      by simp [LoadFromDBOrGenesisDoc, h], rfl, rfl, rfl, rfl⟩
  · exact ⟨db, by simp [LoadFromDBOrGenesisDoc, h], h, rfl, rfl, rfl⟩

theorem specStore_keeps_genesis_hash (env : Env)
    (hstore : env.LoadFromDBOrGenesisDoc = LoadFromDBOrGenesisDoc) :
    StoreKeepsGenesisHash env := by
  intro db layout doc
  rw [hstore]
  unfold LoadFromDBOrGenesisDoc
  cases db.state <;> rfl

theorem loadScopeState_specStore (env : Env) (config : Config) (st : LoadLoop) (h : String)
    (doc : GenesisDoc) (db : ScopedDB) (hash : Bytes)
    (hstore : env.LoadFromDBOrGenesisDoc = LoadFromDBOrGenesisDoc)
    (hstate : db.state = none ∨ db.state = some (MakeGenesisState doc)) :
    ∃ st1 db2, loadScopeState env config st h doc db hash = (st1, none) ∧
      st1.dbs = setDB st.dbs h db2 ∧
      db2.state = some (MakeGenesisState doc) ∧ db2.data = db.data ∧
      db2.getErr = db.getErr ∧ db2.setErr = db.setErr ∧
      st1.multiplexState =
        setState st.multiplexState h { ScopeHash := h, State := MakeGenesisState doc } ∧
      st1.genDocSetHashes = st.genDocSetHashes ++ [hash] ∧
      st1.trace = st.trace ++ [DBOp.load h] := by
  obtain ⟨db2, hl, hs, hd, hg, he⟩ :=
    specStore_result db config.StorageExperimentalKeyLayout doc hstate
  have hval : loadScopeState env config st h doc db hash =
      ({ dbs := setDB st.dbs h db2,
         trace := st.trace ++ [DBOp.load h],
         multiplexState :=
           setState st.multiplexState h { ScopeHash := h, State := MakeGenesisState doc },
         genDocSetHashes := st.genDocSetHashes ++ [hash] }, none) := by
    simp only [loadScopeState, hstore, hl]
  exact ⟨_, db2, hval, rfl, hs, hd, hg, he, rfl, rfl, rfl⟩

theorem loadScope_loadable (env : Env) (ics : IChecksummedGenesisDoc) (op : String)
    (config : Config) (st : LoadLoop) (h : String)
    (hstore : env.LoadFromDBOrGenesisDoc = LoadFromDBOrGenesisDoc)
    (hop : checkOperatorGenesisHash ics op = none)
    (d0 doc : GenesisDoc) (db : ScopedDB)
    (h1 : ics.GenesisDocByScope h = .ok d0) (h2 : env.ValidateAndComplete d0 = .ok doc)
    (hdb : st.dbs h = some db) (hslot : SlotUsable ics.GetChecksum db)
    (hstate : db.state = none ∨ db.state = some (MakeGenesisState doc)) :
    ∃ st1 db1, loadScope env ics op config st h = (st1, none) ∧
      st1.dbs = setDB st.dbs h db1 ∧ SlotUsable ics.GetChecksum db1 ∧
      db1.Get genesisDocHashKey = .ok ics.GetChecksum ∧
      db1.state = some (MakeGenesisState doc) ∧
      st1.multiplexState =
        setState st.multiplexState h { ScopeHash := h, State := MakeGenesisState doc } ∧
      st1.genDocSetHashes.length = st.genDocSetHashes.length + 1 := by
  obtain ⟨hge, hse, hval⟩ := hslot
  apply loadScope_cases (fun r => ∃ st1 db1, r = (st1, none) ∧
      st1.dbs = setDB st.dbs h db1 ∧ SlotUsable ics.GetChecksum db1 ∧
      db1.Get genesisDocHashKey = .ok ics.GetChecksum ∧
      db1.state = some (MakeGenesisState doc) ∧
      st1.multiplexState =
        setState st.multiplexState h { ScopeHash := h, State := MakeGenesisState doc } ∧
      st1.genDocSetHashes.length = st.genDocSetHashes.length + 1)
  · intro e hcase
    rcases hcase with ⟨e0, he0⟩ | ⟨d, e0, hd, he0⟩ | hnone
    · rw [h1] at he0; cases he0
    · rw [h1] at hd; cases hd; rw [h2] at he0; cases he0
    · rw [hdb] at hnone; cases hnone
  · intro db' e h3 h4
    rw [hdb] at h3; cases h3
    rw [hge] at h4; cases h4
  · intro db' v e h3 hg hcase
    rw [hdb] at h3; cases h3
    have hv := (get_ok_getErr _ _ _ hg).2
    rcases hcase with hc | ⟨-, hlen, hne⟩
    · rw [hop] at hc; cases hc
    · rcases hval with h0 | h0
      · rw [h0] at hv; subst hv; exact absurd rfl hlen
      · rw [h0] at hv; exact absurd hv.symm hne
  · intro db' v db1 e h3 _ _ _ h7
    rw [hdb] at h3; cases h3
    simp [ScopedDB.SetSync, hse] at h7
  · intro db' v db1 d0' doc' h3 hg h1' h2' _ h6 h7
    rw [hdb] at h3; cases h3
    rw [h1] at h1'; cases h1'
    rw [h2] at h2'; cases h2'
    have hdb1 : db1 = { db with data := fun k =>
        if k = genesisDocHashKey then some ics.GetChecksum else db.data k } := by
      simp only [ScopedDB.SetSync, hse, Prod.mk.injEq, and_true] at h7
      exact h7.symm
    have hstate1 : db1.state = none ∨ db1.state = some (MakeGenesisState doc) := by
      rw [hdb1]; exact hstate
    obtain ⟨st1, db2, hr, hd, hs2, hdat, hg2, he2, hms, hh, -⟩ :=
      loadScopeState_specStore env config
        { st with
            dbs := setDB st.dbs h db1,
            trace := st.trace ++ [DBOp.get h genesisDocHashKey v] ++
              [DBOp.setSync h genesisDocHashKey ics.GetChecksum] }
        h doc db1 ics.GetChecksum hstore hstate1
    have hdata2 : db2.data genesisDocHashKey = some ics.GetChecksum := by
      rw [hdat, hdb1]; simp
    have hget2 : db2.getErr genesisDocHashKey = none := by rw [hg2, hdb1]; exact hge
    refine ⟨st1, db2, hr, ?_, ⟨hget2, ?_, Or.inr (by rw [hdata2]; rfl)⟩, ?_, hs2, hms, ?_⟩
    · rw [hd]; funext k; by_cases hk : k = h <;> simp [setDB, hk]
    · rw [he2, hdb1]; exact hse
    · simp [ScopedDB.Get, hget2, hdata2]
    · simp [hh]
  · intro db' v d0' doc' h3 hg h1' h2' _ h6 h8
    rw [hdb] at h3; cases h3
    rw [h1] at h1'; cases h1'
    rw [h2] at h2'; cases h2'
    obtain ⟨hge', hv⟩ := get_ok_getErr _ _ _ hg
    obtain ⟨st1, db2, hr, hd, hs2, hdat, hg2, he2, hms, hh, -⟩ :=
      loadScopeState_specStore env config
        { st with trace := st.trace ++ [DBOp.get h genesisDocHashKey v] }
        h doc db v hstore hstate
    have hget2 : db2.getErr genesisDocHashKey = none := by rw [hg2]; exact hge
    have hdata2 : (db2.data genesisDocHashKey).getD [] = ics.GetChecksum := by
      rw [hdat, hv, h8]
    refine ⟨st1, db2, hr, hd, ⟨hget2, by rw [he2]; exact hse, Or.inr hdata2⟩, ?_, hs2, hms, ?_⟩
    · simp [ScopedDB.Get, hget2, hdata2]
    · simp [hh]

theorem loadScopes_loadable (env : Env) (ics : IChecksummedGenesisDoc) (op : String)
    (config : Config) (hstore : env.LoadFromDBOrGenesisDoc = LoadFromDBOrGenesisDoc)
    (hop : checkOperatorGenesisHash ics op = none) (l : List String) :
    ∀ st, (∀ h, h ∈ l → ScopeLoadable env ics st.dbs h) →
      ∃ st1, loadScopes env ics op config l st = (st1, none) ∧
        (∀ h, h ∈ l → ∀ d0 doc, ics.GenesisDocByScope h = .ok d0 →
          env.ValidateAndComplete d0 = .ok doc →
          st1.multiplexState h = some { ScopeHash := h, State := MakeGenesisState doc } ∧
          ∃ db, st1.dbs h = some db ∧ SlotUsable ics.GetChecksum db ∧
            db.Get genesisDocHashKey = .ok ics.GetChecksum ∧
            db.state = some (MakeGenesisState doc)) ∧
        (∀ k, k ∉ l → st1.multiplexState k = st.multiplexState k ∧ st1.dbs k = st.dbs k) ∧
        st1.genDocSetHashes.length = st.genDocSetHashes.length + l.length := by
  induction l with
  | nil => intro st _; exact ⟨st, rfl, by simp, by simp, by simp⟩
  | cons x rest ih =>
    intro st hall
    obtain ⟨d0, doc, db, h1, h2, hdb, hslot, hstate⟩ := hall x (List.mem_cons_self _ _)
    obtain ⟨st2, db1, hx, hd2, hslot1, hget1, hstate1, hms2, hn2⟩ :=
      loadScope_loadable env ics op config st x hstore hop d0 doc db h1 h2 hdb hslot hstate
    have hall2 : ∀ h, h ∈ rest → ScopeLoadable env ics st2.dbs h := by
      intro h hh
      by_cases hhx : h = x
      · subst hhx
        exact ⟨d0, doc, db1, h1, h2, by rw [hd2]; simp [setDB], hslot1, Or.inr hstate1⟩
      · obtain ⟨d0', doc', db', h1', h2', hdb', hs', hst'⟩ := hall h (List.mem_cons_of_mem _ hh)
        exact ⟨d0', doc', db', h1', h2', by rw [hd2]; simpa [setDB, hhx] using hdb', hs', hst'⟩
    obtain ⟨st1, hr, hin, hout, hn1⟩ := ih st2 hall2
    refine ⟨st1, ?_, ?_, ?_, ?_⟩
    · simp only [loadScopes, hx]; exact hr
    · intro h hh d0' doc' h1' h2'
      by_cases hrest : h ∈ rest
      · exact hin h hrest d0' doc' h1' h2'
      · have hhx : h = x := by
          rcases List.mem_cons.mp hh with h0 | h0
          · exact h0
          · exact absurd h0 hrest
        subst hhx
        rw [h1] at h1'; cases h1'
        rw [h2] at h2'; cases h2'
        obtain ⟨hm, hd⟩ := hout h hrest
        refine ⟨?_, db1, ?_, hslot1, hget1, hstate1⟩
        · rw [hm, hms2]; simp [setState]
        · rw [hd, hd2]; simp [setDB]
    · intro k hk
      simp only [List.mem_cons, not_or] at hk
      obtain ⟨hm, hd⟩ := hout k hk.2
      exact ⟨by rw [hm, hms2]; simp [setState, hk.1], by rw [hd, hd2]; simp [setDB, hk.1]⟩
    · rw [hn1, hn2]; simp [Nat.add_assoc, Nat.add_comm]

theorem scopeLoadable_of_fresh (env : Env) (ics : IChecksummedGenesisDoc) (dbs : MultiplexDB)
    (h : String) (d0 doc : GenesisDoc) (db : ScopedDB)
    (h1 : ics.GenesisDocByScope h = .ok d0) (h2 : env.ValidateAndComplete d0 = .ok doc)
    (hdb : dbs h = some db) (hfresh : IsFreshDB db) :
    ScopeLoadable env ics dbs h := by
  obtain ⟨hdata, hstate, hget, hset⟩ := hfresh
  exact ⟨d0, doc, db, h1, h2, hdb, ⟨hget _, hset _ _, Or.inl (by simp [hdata])⟩, Or.inl hstate⟩

/-- C11: loading is idempotent. With the state store of the spec (return the persisted
state when there is one, else initialise it from the genesis doc and persist it), a
genesis set that has a valid doc for every configured scope, and a fresh database for
every configured scope, the loader succeeds, a second call on the databases it leaves and
the same genesis set succeeds too, and both calls return the same `MultiplexState`: its
keys are the configured scope hashes, and the entry of a scope is the state initialised
from that scope's genesis doc, so chain id, validators and last block height agree. -/
theorem load_twice_same_state (env : Env) (stateMultiplexDB : MultiplexDB)
    (ics : IChecksummedGenesisDoc) (operatorGenesisHashHex : String) (config : Config)
    (hstore : env.LoadFromDBOrGenesisDoc = LoadFromDBOrGenesisDoc)
    (hop : checkOperatorGenesisHash ics operatorGenesisHashHex = none)
    (hscopes : ∀ h, h ∈ env.GetScopeHashes config.Replication config.UserScopes →
      ∃ d0 doc db, ics.GenesisDocByScope h = .ok d0 ∧ env.ValidateAndComplete d0 = .ok doc ∧
        stateMultiplexDB h = some db ∧ IsFreshDB db) :
    (LoadMultiplexStateFromDBOrGenesisDocProviderWithConfig env stateMultiplexDB (.ok ics)
        operatorGenesisHashHex config).err = none ∧
      (LoadMultiplexStateFromDBOrGenesisDocProviderWithConfig env
        (LoadMultiplexStateFromDBOrGenesisDocProviderWithConfig env stateMultiplexDB (.ok ics)
          operatorGenesisHashHex config).dbs
        (.ok ics) operatorGenesisHashHex config).err = none ∧
      (LoadMultiplexStateFromDBOrGenesisDocProviderWithConfig env
        (LoadMultiplexStateFromDBOrGenesisDocProviderWithConfig env stateMultiplexDB (.ok ics)
          operatorGenesisHashHex config).dbs
        (.ok ics) operatorGenesisHashHex config).multiplexState =
      (LoadMultiplexStateFromDBOrGenesisDocProviderWithConfig env stateMultiplexDB (.ok ics)
        operatorGenesisHashHex config).multiplexState ∧
      (∀ k, ((LoadMultiplexStateFromDBOrGenesisDocProviderWithConfig env stateMultiplexDB
          (.ok ics) operatorGenesisHashHex config).multiplexState k).isSome = true ↔
        k ∈ env.GetScopeHashes config.Replication config.UserScopes) ∧
      (∀ k d0 doc, k ∈ env.GetScopeHashes config.Replication config.UserScopes →
        ics.GenesisDocByScope k = .ok d0 → env.ValidateAndComplete d0 = .ok doc →
        (LoadMultiplexStateFromDBOrGenesisDocProviderWithConfig env stateMultiplexDB
          (.ok ics) operatorGenesisHashHex config).multiplexState k =
          some { ScopeHash := k,
                 State := { ChainID := doc.ChainID, LastBlockHeight := 0,
                            Validators := doc.Validators } }) := by
  obtain ⟨st1, hl1, hin1, hout1, hn1⟩ :=
    loadScopes_loadable env ics operatorGenesisHashHex config hstore hop
      (env.GetScopeHashes config.Replication config.UserScopes) (initLoop stateMultiplexDB)
      (by
        intro h hh
        obtain ⟨d0, doc, db, h1, h2, hdb, hfresh⟩ := hscopes h hh
        exact scopeLoadable_of_fresh env ics _ h d0 doc db h1 h2 hdb hfresh)
  have hfin1 := load_of_loop_ok env stateMultiplexDB ics operatorGenesisHashHex config st1 hl1
    (by simpa [initLoop] using hn1)
  obtain ⟨st2, hl2, hin2, hout2, hn2⟩ :=
    loadScopes_loadable env ics operatorGenesisHashHex config hstore hop
      (env.GetScopeHashes config.Replication config.UserScopes) (initLoop st1.dbs)
      (by
        intro h hh
        obtain ⟨d0, doc, db, h1, h2, -, -⟩ := hscopes h hh
        obtain ⟨-, db1, hdb1, hslot1, -, hstate1⟩ := hin1 h hh d0 doc h1 h2
        exact ⟨d0, doc, db1, h1, h2, hdb1, hslot1, Or.inr hstate1⟩)
  have hfin2 := load_of_loop_ok env st1.dbs ics operatorGenesisHashHex config st2 hl2
    (by simpa [initLoop] using hn2)
  have hms1 : ∀ k d0 doc, k ∈ env.GetScopeHashes config.Replication config.UserScopes →
      ics.GenesisDocByScope k = .ok d0 → env.ValidateAndComplete d0 = .ok doc →
      st1.multiplexState k = some { ScopeHash := k, State := MakeGenesisState doc } :=
    fun k d0 doc hk h1 h2 => (hin1 k hk d0 doc h1 h2).1
  have hdbs1 : (LoadMultiplexStateFromDBOrGenesisDocProviderWithConfig env stateMultiplexDB
      (.ok ics) operatorGenesisHashHex config).dbs = st1.dbs := by rw [hfin1]
  have hstate1 : (LoadMultiplexStateFromDBOrGenesisDocProviderWithConfig env stateMultiplexDB
      (.ok ics) operatorGenesisHashHex config).multiplexState = st1.multiplexState := by
    rw [hfin1]
  rw [hdbs1, hstate1]
  refine ⟨by rw [hfin1], by rw [hfin2], ?_, ?_, ?_⟩
  · rw [hfin2]
    funext k
    by_cases hk : k ∈ env.GetScopeHashes config.Replication config.UserScopes
    · obtain ⟨d0, doc, db, h1, h2, -, -⟩ := hscopes k hk
      show st2.multiplexState k = st1.multiplexState k
      rw [(hin2 k hk d0 doc h1 h2).1, hms1 k d0 doc hk h1 h2]
    · show st2.multiplexState k = st1.multiplexState k
      rw [(hout2 k hk).1, (hout1 k hk).1]
      rfl
  · intro k
    constructor
    · intro hsome
      by_contra hk
      have := (hout1 k hk).1
      simp only [initLoop, emptyMultiplexState] at this
      simp [this] at hsome
    · intro hk
      obtain ⟨d0, doc, db, h1, h2, -, -⟩ := hscopes k hk
      simp [hms1 k d0 doc hk h1 h2]
  · intro k d0 doc hk h1 h2
    exact hms1 k d0 doc hk h1 h2

theorem emptyDB_fresh : IsFreshDB emptyDB :=
  ⟨fun _ => rfl, rfl, fun _ => rfl, fun _ _ => rfl⟩

theorem specEnv_sample_scopes :
    ∀ h, h ∈ specEnv.GetScopeHashes sampleConfig.Replication sampleConfig.UserScopes →
      ∃ d0 doc db, sampleGenesis.GenesisDocByScope h = .ok d0 ∧
        specEnv.ValidateAndComplete d0 = .ok doc ∧ sampleDBs h = some db ∧ IsFreshDB db := by
  intro h hh
  have hcases : h = "addr:a" ∨ h = "addr:b" ∨ h = "addr:c" := by
    simpa [specEnv, sampleEnv, sampleConfig] using hh
  rcases hcases with rfl | rfl | rfl
  · exact ⟨{ ChainID := "chain-addr:a", InitialHeight := 1, Validators := ["val"] }, _,
      emptyDB, rfl, rfl, rfl, emptyDB_fresh⟩
  · exact ⟨{ ChainID := "chain-addr:b", InitialHeight := 1, Validators := ["val"] }, _,
      emptyDB, rfl, rfl, rfl, emptyDB_fresh⟩
  · exact ⟨{ ChainID := "chain-addr:c", InitialHeight := 1, Validators := ["val"] }, _,
      emptyDB, rfl, rfl, rfl, emptyDB_fresh⟩

/-- Witness of C11: the three sample scopes loaded twice from fresh databases. -/
theorem load_twice_same_state_witness :
    (LoadMultiplexStateFromDBOrGenesisDocProviderWithConfig specEnv sampleDBs
        (.ok sampleGenesis) "" sampleConfig).err = none ∧
      (LoadMultiplexStateFromDBOrGenesisDocProviderWithConfig specEnv
        (LoadMultiplexStateFromDBOrGenesisDocProviderWithConfig specEnv sampleDBs
          (.ok sampleGenesis) "" sampleConfig).dbs
        (.ok sampleGenesis) "" sampleConfig).err = none ∧
      (LoadMultiplexStateFromDBOrGenesisDocProviderWithConfig specEnv
        (LoadMultiplexStateFromDBOrGenesisDocProviderWithConfig specEnv sampleDBs
          (.ok sampleGenesis) "" sampleConfig).dbs
        (.ok sampleGenesis) "" sampleConfig).multiplexState =
      (LoadMultiplexStateFromDBOrGenesisDocProviderWithConfig specEnv sampleDBs
        (.ok sampleGenesis) "" sampleConfig).multiplexState :=
  have hw := load_twice_same_state specEnv sampleDBs sampleGenesis "" sampleConfig rfl rfl
    specEnv_sample_scopes
  ⟨hw.1, hw.2.1, hw.2.2.1⟩

/-! ### A load that fails -/

theorem loadScopes_append (env : Env) (ics : IChecksummedGenesisDoc) (op : String)
    (config : Config) (l1 l2 : List String) :
    ∀ st, loadScopes env ics op config (l1 ++ l2) st =
      match loadScopes env ics op config l1 st with
      | (st1, some e) => (st1, some e)
      | (st1, none) => loadScopes env ics op config l2 st1 := by
  induction l1 with
  | nil => intro st; rfl
  | cons x rest ih =>
    intro st
    rcases hx : loadScope env ics op config st x with ⟨st2, _ | e⟩
    · simp only [List.cons_append, loadScopes, hx]
      exact ih st2
    · simp only [List.cons_append, loadScopes, hx]

theorem loadScopes_dbs_other (env : Env) (ics : IChecksummedGenesisDoc) (op : String)
    (config : Config) (k : String) (l : List String) :
    ∀ st, k ∉ l → (loadScopes env ics op config l st).1.dbs k = st.dbs k := by
  induction l with
  | nil => intro st _; rfl
  | cons x rest ih =>
    intro st hk
    simp only [List.mem_cons, not_or] at hk
    have hstep := loadScope_dbs_other env ics op config st x k hk.1
    rcases hx : loadScope env ics op config st x with ⟨st2, _ | e⟩
    · simp only [loadScopes, hx]
      rw [hx] at hstep
      rw [ih st2 hk.2]
      exact hstep
    · simp only [loadScopes, hx]
      rw [hx] at hstep
      exact hstep

theorem loadScopes_trace_scope (env : Env) (ics : IChecksummedGenesisDoc) (op : String)
    (config : Config) (l : List String) :
    ∀ st, ∃ chunk, (loadScopes env ics op config l st).1.trace = st.trace ++ chunk ∧
      ∀ o, o ∈ chunk → o.scope ∈ l := by
  induction l with
  | nil => intro st; exact ⟨[], by simp [loadScopes], by simp⟩
  | cons x rest ih =>
    intro st
    obtain ⟨c1, hc1, hs1⟩ := loadScope_trace_scope env ics op config st x
    rcases hx : loadScope env ics op config st x with ⟨st2, _ | e⟩
    · rw [hx] at hc1
      obtain ⟨c2, hc2, hs2⟩ := ih st2
      refine ⟨c1 ++ c2, ?_, ?_⟩
      · simp only [loadScopes, hx]
        rw [hc2, hc1, List.append_assoc]
      · intro o ho
        rcases List.mem_append.mp ho with h1 | h1
        · rw [hs1 o h1]; exact List.mem_cons_self _ _
        · exact List.mem_cons_of_mem _ (hs2 o h1)
    · rw [hx] at hc1
      refine ⟨c1, ?_, ?_⟩
      · simp only [loadScopes, hx]
        exact hc1
      · intro o ho
        rw [hs1 o ho]; exact List.mem_cons_self _ _

theorem setSync_failed_same (db db1 : ScopedDB) (key : String) (v : Bytes) (e : String)
    (hs : db.SetSync key v = (db1, some e)) : db1 = db := by
  unfold ScopedDB.SetSync at hs
  cases hse : db.setErr key v with
  | some e0 =>
    simp only [hse, Prod.mk.injEq] at hs
    exact hs.1.symm
  | none => simp [hse] at hs

theorem loadScope_keeps_checksum (env : Env) (ics : IChecksummedGenesisDoc) (op : String)
    (config : Config) (hframe : StoreKeepsGenesisHash env) (st : LoadLoop) (x h : String)
    (hcs : ∃ db, st.dbs h = some db ∧ db.Get genesisDocHashKey = .ok ics.GetChecksum) :
    ∃ db, (loadScope env ics op config st x).1.dbs h = some db ∧
      db.Get genesisDocHashKey = .ok ics.GetChecksum := by
  by_cases hx : h = x
  · subst hx
    obtain ⟨db0, hdb0, hget0⟩ := hcs
    apply loadScope_cases (fun r => ∃ db, r.1.dbs h = some db ∧
      db.Get genesisDocHashKey = .ok ics.GetChecksum)
    · intros; exact ⟨db0, hdb0, hget0⟩
    · intros; exact ⟨db0, hdb0, hget0⟩
    · intros; exact ⟨db0, hdb0, hget0⟩
    · intro db v db1 e h3 _ _ _ h7
      rw [hdb0] at h3; cases h3
      have := setSync_failed_same _ _ _ _ _ h7
      subst this
      exact ⟨db1, by simp [setDB], hget0⟩
    · intro db v db1 d0 doc h3 hg _ _ _ _ h7
      rw [loadScopeState_dbs_self]
      refine ⟨_, rfl, ?_⟩
      rw [hframe]
      exact setSync_ok_get _ _ _ _ (get_ok_getErr _ _ _ hg).1 h7
    · intro db v d0 doc h3 hg _ _ _ _ h8
      rw [loadScopeState_dbs_self]
      refine ⟨_, rfl, ?_⟩
      rw [hframe, hg, h8]
  · rw [loadScope_dbs_other env ics op config st x h hx]
    exact hcs

theorem loadScope_bad_doc (env : Env) (ics : IChecksummedGenesisDoc) (op : String)
    (config : Config) (st : LoadLoop) (h : String)
    (hbad : (∃ e, ics.GenesisDocByScope h = .error e) ∨
      (∃ d0 e, ics.GenesisDocByScope h = .ok d0 ∧ env.ValidateAndComplete d0 = .error e)) :
    ∃ e, loadScope env ics op config st h = (st, some e) := by
  rcases hbad with ⟨e, he⟩ | ⟨d0, e, hd, he⟩
  · exact ⟨"error retrieving genesis doc for scope hash " ++ h ++ ": " ++ e,
      by simp only [loadScope, he]⟩
  · exact ⟨"error in genesis doc for scope hash " ++ h ++ ": " ++ e,
      by simp only [loadScope, hd, he]⟩

theorem loadScopes_bad_doc (env : Env) (ics : IChecksummedGenesisDoc) (op : String)
    (config : Config) (h : String)
    (hbad : (∃ e, ics.GenesisDocByScope h = .error e) ∨
      (∃ d0 e, ics.GenesisDocByScope h = .ok d0 ∧ env.ValidateAndComplete d0 = .error e))
    (l : List String) :
    ∀ st, (∀ o, o ∈ st.trace → o.scope ≠ h) →
      (h ∈ l → (loadScopes env ics op config l st).2 ≠ none) ∧
      (∀ o, o ∈ (loadScopes env ics op config l st).1.trace → o.scope ≠ h) ∧
      (loadScopes env ics op config l st).1.dbs h = st.dbs h := by
  induction l with
  | nil => intro st ht; exact ⟨fun hh => absurd hh (List.not_mem_nil _), ht, rfl⟩
  | cons x rest ih =>
    intro st ht
    by_cases hx : x = h
    · subst hx
      obtain ⟨e, he⟩ := loadScope_bad_doc env ics op config st x hbad
      have hval : loadScopes env ics op config (x :: rest) st = (st, some e) := by
        simp only [loadScopes, he]
      rw [hval]
      exact ⟨fun _ => by simp, ht, rfl⟩
    · obtain ⟨chunk, hc, hs⟩ := loadScope_trace_scope env ics op config st x
      have hd := loadScope_dbs_other env ics op config st x h (fun h0 => hx h0.symm)
      have ht2 : ∀ o, o ∈ (loadScope env ics op config st x).1.trace → o.scope ≠ h := by
        intro o ho
        rw [hc] at ho
        rcases List.mem_append.mp ho with h1 | h1
        · exact ht o h1
        · rw [hs o h1]; exact hx
      rcases hstep : loadScope env ics op config st x with ⟨st2, _ | e⟩
      · rw [hstep] at hd ht2
        simp only [loadScopes, hstep]
        obtain ⟨herr, htr, hdb⟩ := ih st2 ht2
        refine ⟨?_, htr, by rw [hdb]; exact hd⟩
        intro hh
        rcases List.mem_cons.mp hh with h0 | h0
        · exact absurd h0.symm hx
        · exact herr h0
      · rw [hstep] at hd ht2
        simp only [loadScopes, hstep]
        exact ⟨fun _ => by simp, ht2, hd⟩

theorem load_dbs (env : Env) (dbs : MultiplexDB) (ics : IChecksummedGenesisDoc)
    (op : String) (config : Config) :
    (LoadMultiplexStateFromDBOrGenesisDocProviderWithConfig env dbs (.ok ics) op config).dbs =
      (loadScopes env ics op config (env.GetScopeHashes config.Replication config.UserScopes)
        (initLoop dbs)).1.dbs := by
  unfold LoadMultiplexStateFromDBOrGenesisDocProviderWithConfig
  rcases hl : loadScopes env ics op config
      (env.GetScopeHashes config.Replication config.UserScopes) (initLoop dbs)
    with ⟨st, _ | e⟩
  · simp only [initLoop] at hl
    simp only [hl]
    split <;> rfl
  · simp only [initLoop] at hl
    simp only [hl]

theorem load_err_of_loop_err (env : Env) (dbs : MultiplexDB) (ics : IChecksummedGenesisDoc)
    (op : String) (config : Config) (st : LoadLoop) (e : String)
    (hl : loadScopes env ics op config (env.GetScopeHashes config.Replication config.UserScopes)
      (initLoop dbs) = (st, some e)) :
    (LoadMultiplexStateFromDBOrGenesisDocProviderWithConfig env dbs (.ok ics) op config).err =
      some e := by
  unfold LoadMultiplexStateFromDBOrGenesisDocProviderWithConfig
  simp only [initLoop] at hl
  simp only [hl]

/-- C12: a failed load is not rolled back. If the loop of the loader has gone through the
scopes `pre` without error and the iteration for the next scope `x` raises the error `e`,
then the loader returns `e` (with an empty `MultiplexState` and a nil genesis doc); the
state store leaving the genesis-hash slot as it found it, the database of every scope of
`pre` answers a `Get` of `mxGenesisDocHash` with the loaded checksum; and a scope that is
neither `x` nor in `pre` has its database as it was and occurs in no database operation. -/
theorem failed_load_not_rolled_back (env : Env) (stateMultiplexDB : MultiplexDB)
    (ics : IChecksummedGenesisDoc) (operatorGenesisHashHex : String) (config : Config)
    (pre post : List String) (x : String) (stk st1 : LoadLoop) (e : String)
    (hframe : StoreKeepsGenesisHash env)
    (hlist : env.GetScopeHashes config.Replication config.UserScopes = pre ++ x :: post)
    (hpre : loadScopes env ics operatorGenesisHashHex config pre (initLoop stateMultiplexDB) =
      (stk, none))
    (hfail : loadScope env ics operatorGenesisHashHex config stk x = (st1, some e)) :
    (LoadMultiplexStateFromDBOrGenesisDocProviderWithConfig env stateMultiplexDB (.ok ics)
        operatorGenesisHashHex config).err = some e ∧
      (∀ k, (LoadMultiplexStateFromDBOrGenesisDocProviderWithConfig env stateMultiplexDB
        (.ok ics) operatorGenesisHashHex config).multiplexState k = none) ∧
      (LoadMultiplexStateFromDBOrGenesisDocProviderWithConfig env stateMultiplexDB (.ok ics)
        operatorGenesisHashHex config).icsGenDoc.isNone = true ∧
      (∀ h, h ∈ pre → ∃ db,
        (LoadMultiplexStateFromDBOrGenesisDocProviderWithConfig env stateMultiplexDB (.ok ics)
          operatorGenesisHashHex config).dbs h = some db ∧
        db.Get genesisDocHashKey = .ok ics.GetChecksum) ∧
      (∀ h, h ∉ pre → h ≠ x →
        (LoadMultiplexStateFromDBOrGenesisDocProviderWithConfig env stateMultiplexDB (.ok ics)
          operatorGenesisHashHex config).dbs h = stateMultiplexDB h ∧
        ∀ o, o ∈ (LoadMultiplexStateFromDBOrGenesisDocProviderWithConfig env stateMultiplexDB
          (.ok ics) operatorGenesisHashHex config).trace → o.scope ≠ h) := by
  have hloop : loadScopes env ics operatorGenesisHashHex config
      (env.GetScopeHashes config.Replication config.UserScopes) (initLoop stateMultiplexDB) =
      (st1, some e) := by
    rw [hlist, loadScopes_append, hpre]
    simp only [loadScopes, hfail]
  have herr := load_err_of_loop_err env stateMultiplexDB ics operatorGenesisHashHex config
    st1 e hloop
  have hshape := load_err_shape env stateMultiplexDB (.ok ics) operatorGenesisHashHex config
    (by rw [herr]; simp)
  have hdbs := load_dbs env stateMultiplexDB ics operatorGenesisHashHex config
  have htrace := load_trace env stateMultiplexDB ics operatorGenesisHashHex config
  rw [hloop] at hdbs htrace
  refine ⟨herr, ?_, hshape.2, ?_, ?_⟩
  · intro k; rw [hshape.1]; rfl
  · intro h hh
    obtain ⟨-, -, hloaded, -⟩ :=
      loadScopes_ok env ics operatorGenesisHashHex config pre _ _ hpre
    obtain ⟨d0, doc, dprev, s, -, -, -, hg, -, hdb, -⟩ := hloaded h hh
    have hstep := loadScope_keeps_checksum env ics operatorGenesisHashHex config hframe stk x h
      ⟨_, hdb, by rw [hframe]; exact hg⟩
    rw [hfail] at hstep
    rw [hdbs]
    exact hstep
  · intro h hpre' hx
    refine ⟨?_, ?_⟩
    · rw [hdbs]
      have h1 := loadScope_dbs_other env ics operatorGenesisHashHex config stk x h hx
      rw [hfail] at h1
      have h2 := loadScopes_dbs_other env ics operatorGenesisHashHex config h pre
        (initLoop stateMultiplexDB) hpre'
      rw [hpre] at h2
      show st1.dbs h = stateMultiplexDB h
      rw [h1, h2]
      rfl
    · rw [htrace]
      obtain ⟨c1, hc1, hs1⟩ := loadScopes_trace_scope env ics operatorGenesisHashHex config pre
        (initLoop stateMultiplexDB)
      obtain ⟨c2, hc2, hs2⟩ := loadScope_trace_scope env ics operatorGenesisHashHex config stk x
      rw [hpre] at hc1
      rw [hfail] at hc2
      intro o ho
      simp only at ho hc1 hc2
      rw [hc2, hc1] at ho
      simp only [initLoop, List.nil_append] at ho
      rcases List.mem_append.mp ho with h1 | h1
      · intro h0; exact hpre' (h0 ▸ hs1 o h1)
      · rw [hs2 o h1]; exact fun h0 => hx h0.symm

/-- Witness of C12: the load from `seededDBs` fails on the second scope; the first scope
keeps the checksum that was written for it. -/
theorem failed_load_not_rolled_back_witness :
    (LoadMultiplexStateFromDBOrGenesisDocProviderWithConfig sampleEnv seededDBs
        (.ok sampleGenesis) "" sampleConfig).err =
        some "genesis doc hash in db does not match loaded genesis doc" ∧
      (∃ db, (LoadMultiplexStateFromDBOrGenesisDocProviderWithConfig sampleEnv seededDBs
          (.ok sampleGenesis) "" sampleConfig).dbs "addr:a" = some db ∧
        db.Get genesisDocHashKey = .ok sampleGenesis.GetChecksum) ∧
      ((LoadMultiplexStateFromDBOrGenesisDocProviderWithConfig sampleEnv seededDBs
          (.ok sampleGenesis) "" sampleConfig).dbs "addr:c" = seededDBs "addr:c" ∧
        ∀ o, o ∈ (LoadMultiplexStateFromDBOrGenesisDocProviderWithConfig sampleEnv seededDBs
          (.ok sampleGenesis) "" sampleConfig).trace → o.scope ≠ "addr:c") :=
  have hw := failed_load_not_rolled_back sampleEnv seededDBs sampleGenesis "" sampleConfig
    ["addr:a"] ["addr:c"] "addr:b" seededAfterFirst seededAfterSecond
    "genesis doc hash in db does not match loaded genesis doc"
    sampleEnv_keeps_genesis_hash (by decide) (Prod.ext rfl (by decide))
    (Prod.ext rfl (by decide))
  ⟨hw.1, hw.2.2.2.1 "addr:a" (by decide), hw.2.2.2.2 "addr:c" (by decide) (by decide)⟩

/-- C13: if some configured scope hash has no genesis doc in the loaded set, or has a
genesis doc that fails `ValidateAndComplete`, the loader returns an error and an empty
`MultiplexState`, performs no database operation on that scope and leaves that scope's
state database as it was. -/
theorem missing_or_invalid_genesis_doc_fails (env : Env) (stateMultiplexDB : MultiplexDB)
    (ics : IChecksummedGenesisDoc) (operatorGenesisHashHex : String) (config : Config)
    (h : String) (hh : h ∈ env.GetScopeHashes config.Replication config.UserScopes)
    (hbad : (∃ e, ics.GenesisDocByScope h = .error e) ∨
      (∃ d0 e, ics.GenesisDocByScope h = .ok d0 ∧ env.ValidateAndComplete d0 = .error e)) :
    (LoadMultiplexStateFromDBOrGenesisDocProviderWithConfig env stateMultiplexDB (.ok ics)
        operatorGenesisHashHex config).err ≠ none ∧
      (∀ k, (LoadMultiplexStateFromDBOrGenesisDocProviderWithConfig env stateMultiplexDB
        (.ok ics) operatorGenesisHashHex config).multiplexState k = none) ∧
      (∀ o, o ∈ (LoadMultiplexStateFromDBOrGenesisDocProviderWithConfig env stateMultiplexDB
        (.ok ics) operatorGenesisHashHex config).trace → o.scope ≠ h) ∧
      (LoadMultiplexStateFromDBOrGenesisDocProviderWithConfig env stateMultiplexDB (.ok ics)
        operatorGenesisHashHex config).dbs h = stateMultiplexDB h := by
  obtain ⟨hloop, htr, hdb⟩ := loadScopes_bad_doc env ics operatorGenesisHashHex config h hbad
    (env.GetScopeHashes config.Replication config.UserScopes) (initLoop stateMultiplexDB)
    (by intro o ho; simp [initLoop] at ho)
  have herr : (LoadMultiplexStateFromDBOrGenesisDocProviderWithConfig env stateMultiplexDB
      (.ok ics) operatorGenesisHashHex config).err ≠ none := by
    intro hok
    obtain ⟨ics1, st, hp, hl, -⟩ := load_ok_inv env stateMultiplexDB (.ok ics)
      operatorGenesisHashHex config hok
    cases hp
    have := hloop hh
    rw [hl] at this
    exact this rfl
  obtain ⟨hms, -⟩ := load_err_shape env stateMultiplexDB (.ok ics) operatorGenesisHashHex
    config herr
  refine ⟨herr, ?_, ?_, ?_⟩
  · intro k; rw [hms]; rfl
  · rw [load_trace]; exact htr
  · rw [load_dbs]; exact hdb

/-- Witness of C13: the genesis set has no doc for `addr:c` and an invalid one for
`addr:b`. -/
theorem missing_or_invalid_genesis_doc_fails_witness :
    ((LoadMultiplexStateFromDBOrGenesisDocProviderWithConfig sampleEnv sampleDBs
        (.ok partialGenesis) "" sampleConfig).err ≠ none ∧
      (∀ k, (LoadMultiplexStateFromDBOrGenesisDocProviderWithConfig sampleEnv sampleDBs
        (.ok partialGenesis) "" sampleConfig).multiplexState k = none) ∧
      (∀ o, o ∈ (LoadMultiplexStateFromDBOrGenesisDocProviderWithConfig sampleEnv sampleDBs
        (.ok partialGenesis) "" sampleConfig).trace → o.scope ≠ "addr:c") ∧
      (LoadMultiplexStateFromDBOrGenesisDocProviderWithConfig sampleEnv sampleDBs
        (.ok partialGenesis) "" sampleConfig).dbs "addr:c" = sampleDBs "addr:c") ∧
    (∀ o, o ∈ (LoadMultiplexStateFromDBOrGenesisDocProviderWithConfig sampleEnv sampleDBs
        (.ok partialGenesis) "" sampleConfig).trace → o.scope ≠ "addr:b") :=
  ⟨missing_or_invalid_genesis_doc_fails sampleEnv sampleDBs partialGenesis "" sampleConfig
      "addr:c" (by decide) (Or.inl ⟨"not found", rfl⟩),
    (missing_or_invalid_genesis_doc_fails sampleEnv sampleDBs partialGenesis "" sampleConfig
      "addr:b" (by decide)
      (Or.inr ⟨{ ChainID := "", InitialHeight := 1, Validators := ["val"] },
        "genesis doc must include non-empty chain_id", rfl, rfl⟩)).2.2.1⟩

/-! ### Databases, registries and sync-status flags -/

/-- C14: in a replication mode other than plural, when the database provider succeeds for
`blockstore` and for `state`, `initDBs` returns a block store multiplex and a state
multiplex whose only entry is under the empty string and is the database the provider
returned for that family, empty indexer and evidence multiplexes, and no error. -/
theorem initDBs_singular (env : ReactorEnv) (config : Config)
    (dbProvider : String → Config → Except String ScopedDB) (bsDB stateDB : ScopedDB)
    (hmode : config.Replication ≠ PluralReplicationMode)
    (hbs : dbProvider "blockstore" config = .ok bsDB)
    (hst : dbProvider "state" config = .ok stateDB) :
    (∀ k, (initDBs env config dbProvider).bsMultiplexDB k =
        if k = "" then some bsDB else none) ∧
      (∀ k, (initDBs env config dbProvider).stateMultiplexDB k =
        if k = "" then some stateDB else none) ∧
      (∀ k, (initDBs env config dbProvider).indexerMultiplexDB k = none) ∧
      (∀ k, (initDBs env config dbProvider).evidenceMultiplexDB k = none) ∧
      (initDBs env config dbProvider).err = none := by
  unfold initDBs
  rw [if_neg hmode]
  simp [hbs, hst, nilMultiplexDB]

/-- Witness of C14: the singular sample configuration. -/
theorem initDBs_singular_witness :
    (∀ k, (initDBs singularEnv singularConfig singularReactor.dbBackendProvider).bsMultiplexDB k =
        if k = "" then some emptyDB else none) ∧
      (∀ k, (initDBs singularEnv singularConfig
          singularReactor.dbBackendProvider).stateMultiplexDB k =
        if k = "" then some emptyDB else none) ∧
      (∀ k, (initDBs singularEnv singularConfig
          singularReactor.dbBackendProvider).indexerMultiplexDB k = none) ∧
      (∀ k, (initDBs singularEnv singularConfig
          singularReactor.dbBackendProvider).evidenceMultiplexDB k = none) ∧
      (initDBs singularEnv singularConfig singularReactor.dbBackendProvider).err = none :=
  initDBs_singular singularEnv singularConfig singularReactor.dbBackendProvider emptyDB emptyDB
    (by decide) rfl rfl

/-- C15, the code at the failing input: in plural mode `MultiplexDBProvider` fails for the
`blockstore` family, yet `initDBs` returns no error, and `loadMultiplexState` and `OnStart`
return no error either. -/
theorem initDBs_plural_drops_open_error :
    sampleConfig.Replication = PluralReplicationMode ∧
      (failingBlockstoreEnv.MultiplexDBProvider "blockstore" sampleConfig).2 =
        some "cannot open blockstore database" ∧
      (initDBs failingBlockstoreEnv sampleConfig sampleReactor.dbBackendProvider).err = none ∧
      (sampleReactor.loadMultiplexState failingBlockstoreEnv).2 = none ∧
      startError (sampleReactor.OnStart failingBlockstoreEnv) = none := by
  decide

/-- C16: after `RegisterService(h, n, s)` the service provider returns `s` for `(h, n)`,
whatever the registry held before; in particular a second registration under `(h, n)`
replaces the first. -/
theorem registerService_then_lookup (r : Reactor) (h n : String) (s : Service) :
    (r.RegisterService h n s).serviceProvider h n = .ok s ∧
      ∀ s0, ((r.RegisterService h n s0).RegisterService h n s).serviceProvider h n = .ok s := by
  have key : ∀ r0 : Reactor, (r0.RegisterService h n s).serviceProvider h n = .ok s := by
    intro r0
    simp [Reactor.RegisterService, Reactor.serviceProvider]
  exact ⟨key r, fun s0 => key _⟩

theorem serviceProvider_eq_lookup (r : Reactor) (h n : String) :
    (∀ s, r.serviceProvider h n = .ok s ↔ lookupService r.serviceRegistry h n = some s) ∧
      (succeeded (r.serviceProvider h n) = false ↔
        lookupService r.serviceRegistry h n = none) := by
  unfold Reactor.serviceProvider lookupService
  cases hreg : r.serviceRegistry h with
  | none => simp [succeeded]
  | some m =>
    cases hm : m n with
    | none => simp [succeeded, hm]
    | some s0 => simp [succeeded, hm]

theorem lookupService_register (r : Reactor) (h1 n1 : String) (s1 : Service) (h n : String) :
    lookupService (r.RegisterService h1 n1 s1).serviceRegistry h n =
      if h = h1 ∧ n = n1 then some s1 else lookupService r.serviceRegistry h n := by
  unfold Reactor.RegisterService lookupService
  by_cases hh : h = h1
  · subst hh
    by_cases hn : n = n1
    · simp [hn]
    · cases hreg : r.serviceRegistry h <;> simp [hn]
  · simp [hh]

theorem lookupService_registerAll (regs : List (String × String × Service)) (h n : String) :
    ∀ r : Reactor,
      (lookupService (r.registerAll regs).serviceRegistry h n = none ↔
        lookupService r.serviceRegistry h n = none ∧ ∀ s, (h, n, s) ∉ regs) ∧
      (∀ s, lookupService (r.registerAll regs).serviceRegistry h n = some s →
        lookupService r.serviceRegistry h n = some s ∨ (h, n, s) ∈ regs) := by
  induction regs with
  | nil => intro r; simp [Reactor.registerAll]
  | cons reg rest ih =>
    intro r
    obtain ⟨h1, n1, s1⟩ := reg
    obtain ⟨ih1, ih2⟩ := ih (r.RegisterService h1 n1 s1)
    simp only [Reactor.registerAll]
    rw [lookupService_register] at ih1 ih2
    constructor
    · rw [ih1]
      by_cases hc : h = h1 ∧ n = n1
      · obtain ⟨rfl, rfl⟩ := hc
        simp only [and_self, if_true, false_and, false_iff, not_and, reduceCtorEq]
        intro _ hall
        exact hall s1 (List.mem_cons_self _ _)
      · simp only [hc, if_false]
        constructor
        · rintro ⟨h0, hall⟩
          refine ⟨h0, ?_⟩
          intro s hs
          rcases List.mem_cons.mp hs with h3 | h3
          · simp only [Prod.mk.injEq] at h3
            exact hc ⟨h3.1, h3.2.1⟩
          · exact hall s h3
        · rintro ⟨h0, hall⟩
          exact ⟨h0, fun s hs => hall s (List.mem_cons_of_mem _ hs)⟩
    · intro s hs
      rcases ih2 s hs with h3 | h3
      · by_cases hc : h = h1 ∧ n = n1
        · obtain ⟨rfl, rfl⟩ := hc
          simp only [and_self, if_true, Option.some.injEq] at h3
          subst h3
          exact Or.inr (List.mem_cons_self _ _)
        · simp only [hc, if_false] at h3
          exact Or.inl h3
      · exact Or.inr (List.mem_cons_of_mem _ h3)

/-- C17: the service provider panics exactly when the lookup is unknown. On every registry
state it panics if and only if the registry has no entry for `(h, n)` (no map under `h`,
or no service under `n` in that map) and otherwise returns the entry; on the registry
built from the empty one by a sequence of `RegisterService` calls it panics if and only if
none of the calls was for `(h, n)`, and a service it returns has been registered under
`(h, n)`. -/
theorem serviceProvider_panics_iff_unknown (r : Reactor)
    (regs : List (String × String × Service)) (h n : String) :
    (succeeded (r.serviceProvider h n) = false ↔
        (r.serviceRegistry h = none ∨ ∃ m, r.serviceRegistry h = some m ∧ m n = none)) ∧
      (∀ s, r.serviceProvider h n = .ok s ↔
        ∃ m, r.serviceRegistry h = some m ∧ m n = some s) ∧
      (r.serviceRegistry = (fun _ => none) →
        (succeeded ((r.registerAll regs).serviceProvider h n) = false ↔
          ∀ s, (h, n, s) ∉ regs) ∧
        (∀ s, (r.registerAll regs).serviceProvider h n = .ok s → (h, n, s) ∈ regs)) := by
  refine ⟨?_, ?_, ?_⟩
  · rw [(serviceProvider_eq_lookup r h n).2]
    unfold lookupService
    cases hreg : r.serviceRegistry h <;> simp
  · intro s
    rw [(serviceProvider_eq_lookup r h n).1 s]
    unfold lookupService
    cases hreg : r.serviceRegistry h <;> simp
  · intro hempty
    have h0 : lookupService r.serviceRegistry h n = none := by
      simp [lookupService, hempty]
    obtain ⟨h1, h2⟩ := lookupService_registerAll regs h n r
    constructor
    · rw [(serviceProvider_eq_lookup _ h n).2, h1]
      simp [h0]
    · intro s hs
      rw [(serviceProvider_eq_lookup _ h n).1 s] at hs
      rcases h2 s hs with h3 | h3
      · rw [h0] at h3; cases h3
      · exact h3

/-- Witness of C17: on the sample reactor, whose registry is empty, after registering the
event bus of `addr:a` the lookup of its proxy app is still unknown. -/
theorem serviceProvider_panics_iff_unknown_witness :
    (succeeded ((sampleReactor.registerAll
        [("addr:a", "eventBus", { id := "bus" })]).serviceProvider "addr:a" "proxyApp") = false ↔
      ∀ s, ("addr:a", "proxyApp", s) ∉ [("addr:a", "eventBus", ({ id := "bus" } : Service))]) ∧
    (∀ s, (sampleReactor.registerAll
        [("addr:a", "eventBus", { id := "bus" })]).serviceProvider "addr:a" "proxyApp" = .ok s →
      ("addr:a", "proxyApp", s) ∈ [("addr:a", "eventBus", ({ id := "bus" } : Service))]) :=
  (serviceProvider_panics_iff_unknown sampleReactor [("addr:a", "eventBus", { id := "bus" })]
    "addr:a" "proxyApp").2.2 rfl

/-- C18, the code at the failing input: `NewReactor` leaves the two sync-status maps nil,
so on every reactor it returns `SetStateSync` and `SetBlockSync` panic for every scope
hash and flag, and `GetStateSync` and `GetBlockSync` read `false`. -/
theorem newReactor_leaves_sync_maps_nil (env : ReactorEnv) (config : Config)
    (dbBackendProvider : String → Config → Except String ScopedDB)
    (genesisDocProvider : Except String IChecksummedGenesisDoc) (h : String) (b : Bool) :
    succeeded ((NewReactor env config dbBackendProvider genesisDocProvider).bind
        (fun r => r.SetStateSync h b)) = false ∧
      succeeded ((NewReactor env config dbBackendProvider genesisDocProvider).bind
        (fun r => r.SetBlockSync h b)) = false ∧
      (succeeded sampleNewReactor = true ∧
        succeeded (sampleNewReactor.bind (fun r => r.SetStateSync "addr:a" true)) = false ∧
        succeeded (sampleNewReactor.bind (fun r => r.SetBlockSync "addr:a" true)) = false ∧
        (match sampleNewReactor with
          | .ok r => r.GetStateSync "addr:a" || r.GetBlockSync "addr:a"
          | .error _ => true) = false) := by
  refine ⟨?_, ?_, by decide⟩
  · unfold NewReactor
    cases env.DefaultScopeHashProvider config with
    | error e => rfl
    | ok reg =>
      cases genesisDocProvider with
      | error e => rfl
      | ok ics => rfl
  · unfold NewReactor
    cases env.DefaultScopeHashProvider config with
    | error e => rfl
    | ok reg =>
      cases genesisDocProvider with
      | error e => rfl
      | ok ics => rfl

/-- C19: after `RegisterPrivVal(h, pv)`, `GetReplPrivValidator(h)` returns `pv`,
`GetReplPrivValidator` is unchanged for every other scope hash, and the peer-filter map
and the service registry are unchanged. -/
theorem registerPrivVal_frame (r : Reactor) (h : String) (pv : PrivValidator) :
    (r.RegisterPrivVal h pv).GetReplPrivValidator h = some pv ∧
      (∀ h1, h1 ≠ h →
        (r.RegisterPrivVal h pv).GetReplPrivValidator h1 = r.GetReplPrivValidator h1) ∧
      (r.RegisterPrivVal h pv).peerFilter = r.peerFilter ∧
      (r.RegisterPrivVal h pv).serviceRegistry = r.serviceRegistry := by
  refine ⟨by simp [Reactor.RegisterPrivVal, Reactor.GetReplPrivValidator], ?_, rfl, rfl⟩
  intro h1 hne
  simp [Reactor.RegisterPrivVal, Reactor.GetReplPrivValidator, hne]

/-- Witness of C19: a signer registered for `addr:a` leaves the entry of `addr:b` alone. -/
theorem registerPrivVal_frame_witness :
    (sampleReactor.RegisterPrivVal "addr:a" { id := "pv" }).GetReplPrivValidator "addr:b" =
      sampleReactor.GetReplPrivValidator "addr:b" :=
  (registerPrivVal_frame sampleReactor "addr:a" { id := "pv" }).2.1 "addr:b" (by decide)

/-- C20: after `SetDatabasesProviders(bs, st, ix, ev)` the multiplex provider returns
`bs` for `blockstore`, `st` for `state`, `ix` for `indexer` and `ev` for `evidence`; the
database provider returns for `(f, h)` what `GetScopedDB` finds for `h` in the multiplex of
the family `f`; and both providers panic for every other table name. -/
theorem setDatabasesProviders_routing (r : Reactor) (bs st ix ev : MultiplexDB) :
    (r.SetDatabasesProviders bs st ix ev).callMultiplexProvider "blockstore" = .ok bs ∧
      (r.SetDatabasesProviders bs st ix ev).callMultiplexProvider "state" = .ok st ∧
      (r.SetDatabasesProviders bs st ix ev).callMultiplexProvider "indexer" = .ok ix ∧
      (r.SetDatabasesProviders bs st ix ev).callMultiplexProvider "evidence" = .ok ev ∧
      (∀ h, (r.SetDatabasesProviders bs st ix ev).callDatabasesProvider "blockstore" h =
        GetScopedDB bs h) ∧
      (∀ h, (r.SetDatabasesProviders bs st ix ev).callDatabasesProvider "state" h =
        GetScopedDB st h) ∧
      (∀ h, (r.SetDatabasesProviders bs st ix ev).callDatabasesProvider "indexer" h =
        GetScopedDB ix h) ∧
      (∀ h, (r.SetDatabasesProviders bs st ix ev).callDatabasesProvider "evidence" h =
        GetScopedDB ev h) ∧
      (∀ t, t ≠ "blockstore" → t ≠ "state" → t ≠ "indexer" → t ≠ "evidence" →
        succeeded ((r.SetDatabasesProviders bs st ix ev).callMultiplexProvider t) = false ∧
        ∀ h, succeeded ((r.SetDatabasesProviders bs st ix ev).callDatabasesProvider t h) =
          false) := by
  refine ⟨rfl, rfl, rfl, rfl, fun _ => rfl, fun _ => rfl, fun _ => rfl, fun _ => rfl, ?_⟩
  intro t h1 h2 h3 h4
  simp [Reactor.SetDatabasesProviders, Reactor.callMultiplexProvider,
    Reactor.callDatabasesProvider, multiplexByTable, h1, h2, h3, h4, succeeded]

/-- Witness of C20: the table name `tx_index` is none of the four families. -/
theorem setDatabasesProviders_routing_witness :
    succeeded ((sampleReactor.SetDatabasesProviders sampleDBs sampleDBs sampleDBs
        sampleDBs).callMultiplexProvider "tx_index") = false ∧
      ∀ h, succeeded ((sampleReactor.SetDatabasesProviders sampleDBs sampleDBs sampleDBs
        sampleDBs).callDatabasesProvider "tx_index" h) = false :=
  (setDatabasesProviders_routing sampleReactor sampleDBs sampleDBs sampleDBs
    sampleDBs).2.2.2.2.2.2.2.2 "tx_index" (by decide) (by decide) (by decide) (by decide)

/-! ### Starting the listeners of a scope -/

theorem startNodeListeners_cases (lenv : ListenerEnv) (r r1 : Reactor) (h : String)
    (err : Option String) (hs : r.startNodeListeners lenv h = .ok (r1, err)) :
    (r1 = r ∧ err ≠ none) ∨
      (err = none ∧ ∃ nodeConfig userAddress genesisDoc indexerMultiplexDB proxyApp eventBus
          indexerService txIndexer blockIndexer privValidator,
        r.GetReplNodeConfig h = some nodeConfig ∧
        GetAddress r.scopeRegistry h = .ok userAddress ∧
        r.icsGenesisProvider.GenesisDocByScope h = .ok genesisDoc ∧
        r.callMultiplexProvider "indexer" = .ok indexerMultiplexDB ∧
        lenv.proxyAppStart nodeConfig.ProxyApp nodeConfig.ABCI
          (lenv.Join [nodeConfig.RootDir, DefaultDataDir, userAddress]) = .ok proxyApp ∧
        lenv.eventBusStart = .ok eventBus ∧
        createAndStartIndexerService lenv nodeConfig genesisDoc.ChainID indexerMultiplexDB
          eventBus h = .ok (indexerService, txIndexer, blockIndexer) ∧
        createPrivValidator lenv nodeConfig genesisDoc.ChainID h
          (lenv.Join [nodeConfig.RootDir, DefaultConfigDir, userAddress])
          (lenv.Join [nodeConfig.RootDir, DefaultDataDir, userAddress]) = .ok privValidator ∧
        r1 = (((r.RegisterService h "proxyApp" proxyApp).RegisterService h "eventBus"
          eventBus).RegisterService h "indexerService" indexerService).RegisterPrivVal h
          privValidator) := by
  unfold Reactor.startNodeListeners at hs
  cases hg : r.icsGenesisProvider.GenesisDocByScope h with
  | error e => simp [hg] at hs
  | ok genesisDoc =>
    cases hp : r.callMultiplexProvider "indexer" with
    | error e => simp [hg, hp] at hs
    | ok db =>
      cases ha : GetAddress r.scopeRegistry h with
      | error e =>
        simp only [hg, hp, ha, Except.ok.injEq, Prod.mk.injEq] at hs
        exact Or.inl ⟨hs.1.symm, by rw [← hs.2]; simp⟩
      | ok userAddress =>
        cases hc : r.GetReplNodeConfig h with
        | none => simp [hg, hp, ha, hc] at hs
        | some nodeConfig =>
          cases hx : lenv.proxyAppStart nodeConfig.ProxyApp nodeConfig.ABCI
              (lenv.Join [nodeConfig.RootDir, DefaultDataDir, userAddress]) with
          | error e =>
            simp only [hg, hp, ha, hc, hx, Except.ok.injEq, Prod.mk.injEq] at hs
            exact Or.inl ⟨hs.1.symm, by rw [← hs.2]; simp⟩
          | ok proxyApp =>
            cases he : lenv.eventBusStart with
            | error e =>
              simp only [hg, hp, ha, hc, hx, he, Except.ok.injEq, Prod.mk.injEq] at hs
              exact Or.inl ⟨hs.1.symm, by rw [← hs.2]; simp⟩
            | ok eventBus =>
              cases hi : createAndStartIndexerService lenv nodeConfig genesisDoc.ChainID db
                  eventBus h with
              | error e =>
                simp only [hg, hp, ha, hc, hx, he, hi, Except.ok.injEq, Prod.mk.injEq] at hs
                exact Or.inl ⟨hs.1.symm, by rw [← hs.2]; simp⟩
              | ok triple =>
                obtain ⟨indexerService, txIndexer, blockIndexer⟩ := triple
                cases hv : createPrivValidator lenv nodeConfig genesisDoc.ChainID h
                    (lenv.Join [nodeConfig.RootDir, DefaultConfigDir, userAddress])
                    (lenv.Join [nodeConfig.RootDir, DefaultDataDir, userAddress]) with
                | error e =>
                  simp only [hg, hp, ha, hc, hx, he, hi, hv, Except.ok.injEq,
                    Prod.mk.injEq] at hs
                  exact Or.inl ⟨hs.1.symm, by rw [← hs.2]; simp⟩
                | ok privValidator =>
                  simp only [hg, hp, ha, hc, hx, he, hi, hv, Except.ok.injEq,
                    Prod.mk.injEq] at hs
                  exact Or.inr ⟨hs.2.symm, nodeConfig, userAddress, genesisDoc, db, proxyApp,
                    eventBus, indexerService, txIndexer, blockIndexer, privValidator, rfl,
                    rfl, rfl, rfl, hx, rfl, hi, hv, hs.1.symm⟩

theorem registered_services_lookup (r : Reactor) (h : String)
    (proxyApp eventBus indexerService : Service) (privValidator : PrivValidator) :
    let r1 := (((r.RegisterService h "proxyApp" proxyApp).RegisterService h "eventBus"
      eventBus).RegisterService h "indexerService" indexerService).RegisterPrivVal h
      privValidator
    lookupService r1.serviceRegistry h "proxyApp" = some proxyApp ∧
      lookupService r1.serviceRegistry h "eventBus" = some eventBus ∧
      lookupService r1.serviceRegistry h "indexerService" = some indexerService ∧
      r1.GetReplPrivValidator h = some privValidator ∧
      (∀ n, n ≠ "proxyApp" → n ≠ "eventBus" → n ≠ "indexerService" →
        lookupService r1.serviceRegistry h n = lookupService r.serviceRegistry h n) ∧
      (∀ k, k ≠ h → r1.serviceRegistry k = r.serviceRegistry k ∧
        r1.mxPrivVals k = r.mxPrivVals k) := by
  intro r1
  refine ⟨?_, ?_, ?_, ?_, ?_, ?_⟩
  · simp [r1, lookupService, Reactor.RegisterService, Reactor.RegisterPrivVal]
  · simp [r1, lookupService, Reactor.RegisterService, Reactor.RegisterPrivVal]
  · simp [r1, lookupService, Reactor.RegisterService, Reactor.RegisterPrivVal]
  · simp [r1, Reactor.GetReplPrivValidator, Reactor.RegisterPrivVal]
  · intro n h1 h2 h3
    cases hr : r.serviceRegistry h <;>
      simp [r1, lookupService, Reactor.RegisterService, Reactor.RegisterPrivVal, h1, h2, h3, hr]
  · intro k hk
    simp [r1, Reactor.RegisterService, Reactor.RegisterPrivVal, hk]

/-- C21: whenever `startNodeListeners(h)` returns, (a) if it returns nil, the service
registry holds under `h` the proxy app, the event bus and the indexer service that the call
has just started, under the names `proxyApp`, `eventBus` and `indexerService`, every other
name under `h` reads as before, and the private-validator registry holds the signer created
for `h`; (b) if it returns an error, the service registry and the private-validator
registry are what they were before the call; (c) in both cases the entries of every other
scope are untouched in both registries. -/
theorem startNodeListeners_registers_on_success (lenv : ListenerEnv) (r r1 : Reactor)
    (h : String) (err : Option String)
    (hs : r.startNodeListeners lenv h = .ok (r1, err)) :
    (err = none →
      ∃ nodeConfig userAddress genesisDoc indexerMultiplexDB proxyApp eventBus indexerService
          txIndexer blockIndexer privValidator,
        r.GetReplNodeConfig h = some nodeConfig ∧
        GetAddress r.scopeRegistry h = .ok userAddress ∧
        r.icsGenesisProvider.GenesisDocByScope h = .ok genesisDoc ∧
        r.callMultiplexProvider "indexer" = .ok indexerMultiplexDB ∧
        lenv.proxyAppStart nodeConfig.ProxyApp nodeConfig.ABCI
          (lenv.Join [nodeConfig.RootDir, DefaultDataDir, userAddress]) = .ok proxyApp ∧
        lenv.eventBusStart = .ok eventBus ∧
        createAndStartIndexerService lenv nodeConfig genesisDoc.ChainID indexerMultiplexDB
          eventBus h = .ok (indexerService, txIndexer, blockIndexer) ∧
        createPrivValidator lenv nodeConfig genesisDoc.ChainID h
          (lenv.Join [nodeConfig.RootDir, DefaultConfigDir, userAddress])
          (lenv.Join [nodeConfig.RootDir, DefaultDataDir, userAddress]) = .ok privValidator ∧
        lookupService r1.serviceRegistry h "proxyApp" = some proxyApp ∧
        lookupService r1.serviceRegistry h "eventBus" = some eventBus ∧
        lookupService r1.serviceRegistry h "indexerService" = some indexerService ∧
        r1.GetReplPrivValidator h = some privValidator ∧
        (∀ n, n ≠ "proxyApp" → n ≠ "eventBus" → n ≠ "indexerService" →
          lookupService r1.serviceRegistry h n = lookupService r.serviceRegistry h n)) ∧
      (err ≠ none → r1.serviceRegistry = r.serviceRegistry ∧ r1.mxPrivVals = r.mxPrivVals) ∧
      (∀ k, k ≠ h → r1.serviceRegistry k = r.serviceRegistry k ∧
        r1.mxPrivVals k = r.mxPrivVals k) := by
  rcases startNodeListeners_cases lenv r r1 h err hs with ⟨hr, he⟩ |
    ⟨he, nodeConfig, userAddress, genesisDoc, db, proxyApp, eventBus, indexerService,
      txIndexer, blockIndexer, privValidator, h1, h2, h3, h4, h5, h6, h7, h8, hr⟩
  · subst hr
    exact ⟨fun h0 => absurd h0 he, fun _ => ⟨rfl, rfl⟩, fun _ _ => ⟨rfl, rfl⟩⟩
  · obtain ⟨l1, l2, l3, l4, l5, l6⟩ :=
      registered_services_lookup r h proxyApp eventBus indexerService privValidator
    subst hr
    exact ⟨fun _ => ⟨nodeConfig, userAddress, genesisDoc, db, proxyApp, eventBus,
      indexerService, txIndexer, blockIndexer, privValidator, h1, h2, h3, h4, h5, h6, h7, h8,
      l1, l2, l3, l4, l5⟩, fun h0 => absurd he h0, l6⟩

/-- Witness of C21: in the sample reactor after `OnStart` the listeners of `addr:a` start
and are registered, and where the event bus fails to start both registries stay as they
were. -/
theorem startNodeListeners_registers_on_success_witness :
    (lookupService (listenersOutcome sampleListenerEnv listenerReactor "addr:a").1.serviceRegistry
        "addr:a" "eventBus" = some { id := "eventBus" } ∧
      (listenersOutcome sampleListenerEnv listenerReactor "addr:a").1.serviceRegistry "addr:b" =
        listenerReactor.serviceRegistry "addr:b") ∧
      ((listenersOutcome failingEventBusEnv listenerReactor "addr:a").2 =
          some "error starting event bus: already started" ∧
        (listenersOutcome failingEventBusEnv listenerReactor "addr:a").1.serviceRegistry =
          listenerReactor.serviceRegistry ∧
        (listenersOutcome failingEventBusEnv listenerReactor "addr:a").1.mxPrivVals =
          listenerReactor.mxPrivVals) :=
  by
  have hfail := (startNodeListeners_registers_on_success failingEventBusEnv listenerReactor
    (listenersOutcome failingEventBusEnv listenerReactor "addr:a").1 "addr:a"
    (some "error starting event bus: already started") rfl).2.1 (by simp)
  obtain ⟨hok, -, hother⟩ := startNodeListeners_registers_on_success sampleListenerEnv
    listenerReactor (listenersOutcome sampleListenerEnv listenerReactor "addr:a").1 "addr:a"
    none rfl
  obtain ⟨-, -, -, -, -, eventBus, -, -, -, -, -, -, -, -, -, hbus, -, -, -, hl, -⟩ := hok rfl
  have hb : eventBus = { id := "eventBus" } :=
    (Except.ok.inj (hbus.symm.trans (rfl : sampleListenerEnv.eventBusStart =
      .ok { id := "eventBus" }))).symm ▸ rfl
  exact ⟨⟨hb ▸ hl, (hother "addr:b" (by decide)).1⟩, rfl, hfail⟩

/-! ### `OnStart` failing early, and the configuration of a scope -/

/-- C22: if `initDataDir` returns an error, or if `loadMultiplexState` returns an error,
then `OnStart` returns a non-nil error, `ListenAddresses` and the per-scope node
configurations are what they were before the call, and no start-up of the listeners of a
scope is launched. -/
theorem onStart_fails_early (env : ReactorEnv) (r : Reactor)
    (hfail : initDataDir env r.nodeConfig ≠ none ∨ (r.loadMultiplexState env).2 ≠ none) :
    ∃ res, r.OnStart env = .ok res ∧ res.err ≠ none ∧
      res.reactor.ListenAddresses = r.ListenAddresses ∧
      res.reactor.replConfig = r.replConfig ∧
      res.launched = [] := by
  unfold Reactor.OnStart
  cases hdir : initDataDir env r.nodeConfig with
  | some e => exact ⟨_, rfl, by simp, rfl, rfl, rfl⟩
  | none =>
    have hload : (r.loadMultiplexState env).2 ≠ none := by
      rcases hfail with h0 | h0
      · exact absurd hdir h0
      · exact h0
    obtain ⟨-, -, -, hla, hrc⟩ := loadMultiplexState_frame env r
    rcases hl : r.loadMultiplexState env with ⟨r1, _ | e⟩
    · rw [hl] at hload
      exact absurd rfl hload
    · rw [hl] at hla hrc
      exact ⟨_, rfl, by simp, hla, hrc, rfl⟩

/-- Witness of C22: with a genesis set that lacks the doc of a scope, `loadMultiplexState`
fails, `OnStart` returns the error and nothing is launched. -/
theorem onStart_fails_early_witness :
    ∃ res, missingGenesisReactor.OnStart sampleReactorEnv = .ok res ∧ res.err ≠ none ∧
      res.reactor.ListenAddresses = missingGenesisReactor.ListenAddresses ∧
      res.reactor.replConfig = missingGenesisReactor.replConfig ∧
      res.launched = [] :=
  onStart_fails_early sampleReactorEnv missingGenesisReactor (Or.inr (by decide))

theorem updateNodeConfig_full (r : Reactor) (m : MultiplexServiceAddress) (h : String)
    (i : Nat) (hm : r.ListenAddresses = some m) :
    ∃ r1, r.updateNodeConfig h i = .ok (r1, none) ∧
      r1.ListenAddresses = some (fun k =>
        if k = h then some (listenAddressesFor r.nodeConfig r.userConfig.GetListenPort i)
        else m k) ∧
      r1.replConfig = (fun k =>
        if k = h then some ((NewConfigCopy r.nodeConfig).SetListenAddresses
          (mapGet (listenAddressesFor r.nodeConfig r.userConfig.GetListenPort i) "P2P")
          (mapGet (listenAddressesFor r.nodeConfig r.userConfig.GetListenPort i) "RPC")
          (mapGet (listenAddressesFor r.nodeConfig r.userConfig.GetListenPort i) "GRPC")
          (mapGet (listenAddressesFor r.nodeConfig r.userConfig.GetListenPort i) "GRPCPriv"))
        else r.replConfig k) ∧
      r1.nodeConfig = r.nodeConfig := by
  unfold Reactor.updateNodeConfig
  simp only [hm]
  exact ⟨_, rfl, rfl, rfl, rfl⟩

/-- C23: after `updateNodeConfig(h, i)` on a reactor whose `ListenAddresses` map is
allocated, the configuration that `GetReplNodeConfig(h)` returns carries as its P2P, RPC,
gRPC and privileged-gRPC listen addresses the four strings stored in `ListenAddresses[h]`
(which has these four keys only) and agrees with the base node configuration in its other
fields; the base node configuration is unchanged; and the entries of `ListenAddresses` and
of the per-scope configurations for every other scope hash are unchanged. -/
theorem updateNodeConfig_config_copy (r : Reactor) (m : MultiplexServiceAddress) (h : String)
    (i : Nat) (hm : r.ListenAddresses = some m) :
    ∃ r1 m1 entry cfg, r.updateNodeConfig h i = .ok (r1, none) ∧
      r1.ListenAddresses = some m1 ∧ m1 h = some entry ∧
      r1.GetReplNodeConfig h = some cfg ∧
      entry "P2P" = some cfg.P2PListenAddress ∧
      entry "RPC" = some cfg.RPCListenAddress ∧
      entry "GRPC" = some cfg.GRPCListenAddress ∧
      entry "GRPCPriv" = some cfg.GRPCPrivilegedListenAddress ∧
      (∀ k, k ≠ "P2P" → k ≠ "RPC" → k ≠ "GRPC" → k ≠ "GRPCPriv" → entry k = none) ∧
      cfg = { r.nodeConfig with
        P2PListenAddress := cfg.P2PListenAddress,
        RPCListenAddress := cfg.RPCListenAddress,
        GRPCListenAddress := cfg.GRPCListenAddress,
        GRPCPrivilegedListenAddress := cfg.GRPCPrivilegedListenAddress } ∧
      r1.nodeConfig = r.nodeConfig ∧
      (∀ k, k ≠ h → m1 k = m k ∧ r1.GetReplNodeConfig k = r.GetReplNodeConfig k) := by
  obtain ⟨r1, hu, hm1, hc1, hn1⟩ := updateNodeConfig_full r m h i hm
  refine ⟨r1, _, listenAddressesFor r.nodeConfig r.userConfig.GetListenPort i,
    (NewConfigCopy r.nodeConfig).SetListenAddresses
      (mapGet (listenAddressesFor r.nodeConfig r.userConfig.GetListenPort i) "P2P")
      (mapGet (listenAddressesFor r.nodeConfig r.userConfig.GetListenPort i) "RPC")
      (mapGet (listenAddressesFor r.nodeConfig r.userConfig.GetListenPort i) "GRPC")
      (mapGet (listenAddressesFor r.nodeConfig r.userConfig.GetListenPort i) "GRPCPriv"),
    hu, hm1, by simp, by simp [Reactor.GetReplNodeConfig, hc1], ?_, ?_, ?_, ?_, ?_, ?_, hn1, ?_⟩
  · simp [listenAddressesFor, mapGet, Config.SetListenAddresses]
  · simp [listenAddressesFor, mapGet, Config.SetListenAddresses]
  · simp [listenAddressesFor, mapGet, Config.SetListenAddresses]
  · simp [listenAddressesFor, mapGet, Config.SetListenAddresses]
  · intro k h1 h2 h3 h4
    simp [listenAddressesFor, h1, h2, h3, h4]
  · simp [Config.SetListenAddresses, NewConfigCopy]
  · intro k hk
    simp [Reactor.GetReplNodeConfig, hc1, hk]

/-- Witness of C23: the scope `addr:b` at index 1 of the sample reactor. -/
theorem updateNodeConfig_config_copy_witness :
    ∃ r1 m1 entry cfg,
      ({ sampleReactor with ListenAddresses := some (fun _ => none) } :
        Reactor).updateNodeConfig "addr:b" 1 = .ok (r1, none) ∧
      r1.ListenAddresses = some m1 ∧ m1 "addr:b" = some entry ∧
      r1.GetReplNodeConfig "addr:b" = some cfg ∧
      entry "P2P" = some cfg.P2PListenAddress ∧
      cfg.P2PListenAddress = "tcp://0.0.0.0:30002" ∧
      r1.nodeConfig = sampleConfig :=
  match updateNodeConfig_config_copy { sampleReactor with ListenAddresses := some (fun _ => none) }
    (fun _ => none) "addr:b" 1 rfl with
  | ⟨r1, m1, entry, cfg, h1, h2, h3, h4, h5, _, _, _, _, _, h6, _⟩ =>
    ⟨r1, m1, entry, cfg, h1, h2, h3, h4, h5, by
      have h7 := updateNodeConfig_full { sampleReactor with ListenAddresses := some (fun _ => none) }
        (fun _ => none) "addr:b" 1 rfl
      obtain ⟨r2, hu, hm2, -, -⟩ := h7
      rw [h1] at hu
      cases hu
      rw [h2] at hm2
      cases hm2
      simp only [if_true] at h3
      cases h3
      have h8 : listenAddressesFor sampleConfig 30001 1 "P2P" = some "tcp://0.0.0.0:30002" := by
        decide
      exact Option.some.inj (h5.symm.trans h8), h6⟩

/-! ### The block sync version -/

/-- C24: `createBlocksyncReactor` returns a nil error and a non-nil reactor exactly when
`config.BlockSync.Version` is `v0` (and the constructor `blocksync.NewReactor`, which is
called only then, returns); for `v0` the reactor is the one the constructor returns, with
its logger set; for `v1` and `v2` it returns a nil reactor and the error saying that the
version has been deprecated; for every other string it returns a nil reactor and the
error `unknown block sync version`. -/
theorem createBlocksyncReactor_version {ε ρ : Type}
    (NewReactor : State → ε → ScopedBlockStore → Bool → Int → Except String ρ)
    (SetLogger : ρ → ρ) (config : Config) (state : ScopedState) (blockExec : ε)
    (blockStore : ScopedBlockStore) (blockSync : Bool) (offlineStateSyncHeight : Int) :
    ((∃ bcReactor, createBlocksyncReactor NewReactor SetLogger config state blockExec
          blockStore blockSync offlineStateSyncHeight = .ok (some bcReactor, none)) ↔
        (config.BlockSyncVersion = "v0" ∧
          ∃ b, NewReactor state.State blockExec blockStore blockSync offlineStateSyncHeight =
            .ok b)) ∧
      (config.BlockSyncVersion = "v0" →
        ∀ b, NewReactor state.State blockExec blockStore blockSync offlineStateSyncHeight =
            .ok b →
          createBlocksyncReactor NewReactor SetLogger config state blockExec blockStore
            blockSync offlineStateSyncHeight = .ok (some (SetLogger b), none)) ∧
      (config.BlockSyncVersion = "v1" ∨ config.BlockSyncVersion = "v2" →
        createBlocksyncReactor NewReactor SetLogger config state blockExec blockStore
            blockSync offlineStateSyncHeight =
          .ok (none, some ("block sync version " ++ config.BlockSyncVersion ++
            " has been deprecated. Please use v0"))) ∧
      (config.BlockSyncVersion ≠ "v0" → config.BlockSyncVersion ≠ "v1" →
        config.BlockSyncVersion ≠ "v2" →
        createBlocksyncReactor NewReactor SetLogger config state blockExec blockStore
            blockSync offlineStateSyncHeight =
          .ok (none, some ("unknown block sync version " ++ config.BlockSyncVersion))) := by
  refine ⟨⟨?_, ?_⟩, ?_, ?_, ?_⟩
  · rintro ⟨bcReactor, hc⟩
    unfold createBlocksyncReactor at hc
    by_cases h0 : config.BlockSyncVersion = "v0"
    · rw [if_pos h0] at hc
      cases hn : NewReactor state.State blockExec blockStore blockSync
          offlineStateSyncHeight with
      | error e => simp [hn] at hc
      | ok b => exact ⟨h0, b, rfl⟩
    · rw [if_neg h0] at hc
      split at hc <;> simp at hc
  · rintro ⟨h0, b, hb⟩
    exact ⟨SetLogger b, by simp [createBlocksyncReactor, h0, hb]⟩
  · intro h0 b hb
    simp [createBlocksyncReactor, h0, hb]
  · intro h12
    have h0 : config.BlockSyncVersion ≠ "v0" := by
      rcases h12 with h | h <;> rw [h] <;> decide
    simp [createBlocksyncReactor, h0, h12]
  · intro h0 h1 h2
    simp [createBlocksyncReactor, h0, h1, h2]

/-- Witness of C24: the versions `v0`, `v2` and `v3` of the sample configuration. -/
theorem createBlocksyncReactor_version_witness :
    createBlocksyncReactor sampleBlocksyncReactor id sampleConfig sampleScopedState ()
        sampleBlockStore true 0 = .ok (some "blocksync/chain-addr:a/on", none) ∧
      createBlocksyncReactor sampleBlocksyncReactor id
          { sampleConfig with BlockSyncVersion := "v2" } sampleScopedState ()
          sampleBlockStore true 0 =
        .ok (none, some "block sync version v2 has been deprecated. Please use v0") ∧
      createBlocksyncReactor sampleBlocksyncReactor id
          { sampleConfig with BlockSyncVersion := "v3" } sampleScopedState ()
          sampleBlockStore true 0 = .ok (none, some "unknown block sync version v3") :=
  ⟨(createBlocksyncReactor_version sampleBlocksyncReactor id sampleConfig sampleScopedState ()
      sampleBlockStore true 0).2.1 rfl _ rfl,
    (createBlocksyncReactor_version sampleBlocksyncReactor id
      { sampleConfig with BlockSyncVersion := "v2" } sampleScopedState ()
      sampleBlockStore true 0).2.2.1 (Or.inr rfl),
    (createBlocksyncReactor_version sampleBlocksyncReactor id
      { sampleConfig with BlockSyncVersion := "v3" } sampleScopedState ()
      sampleBlockStore true 0).2.2.2 (by decide) (by decide) (by decide)⟩

/-! ### The locks around the service registry -/

/-- C25 does not hold of the code: `RegisterService` reads and writes the service registry
and the closure `serviceProvider` reads it without taking any mutex, whichever mutex one
looks for and whether the scope is already known or not, whereas `RegisterPrivVal` writes
the private-validator registry while holding `pvMutex`. -/
theorem registerService_takes_no_lock (mutex : String) (scopeKnown : Bool) :
    guardedBy mutex "serviceRegistry" false (RegisterService.ops scopeKnown) = false ∧
      guardedBy mutex "serviceRegistry" false serviceProvider.ops = false ∧
      guardedBy "pvMutex" "mxPrivVals" false RegisterPrivVal.ops = true := by
  refine ⟨?_, ?_, by decide⟩
  · cases scopeKnown <;> simp [RegisterService.ops, guardedBy]
  · simp [serviceProvider.ops, guardedBy]

/-! ### The count of collected genesis hashes -/

/-- C27: whenever the loop of the loader over the scopes runs to completion, the number
of hashes collected in `genDocSetHashes` equals the number of replicated chains, so the
loader returns without error; and every error that the loader returns is the error of the
genesis provider or the error that stopped the loop, never the one of the final check
`missing genesis docs in set`. -/
theorem missing_genesis_docs_check_unreachable (env : Env) (dbs : MultiplexDB)
    (p : Except String IChecksummedGenesisDoc) (op : String) (config : Config) :
    (∀ ics st, p = .ok ics →
      loadScopes env ics op config (env.GetScopeHashes config.Replication config.UserScopes)
        (initLoop dbs) = (st, none) →
      st.genDocSetHashes.length =
          (env.GetScopeHashes config.Replication config.UserScopes).length ∧
        (LoadMultiplexStateFromDBOrGenesisDocProviderWithConfig env dbs p op config).err =
          none) ∧
      (∀ e, (LoadMultiplexStateFromDBOrGenesisDocProviderWithConfig env dbs p op config).err =
          some e →
        p = .error e ∨
          ∃ ics st, p = .ok ics ∧
            loadScopes env ics op config
              (env.GetScopeHashes config.Replication config.UserScopes) (initLoop dbs) =
              (st, some e)) := by
  have hcount : ∀ ics st,
      loadScopes env ics op config (env.GetScopeHashes config.Replication config.UserScopes)
        (initLoop dbs) = (st, none) →
      st.genDocSetHashes.length =
        (env.GetScopeHashes config.Replication config.UserScopes).length := by
    intro ics st hl
    obtain ⟨-, -, -, hn⟩ := loadScopes_ok env ics op config _ _ _ hl
    simpa [initLoop] using hn
  refine ⟨?_, ?_⟩
  · intro ics st hp hl
    subst hp
    refine ⟨hcount ics st hl, ?_⟩
    rw [load_of_loop_ok env dbs ics op config st hl (hcount ics st hl)]
  · intro e he
    cases p with
    | error e0 =>
      simp only [LoadMultiplexStateFromDBOrGenesisDocProviderWithConfig, Option.some.injEq]
        at he
      exact Or.inl (by rw [he])
    | ok ics =>
      right
      rcases hl : loadScopes env ics op config
          (env.GetScopeHashes config.Replication config.UserScopes) (initLoop dbs)
        with ⟨st, _ | e1⟩
      · rw [load_of_loop_ok env dbs ics op config st hl (hcount ics st hl)] at he
        simp at he
      · have hl0 := hl
        unfold LoadMultiplexStateFromDBOrGenesisDocProviderWithConfig at he
        simp only [initLoop] at hl0
        simp only [hl0, Option.some.injEq] at he
        exact ⟨ics, st, rfl, by rw [← he]; exact hl⟩

/-- Witness of C27: the loop over the three sample scopes collects three hashes. -/
theorem missing_genesis_docs_check_unreachable_witness :
    (loadScopes sampleEnv sampleGenesis "" sampleConfig
        (sampleEnv.GetScopeHashes sampleConfig.Replication sampleConfig.UserScopes)
        (initLoop sampleDBs)).1.genDocSetHashes.length = 3 ∧
      (LoadMultiplexStateFromDBOrGenesisDocProviderWithConfig sampleEnv sampleDBs
        (.ok sampleGenesis) "" sampleConfig).err = none :=
  (missing_genesis_docs_check_unreachable sampleEnv sampleDBs (.ok sampleGenesis) ""
    sampleConfig).1 sampleGenesis _ rfl rfl

/-! ### Addresses without a port, and ports beyond 16 bits -/

/-- C28: a base listen address in which no `:` is immediately followed by a decimal digit
is stored unchanged by `updateNodeConfig`, for every scope hash and every index; so for such
a base address any two scopes are given the same listen address string for that endpoint,
whatever their indices. This holds for each of the four endpoints. -/
theorem updateNodeConfig_address_without_port (r : Reactor) (m : MultiplexServiceAddress)
    (hm : r.ListenAddresses = some m) :
    (hasColonDigit r.nodeConfig.P2PListenAddress.data = false →
        (∀ h i, storedAddress (r.updateNodeConfig h i) h "P2P" =
          some r.nodeConfig.P2PListenAddress) ∧
        ∀ h1 i1 h2 i2, storedAddress (r.updateNodeConfig h1 i1) h1 "P2P" =
          storedAddress (r.updateNodeConfig h2 i2) h2 "P2P") ∧
      (hasColonDigit r.nodeConfig.RPCListenAddress.data = false →
        (∀ h i, storedAddress (r.updateNodeConfig h i) h "RPC" =
          some r.nodeConfig.RPCListenAddress) ∧
        ∀ h1 i1 h2 i2, storedAddress (r.updateNodeConfig h1 i1) h1 "RPC" =
          storedAddress (r.updateNodeConfig h2 i2) h2 "RPC") ∧
      (hasColonDigit r.nodeConfig.GRPCListenAddress.data = false →
        (∀ h i, storedAddress (r.updateNodeConfig h i) h "GRPC" =
          some r.nodeConfig.GRPCListenAddress) ∧
        ∀ h1 i1 h2 i2, storedAddress (r.updateNodeConfig h1 i1) h1 "GRPC" =
          storedAddress (r.updateNodeConfig h2 i2) h2 "GRPC") ∧
      (hasColonDigit r.nodeConfig.GRPCPrivilegedListenAddress.data = false →
        (∀ h i, storedAddress (r.updateNodeConfig h i) h "GRPCPriv" =
          some r.nodeConfig.GRPCPrivilegedListenAddress) ∧
        ∀ h1 i1 h2 i2, storedAddress (r.updateNodeConfig h1 i1) h1 "GRPCPriv" =
          storedAddress (r.updateNodeConfig h2 i2) h2 "GRPCPriv") := by
  have key : ∀ h i, ∀ e, storedAddress (r.updateNodeConfig h i) h e =
      listenAddressesFor r.nodeConfig r.userConfig.GetListenPort i e := by
    intro h i e
    obtain ⟨r1, hu, hm1, -, -, -⟩ := updateNodeConfig_ok r m h i hm
    rw [hu]
    simp [storedAddress, hm1]
  refine ⟨?_, ?_, ?_, ?_⟩
  · intro hno
    have h0 : ∀ h i, storedAddress (r.updateNodeConfig h i) h "P2P" =
        some r.nodeConfig.P2PListenAddress := by
      intro h i
      rw [key]
      simp [listenAddressesFor, replaceAllString_no_match _ _ hno]
    exact ⟨h0, fun h1 i1 h2 i2 => by rw [h0, h0]⟩
  · intro hno
    have h0 : ∀ h i, storedAddress (r.updateNodeConfig h i) h "RPC" =
        some r.nodeConfig.RPCListenAddress := by
      intro h i
      rw [key]
      simp [listenAddressesFor, replaceAllString_no_match _ _ hno]
    exact ⟨h0, fun h1 i1 h2 i2 => by rw [h0, h0]⟩
  · intro hno
    have h0 : ∀ h i, storedAddress (r.updateNodeConfig h i) h "GRPC" =
        some r.nodeConfig.GRPCListenAddress := by
      intro h i
      rw [key]
      simp [listenAddressesFor, replaceAllString_no_match _ _ hno]
    exact ⟨h0, fun h1 i1 h2 i2 => by rw [h0, h0]⟩
  · intro hno
    have h0 : ∀ h i, storedAddress (r.updateNodeConfig h i) h "GRPCPriv" =
        some r.nodeConfig.GRPCPrivilegedListenAddress := by
      intro h i
      rw [key]
      simp [listenAddressesFor, replaceAllString_no_match _ _ hno]
    exact ⟨h0, fun h1 i1 h2 i2 => by rw [h0, h0]⟩

/-- Witness of C28: a Unix socket as P2P listen address is given unchanged to the scopes
at index 0 and at index 1. -/
theorem updateNodeConfig_address_without_port_witness :
    storedAddress (socketAddressReactor.updateNodeConfig "addr:a" 0) "addr:a" "P2P" =
        some "unix:///var/run/p2p.sock" ∧
      storedAddress (socketAddressReactor.updateNodeConfig "addr:a" 0) "addr:a" "P2P" =
        storedAddress (socketAddressReactor.updateNodeConfig "addr:b" 1) "addr:b" "P2P" :=
  ⟨((updateNodeConfig_address_without_port socketAddressReactor (fun _ => none) rfl).1
      (by decide)).1 "addr:a" 0,
    ((updateNodeConfig_address_without_port socketAddressReactor (fun _ => none) rfl).1
      (by decide)).2 "addr:a" 0 "addr:b" 1⟩

/-- C30: `updateNodeConfig` never returns an error, and returns whenever the
`ListenAddresses` map is allocated. For a base `b` of the listen ports between 0 and 65535
and every index `i`, the port text that it writes into the privileged-gRPC listen address
is the decimal rendering of `b + 3000 + i` (and likewise `b + i`, `b + 1000 + i`,
`b + 2000 + i` for the other endpoints), with no range check and no reduction modulo
`2^16`, so also when the value exceeds 65535: for every base address the stored address is
the base address with each match of the port pattern replaced by `:` and that rendering,
and, for each endpoint on its own, a base address made of a host part, a colon and digits is
stored as the host part, a colon and that rendering. The sums are those of the 64-bit
integers of the code for every index below `2^63 - 68535`. -/
theorem updateNodeConfig_ports_plain_arithmetic (r : Reactor) (h : String) (i : Nat) :
    (∀ r1 err, r.updateNodeConfig h i = .ok (r1, err) → err = none) ∧
    (∀ m, r.ListenAddresses = some m →
      (∃ r1, r.updateNodeConfig h i = .ok (r1, none)) ∧
      (0 ≤ r.userConfig.GetListenPort → r.userConfig.GetListenPort ≤ 65535 →
        (storedAddress (r.updateNodeConfig h i) h "P2P" =
            some (ReplaceAllString r.nodeConfig.P2PListenAddress
              (":" ++ Nat.repr (r.userConfig.GetListenPort + i).toNat)) ∧
          storedAddress (r.updateNodeConfig h i) h "RPC" =
            some (ReplaceAllString r.nodeConfig.RPCListenAddress
              (":" ++ Nat.repr (r.userConfig.GetListenPort + 1000 + i).toNat)) ∧
          storedAddress (r.updateNodeConfig h i) h "GRPC" =
            some (ReplaceAllString r.nodeConfig.GRPCListenAddress
              (":" ++ Nat.repr (r.userConfig.GetListenPort + 2000 + i).toNat)) ∧
          storedAddress (r.updateNodeConfig h i) h "GRPCPriv" =
            some (ReplaceAllString r.nodeConfig.GRPCPrivilegedListenAddress
              (":" ++ Nat.repr (r.userConfig.GetListenPort + 3000 + i).toNat))) ∧
        ((∀ H, IsHostPort r.nodeConfig.P2PListenAddress H →
            storedAddress (r.updateNodeConfig h i) h "P2P" =
              some (H ++ ":" ++ Nat.repr (r.userConfig.GetListenPort + i).toNat)) ∧
          (∀ H, IsHostPort r.nodeConfig.RPCListenAddress H →
            storedAddress (r.updateNodeConfig h i) h "RPC" =
              some (H ++ ":" ++ Nat.repr (r.userConfig.GetListenPort + 1000 + i).toNat)) ∧
          (∀ H, IsHostPort r.nodeConfig.GRPCListenAddress H →
            storedAddress (r.updateNodeConfig h i) h "GRPC" =
              some (H ++ ":" ++ Nat.repr (r.userConfig.GetListenPort + 2000 + i).toNat)) ∧
          (∀ H, IsHostPort r.nodeConfig.GRPCPrivilegedListenAddress H →
            storedAddress (r.updateNodeConfig h i) h "GRPCPriv" =
              some (H ++ ":" ++ Nat.repr (r.userConfig.GetListenPort + 3000 + i).toNat))) ∧
        ((i : Int) < 2 ^ 63 - 68535 →
          wrapInt64 (wrapInt64 (r.userConfig.GetListenPort + 3000) + i) =
            r.userConfig.GetListenPort + 3000 + i ∧
          wrapInt64 (wrapInt64 (r.userConfig.GetListenPort + 2000) + i) =
            r.userConfig.GetListenPort + 2000 + i ∧
          wrapInt64 (wrapInt64 (r.userConfig.GetListenPort + 1000) + i) =
            r.userConfig.GetListenPort + 1000 + i ∧
          wrapInt64 (r.userConfig.GetListenPort + i) = r.userConfig.GetListenPort + i))) := by
  have hi : (0 : Int) ≤ (i : Int) := Int.ofNat_nonneg i
  refine ⟨?_, ?_⟩
  · intro r1 err hu
    unfold Reactor.updateNodeConfig at hu
    cases hl : r.ListenAddresses with
    | none => simp [hl] at hu
    | some m =>
      simp only [hl, Except.ok.injEq, Prod.mk.injEq] at hu
      exact hu.2.symm
  · intro m hm
    obtain ⟨r1, hu, hm1, -, -, -⟩ := updateNodeConfig_ok r m h i hm
    refine ⟨⟨r1, hu⟩, ?_⟩
    intro hb0 hb1
    have e1 := itoa_nonneg _ (by omega : (0 : Int) ≤ r.userConfig.GetListenPort + i)
    have e2 := itoa_nonneg _ (by omega : (0 : Int) ≤ r.userConfig.GetListenPort + 1000 + i)
    have e3 := itoa_nonneg _ (by omega : (0 : Int) ≤ r.userConfig.GetListenPort + 2000 + i)
    have e4 := itoa_nonneg _ (by omega : (0 : Int) ≤ r.userConfig.GetListenPort + 3000 + i)
    rw [hu]
    simp only [storedAddress, hm1, Option.bind_some, if_true]
    refine ⟨⟨?_, ?_, ?_, ?_⟩, ⟨?_, ?_, ?_, ?_⟩, ?_⟩
    · simp [listenAddressesFor, newP2PPort, e1]
    · simp [listenAddressesFor, newRPCPort, e2]
    · simp [listenAddressesFor, newGRPCPort, e3]
    · simp [listenAddressesFor, newGRPCPrivPort, e4]
    · intro H h1
      simp [listenAddressesFor, replaceAllString_host_port _ _ _ h1, newP2PPort, e1]
    · intro H h2
      simp [listenAddressesFor, replaceAllString_host_port _ _ _ h2, newRPCPort, e2]
    · intro H h3
      simp [listenAddressesFor, replaceAllString_host_port _ _ _ h3, newGRPCPort, e3]
    · intro H h4
      simp [listenAddressesFor, replaceAllString_host_port _ _ _ h4, newGRPCPrivPort, e4]
    · intro hlt
      obtain ⟨w1, w2, w3, w4⟩ := ports_no_wrap r.userConfig.GetListenPort i (by omega)
        (by omega)
      exact ⟨w4, w3, w2, w1⟩

/-- Witness of C30: with the base 65535 the scope at index 7 is given the ports 65542 and
68542, also where the gRPC listen address is empty. -/
theorem updateNodeConfig_ports_plain_arithmetic_witness :
    storedAddress (highPortReactor.updateNodeConfig "addr:a" 7) "addr:a" "P2P" =
        some "tcp://0.0.0.0:65542" ∧
      storedAddress (highPortReactor.updateNodeConfig "addr:a" 7) "addr:a" "GRPCPriv" =
        some "tcp://127.0.0.1:68542" ∧
      storedAddress (({ highPortReactor with
          nodeConfig := { sampleConfig with GRPCListenAddress := "" } } :
          Reactor).updateNodeConfig "addr:a" 7) "addr:a" "P2P" = some "tcp://0.0.0.0:65542" :=
  ⟨((((updateNodeConfig_ports_plain_arithmetic highPortReactor "addr:a" 7).2 (fun _ => none)
      rfl).2 (by decide) (by decide)).2.1.1 "tcp://0.0.0.0"
      (isHostPort_of_parts "tcp://0.0.0.0" "26656" (by decide) (by decide)
        (by decide))).trans (by decide),
    ((((updateNodeConfig_ports_plain_arithmetic highPortReactor "addr:a" 7).2 (fun _ => none)
      rfl).2 (by decide) (by decide)).2.1.2.2.2 "tcp://127.0.0.1"
      (isHostPort_of_parts "tcp://127.0.0.1" "26671" (by decide) (by decide)
        (by decide))).trans (by decide),
    ((((updateNodeConfig_ports_plain_arithmetic
      { highPortReactor with nodeConfig := { sampleConfig with GRPCListenAddress := "" } }
      "addr:a" 7).2 (fun _ => none) rfl).2 (by decide) (by decide)).2.1.1 "tcp://0.0.0.0"
      (isHostPort_of_parts "tcp://0.0.0.0" "26656" (by decide) (by decide)
        (by decide))).trans (by decide)⟩

/-! ### The options of the block executor -/

theorem applyOptions_eq_foldl {β : Type} (options : List (β → β)) :
    ∀ res, applyOptions options res = options.foldl (fun executor opt => opt executor) res := by
  induction options with
  | nil => intro res; rfl
  | cons opt rest ih => intro res; simp [applyOptions, ih]

theorem applyOptions_fixed {β : Type} (options : List (β → β)) (res : β)
    (hfix : ∀ opt, opt ∈ options → opt res = res) : applyOptions options res = res := by
  induction options with
  | nil => rfl
  | cons opt rest ih =>
    simp only [applyOptions, hfix opt (List.mem_cons_self _ _)]
    exact ih (fun o ho => hfix o (List.mem_cons_of_mem _ ho))

/-- C29: the executor that `NewMultiplexBlockExecutor` returns is the one that
`sm.NewBlockExecutor` returns for the same arguments and options with each option applied
again, in order; hence it is the result of `sm.NewBlockExecutor` exactly when applying the
options again leaves that result unchanged, which is the case when each option leaves it
unchanged and when no options are passed. -/
theorem newMultiplexBlockExecutor_applies_options_again {π μ ν β : Type}
    (NewBlockExecutor : ScopedStateStore → π → μ → ν → ScopedBlockStore → List (β → β) → β)
    (stateStore : ScopedStateStore) (proxyApp : π) (mempool : μ) (evpool : ν)
    (blockStore : ScopedBlockStore) (options : List (β → β)) :
    NewMultiplexBlockExecutor NewBlockExecutor stateStore proxyApp mempool evpool blockStore
        options =
      executorWithOptionsAgain NewBlockExecutor stateStore proxyApp mempool evpool blockStore
        options ∧
    (NewMultiplexBlockExecutor NewBlockExecutor stateStore proxyApp mempool evpool blockStore
        options = NewBlockExecutor stateStore proxyApp mempool evpool blockStore options ↔
      options.foldl (fun executor opt => opt executor)
        (NewBlockExecutor stateStore proxyApp mempool evpool blockStore options) =
        NewBlockExecutor stateStore proxyApp mempool evpool blockStore options) ∧
    ((∀ opt, opt ∈ options →
        opt (NewBlockExecutor stateStore proxyApp mempool evpool blockStore options) =
          NewBlockExecutor stateStore proxyApp mempool evpool blockStore options) →
      NewMultiplexBlockExecutor NewBlockExecutor stateStore proxyApp mempool evpool blockStore
        options = NewBlockExecutor stateStore proxyApp mempool evpool blockStore options) ∧
    (options = [] →
      NewMultiplexBlockExecutor NewBlockExecutor stateStore proxyApp mempool evpool blockStore
        options = NewBlockExecutor stateStore proxyApp mempool evpool blockStore options) := by
  refine ⟨?_, ?_, ?_, ?_⟩
  · exact applyOptions_eq_foldl options _
  · unfold NewMultiplexBlockExecutor
    simp only
    rw [applyOptions_eq_foldl]
  · intro hfix
    exact applyOptions_fixed options _ hfix
  · intro hnil
    subst hnil
    rfl

/-- Witness of C29: over executors that count how often an option is applied, one counting
option is applied twice, so the multiplex executor differs from the one of
`sm.NewBlockExecutor`; without options the two are the same. -/
theorem newMultiplexBlockExecutor_applies_options_again_witness :
    NewMultiplexBlockExecutor countingBlockExecutor sampleStateStore () () () sampleBlockStore
        [fun n => n + 1] = 2 ∧
      countingBlockExecutor sampleStateStore () () () sampleBlockStore [fun n => n + 1] = 1 ∧
      NewMultiplexBlockExecutor countingBlockExecutor sampleStateStore () () ()
        sampleBlockStore [] =
        countingBlockExecutor sampleStateStore () () () sampleBlockStore [] :=
  ⟨(newMultiplexBlockExecutor_applies_options_again countingBlockExecutor sampleStateStore
      () () () sampleBlockStore [fun n => n + 1]).1.trans rfl, rfl,
    (newMultiplexBlockExecutor_applies_options_again countingBlockExecutor sampleStateStore
      () () () sampleBlockStore []).2.2.2 rfl⟩

/-! ### `splitAndTrimEmpty` -/

theorem trimLoop_eq (cutset : String) (spl : List String) :
    ∀ nonEmptyStrings, trimLoop cutset nonEmptyStrings spl =
      nonEmptyStrings ++ (spl.map (fun piece => stringsTrim piece cutset)).filter
        (fun piece => decide (piece ≠ "")) := by
  induction spl with
  | nil => intro acc; simp [trimLoop]
  | cons piece rest ih =>
    intro acc
    by_cases he : stringsTrim piece cutset = ""
    · simp [trimLoop, he, ih]
    · simp [trimLoop, he, ih]

theorem stringsTrim_empty (cutset : String) : stringsTrim "" cutset = "" := by
  simp [stringsTrim]

theorem splitTrimDropEmpty_empty (sep cutset : String) : splitTrimDropEmpty "" sep cutset = [] := by
  unfold splitTrimDropEmpty stringsSplit
  by_cases hsep : sep = ""
  · simp [hsep]
  · have h0 : splitGo sep.data 0 [] ("" : String).data = [[]] := rfl
    rw [if_neg hsep, h0]
    have h1 : String.mk [] = "" := rfl
    simp [h1, stringsTrim_empty]

theorem head_dropWhile_false (f : Char → Bool) (l : List Char) (c : Char)
    (h : (l.dropWhile f).head? = some c) : f c = false := by
  induction l with
  | nil => simp at h
  | cons a rest ih =>
    by_cases ha : f a = true
    · rw [List.dropWhile_cons_of_pos ha] at h
      exact ih h
    · rw [List.dropWhile_cons_of_neg ha] at h
      simp only [List.head?_cons, Option.some.injEq] at h
      subst h
      simpa using ha

theorem stringsTrim_ends (piece cutset : String) :
    (∀ c, (stringsTrim piece cutset).data.head? = some c → c ∉ cutset.data) ∧
      (∀ c, (stringsTrim piece cutset).data.getLast? = some c → c ∉ cutset.data) := by
  have hdata : (stringsTrim piece cutset).data =
      ((piece.data.dropWhile (fun c => cutset.data.contains c)).reverse.dropWhile
        (fun c => cutset.data.contains c)).reverse := rfl
  refine ⟨?_, ?_⟩
  · intro c hc
    rw [hdata] at hc
    have hpre : ((piece.data.dropWhile (fun c => cutset.data.contains c)).reverse.dropWhile
        (fun c => cutset.data.contains c)).reverse <+:
        piece.data.dropWhile (fun c => cutset.data.contains c) :=
      List.rdropWhile_prefix _ _
    obtain ⟨t, ht⟩ := hpre
    have hhead : (piece.data.dropWhile (fun c => cutset.data.contains c)).head? = some c := by
      rw [← ht]
      cases hR : ((piece.data.dropWhile (fun c => cutset.data.contains c)).reverse.dropWhile
          (fun c => cutset.data.contains c)).reverse with
      | nil => rw [hR] at hc; simp at hc
      | cons a R => rw [hR] at hc; simpa using hc
    have := head_dropWhile_false _ _ _ hhead
    simpa using this
  · intro c hc
    rw [hdata, List.getLast?_reverse] at hc
    have := head_dropWhile_false _ _ _ hc
    simpa using this

/-- C26: for every `s`, `sep` and `cutset`, `splitAndTrimEmpty` returns the list obtained
by splitting `s` at every occurrence of `sep`, removing from both ends of each piece the
characters contained in `cutset`, and dropping the pieces that are then empty, in the
original order; the result is the empty list when `s` is empty; and no element of the
result is the empty string or begins or ends with a character of `cutset`. -/
theorem splitAndTrimEmpty_spec (s sep cutset : String) :
    splitAndTrimEmpty s sep cutset = splitTrimDropEmpty s sep cutset ∧
      (s = "" → splitAndTrimEmpty s sep cutset = []) ∧
      (∀ e, e ∈ splitAndTrimEmpty s sep cutset →
        e ≠ "" ∧ (∀ c, e.data.head? = some c → c ∉ cutset.data) ∧
          (∀ c, e.data.getLast? = some c → c ∉ cutset.data)) := by
  have heq : splitAndTrimEmpty s sep cutset = splitTrimDropEmpty s sep cutset := by
    unfold splitAndTrimEmpty
    by_cases hs : s = ""
    · rw [if_pos hs, hs, splitTrimDropEmpty_empty]
    · rw [if_neg hs, trimLoop_eq]
      rfl
  refine ⟨heq, ?_, ?_⟩
  · intro hs
    simp [splitAndTrimEmpty, hs]
  · intro e he
    rw [heq] at he
    unfold splitTrimDropEmpty at he
    simp only [List.mem_filter, List.mem_map, decide_eq_true_eq] at he
    obtain ⟨⟨piece, -, rfl⟩, hne⟩ := he
    exact ⟨hne, stringsTrim_ends piece cutset⟩

/-- Witness of C26: a list of comma-separated names with blanks and an empty piece. -/
theorem splitAndTrimEmpty_spec_witness :
    splitTrimDropEmpty " a, b ,,c " "," " " = ["a", "b", "c"] ∧
      splitAndTrimEmpty "" "," " " = [] :=
  ⟨(splitAndTrimEmpty_spec " a, b ,,c " "," " ").1.symm.trans (by decide),
    (splitAndTrimEmpty_spec "" "," " ").2.1 rfl⟩

end Multiplex
